import Mathlib

/-!
Verification of the ICT trading bot core (crypto v4 strategy engine
`src/ict_strategy.py`, trade manager `src/trade_manager.py`, self optimizer
`src/self_optimizer.py`, configuration `src/config.py`) against its
natural-language specification.

Modelling conventions:
* Python floats are modelled as exact rationals (`ℚ`).
* A pandas OHLCV frame is a `List Candle`, oldest first; positional access
  `df.iloc[i]` / `values[i]` becomes `candAt df i`.
* Python `round` (banker's rounding, used by the optimizer and for the
  POI risk/reward figure) is modelled as exact decimal half-to-even
  rounding `pyRound`.
* Mutable `self` state (the strategy's parameter snapshot, the trade
  manager's `_trade_state` entries, the optimizer's rollback bookkeeping)
  is threaded explicitly through the translated functions.
* Calls into the persistence layer (`database.py`, which is not part of
  the sources) are modelled as reads/updates of explicit store records,
  following the persistence contract in the specification.
-/

namespace ICTBot

/-- OHLCV candle of a frame, as consumed by `src/ict_strategy.py`.
`ts` stands for the candle's timestamp (opaque to all computations). -/
structure Candle where
  ts : ℕ
  open_ : ℚ
  high : ℚ
  low : ℚ
  close : ℚ
  volume : ℚ
deriving Repr, DecidableEq, Inhabited

/-- Positional access `df.iloc[i]` on a frame; out-of-range access never
occurs on the paths exercised (guards mirror the source), the default
candle only totalises the function. -/
def candAt (df : List Candle) (i : ℕ) : Candle := (df[i]?).getD default

/-- `df["high"].values[i]`. -/
def hiAt (df : List Candle) (i : ℕ) : ℚ := (candAt df i).high

/-- `df["low"].values[i]`. -/
def loAt (df : List Candle) (i : ℕ) : ℚ := (candAt df i).low

/-- `df["open"].values[i]`. -/
def opAt (df : List Candle) (i : ℕ) : ℚ := (candAt df i).open_

/-- `df["close"].values[i]`. -/
def clAt (df : List Candle) (i : ℕ) : ℚ := (candAt df i).close

/-- `df["volume"].values[i]`. -/
def volAt (df : List Candle) (i : ℕ) : ℚ := (candAt df i).volume

/-- Python `range(a, b)` as a list of naturals. -/
def pyRange (a b : ℕ) : List ℕ := List.range' a (b - a)

/-- Banker's rounding to an integer: Python's builtin `round(x)`. -/
def roundHalfEven (q : ℚ) : ℤ :=
  let f := ⌊q⌋
  let r := q - f
  if r < 1/2 then f
  else if 1/2 < r then f + 1
  else if f % 2 = 0 then f else f + 1

/-- Python `round(x, n)` on exact decimals: half-to-even at `n` places. -/
def pyRound (q : ℚ) (n : ℕ) : ℚ := (roundHalfEven (q * 10 ^ n) : ℚ) / 10 ^ n

/-- Python `int(x)`: truncation toward zero. -/
def pyTrunc (q : ℚ) : ℤ := if 0 ≤ q then ⌊q⌋ else ⌈q⌉

/-- Directional bias (`"LONG"` / `"SHORT"` / `"NEUTRAL"` strings in the source). -/
inductive Bias | LONG | SHORT | NEUTRAL
deriving Repr, DecidableEq, Inhabited

/-- A swing point as produced by `ICTStrategy._find_swing_points`
(src/ict_strategy.py:113-157): frame index, extreme price, timestamp. -/
structure SwingPoint where
  index : ℕ
  price : ℚ
  ts : ℕ
deriving Repr, DecidableEq, Inhabited

/-- `ICTStrategy._find_swing_points(df, lookback)`
(src/ict_strategy.py:113-157).  A candle at `i` is a swing high iff its
high strictly exceeds the highs of the `lookback` neighbours on each
side; symmetric for lows.  Returns `(swing_highs, swing_lows)`, each in
frame (chronological) order.  Frames shorter than `2*lookback + 1`
produce `([], [])`. -/
def find_swing_points (df : List Candle) (lookback : ℕ) : List SwingPoint × List SwingPoint :=
  if df.length < lookback * 2 + 1 then ([], [])
  else
    let idxs := pyRange lookback (df.length - lookback)
    let shs := idxs.filterMap (fun i =>
      if (List.range' 1 lookback).all
          (fun j => decide (hiAt df (i - j) < hiAt df i) && decide (hiAt df (i + j) < hiAt df i))
      then some ⟨i, hiAt df i, (candAt df i).ts⟩ else none)
    let sls := idxs.filterMap (fun i =>
      if (List.range' 1 lookback).all
          (fun j => decide (loAt df i < loAt df (i - j)) && decide (loAt df i < loAt df (i + j)))
      then some ⟨i, loAt df i, (candAt df i).ts⟩ else none)
    (shs, sls)

/-- Liquidity-pool classification (`"EQH"`, `"SWING_HIGH"`, `"EQL"`, `"SWING_LOW"`). -/
inductive LiqKind | EQH | SWING_HIGH | EQL | SWING_LOW
deriving Repr, DecidableEq, Inhabited

/-- One liquidity level from `_find_liquidity_pools`.  Note: the source
record has exactly the keys `price`, `type`, `strength` — there is no
`swept` flag. -/
structure LiqLevel where
  price : ℚ
  kind : LiqKind
  strength : ℕ
deriving Repr, DecidableEq, Inhabited

/-- Result record of `_find_liquidity_pools`. -/
structure LiquidityPools where
  bsl : List LiqLevel
  ssl : List LiqLevel
  nearest_bsl : ℚ
  nearest_ssl : ℚ
deriving Repr, DecidableEq, Inhabited

/-- `ICTStrategy._find_liquidity_pools(swing_highs, swing_lows, current_price)`
(src/ict_strategy.py:435-483).  `tolerance` is the
`liquidity_equal_tolerance` parameter.  Buy-side levels are the swing
highs above `current_price` (EQH when at least one other swing high lies
within the fractional tolerance), sell-side mirrors below; `nearest_bsl`
is the lowest buy-side level after the ascending sort (0 when none), and
`nearest_ssl` the highest sell-side level.  When either swing list is
empty or the price is 0 the empty result is returned. -/
def find_liquidity_pools (tolerance : ℚ) (swing_highs swing_lows : List SwingPoint)
    (current_price : ℚ) : LiquidityPools :=
  if swing_highs.isEmpty || swing_lows.isEmpty || current_price == 0 then
    ⟨[], [], 0, 0⟩
  else
    let bsl := swing_highs.filterMap (fun sh =>
      if current_price < sh.price then
        let eq_count := (swing_highs.filter (fun s =>
          decide (|s.price - sh.price| / sh.price ≤ tolerance) && decide (s.index ≠ sh.index))).length
        some (⟨sh.price, if 1 ≤ eq_count then .EQH else .SWING_HIGH,
               min (eq_count + 1) 5⟩ : LiqLevel)
      else none)
    let ssl := swing_lows.filterMap (fun sl =>
      if sl.price < current_price then
        let eq_count := (swing_lows.filter (fun s =>
          decide (|s.price - sl.price| / sl.price ≤ tolerance) && decide (s.index ≠ sl.index))).length
        some (⟨sl.price, if 1 ≤ eq_count then .EQL else .SWING_LOW,
               min (eq_count + 1) 5⟩ : LiqLevel)
      else none)
    let bslSorted := bsl.mergeSort (fun a b => decide (a.price ≤ b.price))
    let sslSorted := ssl.mergeSort (fun a b => decide (b.price ≤ a.price))
    { bsl := bslSorted
      ssl := sslSorted
      nearest_bsl := if bslSorted.isEmpty then 0 else (bslSorted.headD default).price
      nearest_ssl := if sslSorted.isEmpty then 0 else (sslSorted.headD default).price }

/-- Structure quality (`"STRONG"` / `"WEAK"` / `"NEUTRAL"`). -/
inductive Quality | STRONG | WEAK | NEUTRAL
deriving Repr, DecidableEq, Inhabited

/-- Result record of `ICTStrategy._detect_structure`. -/
structure StructureState where
  bias : Bias
  bos_count : ℕ
  choch_detected : Bool
  last_bos_price : ℚ
  last_swing_high : ℚ
  last_swing_low : ℚ
  structure_quality : Quality
deriving Repr, DecidableEq, Inhabited

/-- A swing tagged with its side, for the merged chronological list in
`_detect_structure`. -/
structure TaggedSwing where
  isHigh : Bool
  sp : SwingPoint
deriving Repr, DecidableEq, Inhabited

/-- Element at position `length - 2` (Python `l[-2]` for lists of length ≥ 2). -/
def secondLast (l : List α) : Option α := l[l.length - 2]?

/-- Number of strictly increasing consecutive pairs in a price list. -/
def countUp : List ℚ → ℕ
  | a :: b :: rest => (if a < b then 1 else 0) + countUp (b :: rest)
  | _ => 0

/-- Number of strictly decreasing consecutive pairs in a price list. -/
def countDown : List ℚ → ℕ
  | a :: b :: rest => (if b < a then 1 else 0) + countDown (b :: rest)
  | _ => 0

/-- `ICTStrategy._detect_structure(swing_highs, swing_lows)`
(src/ict_strategy.py:159-269).  Considers the last (up to) 8 swings in
chronological order, counts HH/HL/LH/LL transitions among highs and lows
separately, derives bias and quality, detects CHoCH (which downgrades
quality to WEAK but keeps the bias), and records the last BOS price. -/
def detect_structure (swing_highs swing_lows : List SwingPoint) : StructureState :=
  if swing_highs.length < 2 ∨ swing_lows.length < 2 then
    ⟨.NEUTRAL, 0, false, 0, 0, 0, .NEUTRAL⟩
  else
    let sh := swing_highs.mergeSort (fun a b => decide (a.index ≤ b.index))
    let sl := swing_lows.mergeSort (fun a b => decide (a.index ≤ b.index))
    let last_swing_high := ((sh.getLast?).getD default).price
    let last_swing_low := ((sl.getLast?).getD default).price
    let all_swings :=
      ((sh.map (fun s => TaggedSwing.mk true s)) ++ (sl.map (fun s => TaggedSwing.mk false s))).mergeSort
        (fun a b => decide (a.sp.index ≤ b.sp.index))
    let recent := all_swings.drop (all_swings.length - 8)
    let prev_highs := (recent.filter (·.isHigh)).map (·.sp.price)
    let prev_lows := (recent.filter (fun t => !t.isHigh)).map (·.sp.price)
    let hh_count := countUp prev_highs
    let lh_count := countDown prev_highs
    let hl_count := countUp prev_lows
    let ll_count := countDown prev_lows
    let bull_score := hh_count + hl_count
    let bear_score := ll_count + lh_count
    let (bias, bos_count, quality) :=
      if 2 ≤ bull_score ∧ bear_score < bull_score then
        (Bias.LONG, hh_count, if 3 ≤ bull_score then Quality.STRONG else Quality.WEAK)
      else if 2 ≤ bear_score ∧ bull_score < bear_score then
        (Bias.SHORT, ll_count, if 3 ≤ bear_score then Quality.STRONG else Quality.WEAK)
      else (Bias.NEUTRAL, 0, Quality.NEUTRAL)
    let (choch, quality) :=
      if 2 ≤ prev_highs.length ∧ 2 ≤ prev_lows.length then
        if bias = .LONG ∧ ((prev_lows.getLast?).getD 0 < (secondLast prev_lows).getD 0) then
          (true, Quality.WEAK)
        else if bias = .SHORT ∧ ((secondLast prev_highs).getD 0 < (prev_highs.getLast?).getD 0) then
          (true, Quality.WEAK)
        else (false, quality)
      else (false, quality)
    let last_bos_price :=
      if bias = .LONG ∧ 2 ≤ prev_highs.length then (secondLast prev_highs).getD 0
      else if bias = .SHORT ∧ 2 ≤ prev_lows.length then (secondLast prev_lows).getD 0
      else 0
    ⟨bias, bos_count, choch, last_bos_price, last_swing_high, last_swing_low, quality⟩

/-- Arithmetic mean of a rational list (`np.mean`); 0 on the empty list. -/
def qmean (l : List ℚ) : ℚ := l.sum / l.length

/-- `ICTStrategy._calc_atr(df, period)` (src/ict_strategy.py:95-111):
average true range over the last `period` true-range values. -/
def calc_atr (df : List Candle) (period : ℕ) : ℚ :=
  if df.length < period + 1 then 0
  else
    let tr := (pyRange 1 df.length).map (fun i =>
      max (hiAt df i - loAt df i)
        (max |hiAt df i - clAt df (i - 1)| |loAt df i - clAt df (i - 1)|))
    if tr.length < period then (if 0 < tr.length then qmean tr else 0)
    else qmean (tr.drop (tr.length - period))

/-- The strategy's parameter snapshot (`self.params`), restricted to the
keys the embedded v4 engine reads; values come from `ICT_PARAMS` merged
with the persisted parameter store at load time. -/
structure Params where
  swing_lookback : ℕ
  ob_max_age_candles : ℕ
  fvg_max_age_candles : ℕ
  ob_body_ratio_min : ℚ
  fvg_min_size_pct : ℚ
  liquidity_equal_tolerance : ℚ
  displacement_min_body_ratio : ℚ
  displacement_atr_multiplier : ℚ
  min_sl_distance_pct : ℚ
  max_sl_distance_pct : ℚ
  min_rr_ratio : ℚ
deriving Repr, DecidableEq, Inhabited

/-- The `config.py` `ICT_PARAMS` defaults for the strategy snapshot. -/
def defaultParams : Params :=
  { swing_lookback := 5
    ob_max_age_candles := 30
    fvg_max_age_candles := 20
    ob_body_ratio_min := 0.40
    fvg_min_size_pct := 0.001
    liquidity_equal_tolerance := 0.001
    displacement_min_body_ratio := 0.55
    displacement_atr_multiplier := 1.5
    min_sl_distance_pct := 0.012
    max_sl_distance_pct := 0.030
    min_rr_ratio := 2.0 }

/-- Zone direction for order blocks and fair-value gaps. -/
inductive ZoneKind | BULLISH | BEARISH
deriving Repr, DecidableEq, Inhabited

/-- Order block record from `_find_order_blocks`. -/
structure OrderBlock where
  kind : ZoneKind
  high : ℚ
  low : ℚ
  ce : ℚ
  index : ℕ
  age : ℕ
  mitigated : Bool
deriving Repr, DecidableEq, Inhabited

/-- `ICTStrategy._find_order_blocks(df, bias, max_age)`
(src/ict_strategy.py:271-349).  A bullish OB is a bearish candle with
body ratio ≥ `ob_body_ratio_min` followed by a bullish candle of body
ratio ≥ 0.5 closing above its high, not later mitigated (no later low at
or below its low); bearish mirrors.  Only unmitigated OBs are returned. -/
def find_order_blocks (p : Params) (df : List Candle) (bias : Bias) (max_age : ℕ) :
    List OrderBlock :=
  if df.length < 10 then []
  else
    let start_idx := df.length - max_age
    (pyRange (start_idx + 1) (df.length - 1)).flatMap (fun i =>
      let body := |clAt df i - opAt df i|
      let total_range := hiAt df i - loAt df i
      if total_range = 0 then []
      else
        let body_ratio := body / total_range
        let next_body := |clAt df (i + 1) - opAt df (i + 1)|
        let next_range := hiAt df (i + 1) - loAt df (i + 1)
        let next_body_ratio := if 0 < next_range then next_body / next_range else 0
        let curr_bullish := opAt df i < clAt df i
        let curr_bearish := clAt df i < opAt df i
        let bull : List OrderBlock :=
          if (bias = .LONG ∨ bias = .NEUTRAL) ∧ curr_bearish ∧ p.ob_body_ratio_min ≤ body_ratio ∧
             opAt df (i + 1) < clAt df (i + 1) ∧ 1/2 ≤ next_body_ratio ∧
             hiAt df i < clAt df (i + 1) ∧
             ¬ (pyRange (i + 2) df.length).any (fun j => decide (loAt df j ≤ loAt df i)) then
            [⟨.BULLISH, hiAt df i, loAt df i, (hiAt df i + loAt df i) / 2, i,
              df.length - 1 - i, false⟩]
          else []
        let bear : List OrderBlock :=
          if (bias = .SHORT ∨ bias = .NEUTRAL) ∧ curr_bullish ∧ p.ob_body_ratio_min ≤ body_ratio ∧
             clAt df (i + 1) < opAt df (i + 1) ∧ 1/2 ≤ next_body_ratio ∧
             clAt df (i + 1) < loAt df i ∧
             ¬ (pyRange (i + 2) df.length).any (fun j => decide (hiAt df i ≤ hiAt df j)) then
            [⟨.BEARISH, hiAt df i, loAt df i, (hiAt df i + loAt df i) / 2, i,
              df.length - 1 - i, false⟩]
          else []
        bull ++ bear)

/-- Mitigation state of a fair-value gap. -/
inductive Mitigation | FRESH | PARTIAL | FULL
deriving Repr, DecidableEq, Inhabited

/-- Fair-value-gap record from `_find_fvg`. -/
structure FVG where
  kind : ZoneKind
  high : ℚ
  low : ℚ
  ce : ℚ
  index : ℕ
  age : ℕ
  mitigated : Mitigation
  size_pct : ℚ
deriving Repr, DecidableEq, Inhabited

/-- Mitigation scan for a bullish FVG: later lows at or below `fvgLow`
fully mitigate (stop), lows at or below `ce` partially mitigate. -/
def fvgScanBull (df : List Candle) (fvgLow ce : ℚ) : List ℕ → Mitigation → Mitigation
  | [], m => m
  | j :: rest, m =>
    if loAt df j ≤ fvgLow then .FULL
    else if loAt df j ≤ ce then fvgScanBull df fvgLow ce rest .PARTIAL
    else fvgScanBull df fvgLow ce rest m

/-- Mitigation scan for a bearish FVG (mirror of `fvgScanBull`). -/
def fvgScanBear (df : List Candle) (fvgHigh ce : ℚ) : List ℕ → Mitigation → Mitigation
  | [], m => m
  | j :: rest, m =>
    if fvgHigh ≤ hiAt df j then .FULL
    else if ce ≤ hiAt df j then fvgScanBear df fvgHigh ce rest .PARTIAL
    else fvgScanBear df fvgHigh ce rest m

/-- `ICTStrategy._find_fvg(df, max_age)` (src/ict_strategy.py:351-433).
Bullish FVG at `i` when `high[i-1] < low[i+1]` with relative gap size at
least `fvg_min_size_pct`; bearish mirrors.  Fully mitigated gaps are
dropped. -/
def find_fvg (p : Params) (df : List Candle) (max_age : ℕ) : List FVG :=
  if df.length < 5 then []
  else
    let start_idx := max 1 (df.length - max_age - 1)
    (pyRange start_idx (df.length - 1)).flatMap (fun i =>
      let price_ref := clAt df i
      if price_ref = 0 then []
      else
        let bull : List FVG :=
          if hiAt df (i - 1) < loAt df (i + 1) then
            let gap_size := loAt df (i + 1) - hiAt df (i - 1)
            if p.fvg_min_size_pct ≤ gap_size / price_ref then
              let fvg_high := loAt df (i + 1)
              let fvg_low := hiAt df (i - 1)
              let ce := (fvg_high + fvg_low) / 2
              let m := fvgScanBull df fvg_low ce (pyRange (i + 2) df.length) .FRESH
              if m ≠ .FULL then
                [⟨.BULLISH, fvg_high, fvg_low, ce, i, df.length - 1 - i, m, gap_size / price_ref⟩]
              else []
            else []
          else []
        let bear : List FVG :=
          if hiAt df (i + 1) < loAt df (i - 1) then
            let gap_size := loAt df (i - 1) - hiAt df (i + 1)
            if p.fvg_min_size_pct ≤ gap_size / price_ref then
              let fvg_high := loAt df (i - 1)
              let fvg_low := hiAt df (i + 1)
              let ce := (fvg_high + fvg_low) / 2
              let m := fvgScanBear df fvg_high ce (pyRange (i + 2) df.length) .FRESH
              if m ≠ .FULL then
                [⟨.BEARISH, fvg_high, fvg_low, ce, i, df.length - 1 - i, m, gap_size / price_ref⟩]
              else []
            else []
          else []
        bull ++ bear)

/-- Premium/discount zone names. -/
inductive PDKind | DEEP_DISCOUNT | DISCOUNT | PREMIUM | DEEP_PREMIUM | NEUTRAL
deriving Repr, DecidableEq, Inhabited

/-- Result record of `_calculate_premium_discount`. -/
structure PDZone where
  zone : PDKind
  pct : ℚ
  equilibrium : ℚ
  range_high : ℚ
  range_low : ℚ
  in_ote : Bool
  in_ote_long : Bool
  in_ote_short : Bool
deriving Repr, DecidableEq, Inhabited

/-- Maximum of the prices in a swing list (Python `max(...)`; 0 if empty). -/
def maxPrice (l : List SwingPoint) : ℚ :=
  match l.map (·.price) with
  | [] => 0
  | x :: xs => xs.foldl max x

/-- Minimum of the prices in a swing list (Python `min(...)`; 0 if empty). -/
def minPrice (l : List SwingPoint) : ℚ :=
  match l.map (·.price) with
  | [] => 0
  | x :: xs => xs.foldl min x

/-- `ICTStrategy._calculate_premium_discount(swing_highs, swing_lows, current_price)`
(src/ict_strategy.py:485-546).  The dealing range spans the extreme swing
prices; `pct` is the (rounded) position of price in that range, zones per
the 30/50/70 thresholds, OTE per the Fibonacci 0.618–0.786 bands. -/
def calculate_premium_discount (swing_highs swing_lows : List SwingPoint)
    (current_price : ℚ) : PDZone :=
  if swing_highs.isEmpty || swing_lows.isEmpty then
    ⟨.NEUTRAL, 50, 0, 0, 0, false, false, false⟩
  else
    let range_high := maxPrice swing_highs
    let range_low := minPrice swing_lows
    let dealing_range := range_high - range_low
    if dealing_range ≤ 0 then
      ⟨.NEUTRAL, 50, 0, range_high, range_low, false, false, false⟩
    else
      let equilibrium := (range_high + range_low) / 2
      let position_pct := (current_price - range_low) / dealing_range * 100
      let ote_long_low := range_low + dealing_range * (1 - 0.786)
      let ote_long_high := range_low + dealing_range * (1 - 0.618)
      let ote_short_low := range_low + dealing_range * 0.618
      let ote_short_high := range_low + dealing_range * 0.786
      let in_ote_long := ote_long_low ≤ current_price ∧ current_price ≤ ote_long_high
      let in_ote_short := ote_short_low ≤ current_price ∧ current_price ≤ ote_short_high
      let zone :=
        if position_pct ≤ 30 then PDKind.DEEP_DISCOUNT
        else if position_pct ≤ 50 then PDKind.DISCOUNT
        else if 70 ≤ position_pct then PDKind.DEEP_PREMIUM
        else if 50 ≤ position_pct then PDKind.PREMIUM
        else PDKind.NEUTRAL
      ⟨zone, pyRound position_pct 1, equilibrium, range_high, range_low,
       in_ote_long ∨ in_ote_short, in_ote_long, in_ote_short⟩

/-- Sweep (stop-hunt) record from `_detect_sweep`. -/
structure Sweep where
  direction : Bias
  level : ℚ
  sweep_price : ℚ
  rejection_close : ℚ
  sweep_depth_pct : ℚ
  wick_body_ratio : ℚ
  index : ℕ
  candles_ago : ℕ
deriving Repr, DecidableEq, Inhabited

/-- Candidate update inside `_detect_sweep`: keep the later candle index. -/
def sweepBetter (best : Option Sweep) (cand : Sweep) : Option Sweep :=
  match best with
  | none => some cand
  | some b => if b.index < cand.index then some cand else some b

/-- `ICTStrategy._detect_sweep(df, swing_highs, swing_lows, bias, lookback)`
(src/ict_strategy.py:548-618).  LONG: a candle whose low pierces a swing
low but whose close recovers above it, with lower wick > 0.5×body;
SHORT mirrors on swing highs.  The sweep on the latest candle index wins. -/
def detect_sweep (df : List Candle) (swing_highs swing_lows : List SwingPoint)
    (bias : Bias) (lookback : ℕ) : Option Sweep :=
  if df.length < 5 then none
  else
    let recent_start := df.length - lookback
    match bias with
    | .LONG =>
      swing_lows.foldl (fun best slp =>
        (pyRange recent_start df.length).foldl (fun best i =>
          let level := slp.price
          if loAt df i < level ∧ level < clAt df i then
            let body := |clAt df i - opAt df i|
            let lower_wick := min (opAt df i) (clAt df i) - loAt df i
            if body * (1/2) < lower_wick then
              sweepBetter best
                ⟨.LONG, level, loAt df i, clAt df i, (level - loAt df i) / level * 100,
                 if 0 < body then lower_wick / body else 999, i, df.length - 1 - i⟩
            else best
          else best) best) none
    | .SHORT =>
      swing_highs.foldl (fun best shp =>
        (pyRange recent_start df.length).foldl (fun best i =>
          let level := shp.price
          if level < hiAt df i ∧ clAt df i < level then
            let body := |clAt df i - opAt df i|
            let upper_wick := hiAt df i - max (opAt df i) (clAt df i)
            if body * (1/2) < upper_wick then
              sweepBetter best
                ⟨.SHORT, level, hiAt df i, clAt df i, (hiAt df i - level) / level * 100,
                 if 0 < body then upper_wick / body else 999, i, df.length - 1 - i⟩
            else best
          else best) best) none
    | .NEUTRAL => none

/-- Micro-structure-shift record from `_detect_mss`. -/
structure MSSHit where
  direction : Bias
  break_price : ℚ
  confirm_close : ℚ
  index : ℕ
  candles_ago : ℕ
deriving Repr, DecidableEq, Inhabited

/-- `ICTStrategy._detect_mss(df, bias, after_index)`
(src/ict_strategy.py:620-668).  The latest 3-bar micro swing in the
bias direction at or after `after_index`; MSS fires at the first later
candle whose close crosses that micro level. -/
def detect_mss (df : List Candle) (bias : Bias) (after_index : ℕ) : Option MSSHit :=
  if df.length < 10 then none
  else
    let micro := find_swing_points df 3
    match bias with
    | .LONG =>
      let relevant := micro.1.filter (fun s => after_index ≤ s.index)
      match relevant.getLast? with
      | none => none
      | some target =>
        ((pyRange (target.index + 1) df.length).find?
            (fun i => decide (target.price < clAt df i))).map
          (fun i => ⟨.LONG, target.price, clAt df i, i, df.length - 1 - i⟩)
    | .SHORT =>
      let relevant := micro.2.filter (fun s => after_index ≤ s.index)
      match relevant.getLast? with
      | none => none
      | some target =>
        ((pyRange (target.index + 1) df.length).find?
            (fun i => decide (clAt df i < target.price))).map
          (fun i => ⟨.SHORT, target.price, clAt df i, i, df.length - 1 - i⟩)
    | .NEUTRAL => none

/-- Displacement record from `_detect_displacement`. -/
structure Displacement where
  direction : Bias
  start_index : ℕ
  end_index : ℕ
  consecutive_candles : ℕ
  total_move_pct : ℚ
  atr_ratio : ℚ
  candles_ago : ℕ
  displacement_low : ℚ
  displacement_high : ℚ
deriving Repr, DecidableEq, Inhabited

/-- Run extension inside `_detect_displacement`: continue over up to two
further candles of the same direction with body/range ≥ 0.45, breaking
at the first failure.  Returns `(consecutive, end_close)`. -/
def extendRun (df : List Candle) (isLong : Bool) : List ℕ → ℕ → ℚ → ℕ × ℚ
  | [], consecutive, end_close => (consecutive, end_close)
  | j :: rest, consecutive, end_close =>
    let sameDir := if isLong then opAt df j < clAt df j else clAt df j < opAt df j
    if sameDir then
      let b := |clAt df j - opAt df j|
      let r := hiAt df j - loAt df j
      if 0 < r ∧ 0.45 ≤ b / r then
        extendRun df isLong rest (consecutive + 1) (clAt df j)
      else (consecutive, end_close)
    else (consecutive, end_close)

/-- `ICTStrategy._detect_displacement(df, bias, atr, after_index)`
(src/ict_strategy.py:670-782).  Scans candles from
`max(after_index, len-20)`, skipping any single candle with range over
3×ATR; a starting candle in the bias direction with body ratio ≥
`displacement_min_body_ratio` extends over up to 2 further candles; the
run qualifies when the aggregate move reaches ATR ×
`displacement_atr_multiplier` and the starting candle's volume confirms
(when more than 20 volumes exist, it must exceed 0.8× the 20-bar average). -/
def detect_displacement (p : Params) (df : List Candle) (bias : Bias) (atr : ℚ)
    (after_index : ℕ) : Option Displacement :=
  if df.length < 5 ∨ atr ≤ 0 then none
  else
    let search_start := max after_index (df.length - 20)
    (pyRange search_start (df.length - 1)).findSome? (fun i =>
      if 3 * atr < hiAt df i - loAt df i then none
      else
        let body := |clAt df i - opAt df i|
        let total_range := hiAt df i - loAt df i
        if total_range = 0 then none
        else
          let body_ratio := body / total_range
          let isLong := bias = .LONG
          let dirOk : Bool :=
            match bias with
            | .LONG => decide (opAt df i < clAt df i ∧ p.displacement_min_body_ratio ≤ body_ratio)
            | .SHORT => decide (clAt df i < opAt df i ∧ p.displacement_min_body_ratio ≤ body_ratio)
            | .NEUTRAL => false
          if dirOk then
            let start_open := opAt df i
            let (consecutive, end_close) :=
              extendRun df isLong (pyRange (i + 1) (min (i + 3) df.length)) 1 (clAt df i)
            let total_move := if isLong then end_close - start_open else start_open - end_close
            if atr * p.displacement_atr_multiplier ≤ total_move then
              let vol_confirmed :=
                if 20 < df.length then
                  let avg_vol := qmean ((pyRange (i - 20) i).map (volAt df))
                  0 < avg_vol ∧ avg_vol * 0.8 < volAt df i
                else True
              if vol_confirmed then
                some ⟨bias, i, min (i + consecutive - 1) (df.length - 1), consecutive,
                      (if 0 < start_open then total_move / start_open * 100 else 0),
                      total_move / atr, df.length - 1 - i,
                      (if isLong then loAt df i else end_close),
                      (if isLong then end_close else hiAt df i)⟩
              else none
            else none
          else none)

/-- Obstacle classification in `_scan_obstacles`. -/
inductive ObstacleKind | BEARISH_OB | BEARISH_FVG | BULLISH_OB | BULLISH_FVG | ROUND_NUMBER
deriving Repr, DecidableEq, Inhabited

/-- One obstacle on the entry→TP path. -/
structure Obstacle where
  kind : ObstacleKind
  price : ℚ
  pct_of_tp_distance : ℚ
  age : Option ℕ
deriving Repr, DecidableEq, Inhabited

/-- Result record of `_scan_obstacles`. -/
structure ObstacleScan where
  has_obstacle : Bool
  obstacles : List Obstacle
  adjusted_tp : ℚ
  obstacle_distance_pct : ℚ
deriving Repr, DecidableEq, Inhabited

/-- `ICTStrategy._round_number_step(price)` (src/ict_strategy.py:904-919):
psychological round-number step by price magnitude. -/
def round_number_step (price : ℚ) : ℚ :=
  if 50000 ≤ price then 1000
  else if 10000 ≤ price then 500
  else if 1000 ≤ price then 100
  else if 100 ≤ price then 50
  else if 10 ≤ price then 5
  else if 1 ≤ price then 0.5
  else 0.05

/-- The ascending round-number levels `int(entry/step)*step + step,
+step, ...` strictly below `tp` (the LONG `while` loop in
`_scan_obstacles`). -/
def roundLevelsUp (entry tp step : ℚ) : List ℚ :=
  let start := (pyTrunc (entry / step) : ℚ) * step + step
  let count := if start < tp then (⌈(tp - start) / step⌉).toNat else 0
  (List.range count).map (fun n => start + n * step)

/-- The descending round-number levels `int(entry/step)*step, -step, ...`
strictly above `tp` (the SHORT `while` loop in `_scan_obstacles`). -/
def roundLevelsDown (entry tp step : ℚ) : List ℚ :=
  let start := (pyTrunc (entry / step) : ℚ) * step
  let count := if tp < start then (⌈(start - tp) / step⌉).toNat else 0
  (List.range count).map (fun n => start - n * step)

/-- `ICTStrategy._scan_obstacles(bias, entry, tp, obs_1h, fvgs_1h, current_price)`
(src/ict_strategy.py:784-902).  Collects opposing unmitigated 1h OBs and
non-full 1h FVGs between entry and TP plus round-number levels in the
20–90% band, sorts them by (rounded) distance, and pulls TP to 2% inside
the first obstacle when it sits within the first 30% of the path. -/
def scan_obstacles (bias : Bias) (entry tp : ℚ) (obs_1h : List OrderBlock)
    (fvgs_1h : List FVG) (current_price : ℚ) : ObstacleScan :=
  if entry = 0 ∨ tp = 0 then ⟨false, [], tp, 100⟩
  else
    let tp_distance := |tp - entry|
    if tp_distance = 0 then ⟨false, [], tp, 100⟩
    else
      let obstacles : List Obstacle :=
        match bias with
        | .LONG =>
          (obs_1h.filterMap (fun ob =>
            if ob.kind = .BEARISH ∧ ob.mitigated = false ∧ entry < ob.low ∧ ob.low < tp then
              some ⟨.BEARISH_OB, ob.low, pyRound ((ob.low - entry) / tp_distance * 100) 1, none⟩
            else none)) ++
          (fvgs_1h.filterMap (fun fvg =>
            if fvg.kind = .BEARISH ∧ fvg.mitigated ≠ .FULL ∧ entry < fvg.low ∧ fvg.low < tp then
              some ⟨.BEARISH_FVG, fvg.low, pyRound ((fvg.low - entry) / tp_distance * 100) 1,
                    some fvg.age⟩
            else none)) ++
          (let step := round_number_step current_price
           if 0 < step then
             (roundLevelsUp entry tp step).filterMap (fun lvl =>
               let pct := (lvl - entry) / tp_distance * 100
               if 20 < pct ∧ pct < 90 then
                 some ⟨.ROUND_NUMBER, lvl, pyRound pct 1, none⟩
               else none)
           else [])
        | .SHORT =>
          (obs_1h.filterMap (fun ob =>
            if ob.kind = .BULLISH ∧ ob.mitigated = false ∧ tp < ob.high ∧ ob.high < entry then
              some ⟨.BULLISH_OB, ob.high, pyRound ((entry - ob.high) / tp_distance * 100) 1, none⟩
            else none)) ++
          (fvgs_1h.filterMap (fun fvg =>
            if fvg.kind = .BULLISH ∧ fvg.mitigated ≠ .FULL ∧ tp < fvg.high ∧ fvg.high < entry then
              some ⟨.BULLISH_FVG, fvg.high, pyRound ((entry - fvg.high) / tp_distance * 100) 1,
                    some fvg.age⟩
            else none)) ++
          (let step := round_number_step current_price
           if 0 < step then
             (roundLevelsDown entry tp step).filterMap (fun lvl =>
               let pct := (entry - lvl) / tp_distance * 100
               if 20 < pct ∧ pct < 90 then
                 some ⟨.ROUND_NUMBER, lvl, pyRound pct 1, none⟩
               else none)
           else [])
        | .NEUTRAL => []
      if obstacles.isEmpty then ⟨false, [], tp, 100⟩
      else
        let sorted := obstacles.mergeSort
          (fun a b => decide (a.pct_of_tp_distance ≤ b.pct_of_tp_distance))
        let first := sorted.headD default
        let adjusted_tp :=
          if first.pct_of_tp_distance < 30 then
            let buffer := tp_distance * 0.02
            if bias = .LONG then first.price - buffer else first.price + buffer
          else tp
        ⟨true, sorted, adjusted_tp, first.pct_of_tp_distance⟩

/-- `ICTStrategy._is_volatile_candle(candle_range, atr)`
(src/ict_strategy.py:921-923): a single candle wider than 3×ATR. -/
def is_volatile_candle (candle_range atr : ℚ) : Bool :=
  decide (0 < atr) && decide (3 * atr < candle_range)

/-- `ICTStrategy._check_overextension(df_1h, bias)`
(src/ict_strategy.py:929-995).  Overextended iff at least 5 of the last
6 one-hour candles run in the bias direction, the aggregate move reaches
3×ATR, and no candle shows a pullback (an opposing close or a counter
wick over 0.4×ATR). -/
def check_overextension (df_1h : List Candle) (bias : Bias) : Bool :=
  if df_1h.length < 10 then false
  else
    let atr_1h := calc_atr df_1h 14
    if atr_1h ≤ 0 then false
    else
      let recent := df_1h.drop (df_1h.length - 6)
      let same_dir : ℕ :=
        match bias with
        | .LONG => (recent.filter (fun c => decide (c.open_ < c.close))).length
        | _ => (recent.filter (fun c => decide (c.close < c.open_))).length
      if same_dir < 5 then false
      else
        let firstC := recent.headD default
        let lastC := (recent.getLast?).getD default
        let total_move :=
          match bias with
          | .LONG => lastC.close - firstC.low
          | _ => firstC.high - lastC.close
        if total_move < atr_1h * 3 then false
        else
          let pullback_threshold := atr_1h * 0.4
          let has_pullback :=
            match bias with
            | .LONG => recent.any (fun c =>
                decide (c.close < c.open_) || decide (pullback_threshold < min c.open_ c.close - c.low))
            | _ => recent.any (fun c =>
                decide (c.open_ < c.close) || decide (pullback_threshold < c.high - max c.open_ c.close))
          !has_pullback

/-- `ICTStrategy._check_4h_obstacle_for_fallback(df_4h, bias, entry, tp)`
(src/ict_strategy.py:997-1070).  With a 1h-fallback narrative, cancels
when an opposing unmitigated 4h OB or non-full 4h FVG sits in the first
60% of the entry→TP path. -/
def check_4h_obstacle_for_fallback (p : Params) (df_4h : List Candle) (bias : Bias)
    (entry tp : ℚ) : Bool :=
  if df_4h.length < 20 ∨ entry ≤ 0 ∨ tp ≤ 0 then false
  else
    let obs_4h := find_order_blocks p df_4h .LONG 20 ++ find_order_blocks p df_4h .SHORT 20
    let fvgs_4h := find_fvg p df_4h 15
    let tp_distance := |tp - entry|
    if tp_distance = 0 then false
    else
      match bias with
      | .LONG =>
        obs_4h.any (fun ob =>
          decide (ob.kind = .BEARISH) && !ob.mitigated && decide (entry < ob.low) &&
          decide (ob.low < tp) && decide ((ob.low - entry) / tp_distance * 100 < 60)) ||
        fvgs_4h.any (fun fvg =>
          decide (fvg.kind = .BEARISH) && decide (fvg.mitigated ≠ .FULL) &&
          decide (entry < fvg.low) && decide (fvg.low < tp) &&
          decide ((fvg.low - entry) / tp_distance * 100 < 60))
      | .SHORT =>
        obs_4h.any (fun ob =>
          decide (ob.kind = .BULLISH) && !ob.mitigated && decide (tp < ob.high) &&
          decide (ob.high < entry) && decide ((entry - ob.high) / tp_distance * 100 < 60)) ||
        fvgs_4h.any (fun fvg =>
          decide (fvg.kind = .BULLISH) && decide (fvg.mitigated ≠ .FULL) &&
          decide (tp < fvg.high) && decide (fvg.high < entry) &&
          decide ((entry - fvg.high) / tp_distance * 100 < 60))
      | .NEUTRAL => false

/-- Narrative record from `analyze_narrative`. -/
structure Narrative where
  bias : Bias
  quality : Quality
  choch : Bool
  htf_swing_high : ℚ
  htf_swing_low : ℚ
deriving Repr, DecidableEq, Inhabited

/-- `ICTStrategy.analyze_narrative(df_4h, df_1h)`
(src/ict_strategy.py:1076-1129).  4h structure gives bias/quality/CHoCH;
when the 4h bias is NEUTRAL without CHoCH and a 1h frame with at least
20 candles exists, the 1h structure supplies the bias with quality
forced to WEAK. -/
def analyze_narrative (p : Params) (df_4h : Option (List Candle))
    (df_1h : Option (List Candle)) : Narrative :=
  match df_4h with
  | none => ⟨.NEUTRAL, .NEUTRAL, false, 0, 0⟩
  | some df4 =>
    if df4.length < 20 then ⟨.NEUTRAL, .NEUTRAL, false, 0, 0⟩
    else
      let (sh4, sl4) := find_swing_points df4 p.swing_lookback
      let s4 := detect_structure sh4 sl4
      let base : Narrative :=
        ⟨s4.bias, s4.structure_quality, s4.choch_detected, s4.last_swing_high, s4.last_swing_low⟩
      if base.bias = .NEUTRAL ∧ base.choch = false then
        match df_1h with
        | some df1 =>
          if 20 ≤ df1.length then
            let (sh1, sl1) := find_swing_points df1 p.swing_lookback
            let s1 := detect_structure sh1 sl1
            if s1.bias ≠ .NEUTRAL then
              { base with bias := s1.bias, quality := .WEAK }
            else base
          else base
        | none => base
      else base

/-- Source tag of a POI confluence contribution (`"OB"`, `"FVG"`,
`"LIQ_EQH"`, ...). -/
inductive ConfSource | OB | FVG | LIQ (k : LiqKind)
deriving Repr, DecidableEq, Inhabited

/-- A candidate zone inside `find_poi_zones`. -/
structure CandidateZone where
  source : ConfSource
  high : ℚ
  low : ℚ
  ce : ℚ
deriving Repr, DecidableEq, Inhabited

/-- A point of interest as produced by `find_poi_zones`. -/
structure POI where
  bias : Bias
  entry : ℚ
  sl : ℚ
  tp : ℚ
  rr : ℚ
  zone_high : ℚ
  zone_low : ℚ
  confluence_count : ℕ
  confluence_sources : List ConfSource
  in_correct_zone : Bool
  in_ote : Bool
  distance_from_price_pct : ℚ
  obstacles : List Obstacle
  has_obstacle : Bool
  pd_zone : PDZone
deriving Repr, DecidableEq, Inhabited

/-- POI ordering key of `find_poi_zones` (RR above threshold first, then
confluence count descending, then distance ascending). -/
def poiLE (min_rr : ℚ) (a b : POI) : Bool :=
  let a1 : ℕ := if min_rr ≤ a.rr then 1 else 0
  let b1 : ℕ := if min_rr ≤ b.rr then 1 else 0
  decide (b1 < a1) ||
  (decide (a1 = b1) &&
    (decide (b.confluence_count < a.confluence_count) ||
     (decide (a.confluence_count = b.confluence_count) &&
      decide (a.distance_from_price_pct ≤ b.distance_from_price_pct))))

/-- `ICTStrategy.find_poi_zones(df_15m, df_1h, bias, current_price)`
(src/ict_strategy.py:1135-1271).  Candidate zones are the bias-side
unmitigated 15m OBs and non-full 15m FVGs; each zone's confluence counts
overlapping candidates and in-zone liquidity levels; entry is the zone
midpoint, SL the zone extreme with a 20%-of-height buffer re-derived
when its distance leaves `[min_sl_distance_pct, max_sl_distance_pct]`,
TP the nearest opposing liquidity pool (else ±2%), shifted by the 1h
obstacle scan; POIs are sorted by the `poiLE` key. -/
def find_poi_zones (p : Params) (df_15m : List Candle) (df_1h : Option (List Candle))
    (bias : Bias) (current_price : ℚ) : List POI :=
  if df_15m.length < 30 ∨ bias = .NEUTRAL then []
  else
    let (sh_15m, sl_15m) := find_swing_points df_15m p.swing_lookback
    let obs_15m := find_order_blocks p df_15m bias p.ob_max_age_candles
    let fvgs_15m := find_fvg p df_15m p.fvg_max_age_candles
    let liquidity := find_liquidity_pools p.liquidity_equal_tolerance sh_15m sl_15m current_price
    let obs_1h := match df_1h with
      | some df1 => if 20 ≤ df1.length then find_order_blocks p df1 bias 50 else []
      | none => []
    let fvgs_1h := match df_1h with
      | some df1 => if 20 ≤ df1.length then find_fvg p df1 30 else []
      | none => []
    let pd_zone := calculate_premium_discount sh_15m sl_15m current_price
    let candidate_zones : List CandidateZone :=
      match bias with
      | .LONG =>
        (obs_15m.filterMap (fun ob =>
          if ob.kind = .BULLISH ∧ ob.low < current_price then
            some ⟨.OB, ob.high, ob.low, ob.ce⟩ else none)) ++
        (fvgs_15m.filterMap (fun fvg =>
          if fvg.kind = .BULLISH ∧ fvg.low < current_price then
            some ⟨.FVG, fvg.high, fvg.low, fvg.ce⟩ else none))
      | .SHORT =>
        (obs_15m.filterMap (fun ob =>
          if ob.kind = .BEARISH ∧ current_price < ob.high then
            some ⟨.OB, ob.high, ob.low, ob.ce⟩ else none)) ++
        (fvgs_15m.filterMap (fun fvg =>
          if fvg.kind = .BEARISH ∧ current_price < fvg.high then
            some ⟨.FVG, fvg.high, fvg.low, fvg.ce⟩ else none))
      | .NEUTRAL => []
    let pois := (List.range candidate_zones.length).map (fun k =>
      let zone := (candidate_zones[k]?).getD default
      let overlapIdx := (List.range candidate_zones.length).filter (fun j =>
        decide (j ≠ k) &&
        (let other := (candidate_zones[j]?).getD default
         decide (0 < min zone.high other.high - max zone.low other.low)))
      let liq_list := if bias = .LONG then liquidity.ssl else liquidity.bsl
      let liq_hits := liq_list.filter (fun lv =>
        decide (zone.low ≤ lv.price) && decide (lv.price ≤ zone.high))
      let confluence_count := 1 + overlapIdx.length + liq_hits.length
      let confluence_sources :=
        zone.source ::
          (overlapIdx.map (fun j => ((candidate_zones[j]?).getD default).source)) ++
          (liq_hits.map (fun lv => ConfSource.LIQ lv.kind))
      let entry := zone.ce
      let (sl0, tp0, in_correct_zone) :=
        if bias = .LONG then
          (zone.low - (zone.high - zone.low) * 0.2,
           (if entry < liquidity.nearest_bsl then liquidity.nearest_bsl else entry * 1.02),
           decide (pd_zone.zone = .DISCOUNT ∨ pd_zone.zone = .DEEP_DISCOUNT))
        else
          (zone.high + (zone.high - zone.low) * 0.2,
           (if 0 < liquidity.nearest_ssl ∧ liquidity.nearest_ssl < entry then
              liquidity.nearest_ssl else entry * 0.98),
           decide (pd_zone.zone = .PREMIUM ∨ pd_zone.zone = .DEEP_PREMIUM))
      let sl_distance_pct := if 0 < entry then |entry - sl0| / entry else 0
      let sl :=
        if sl_distance_pct < p.min_sl_distance_pct then
          (if bias = .LONG then entry * (1 - p.min_sl_distance_pct)
           else entry * (1 + p.min_sl_distance_pct))
        else if p.max_sl_distance_pct < sl_distance_pct then
          (if bias = .LONG then entry * (1 - p.max_sl_distance_pct)
           else entry * (1 + p.max_sl_distance_pct))
        else sl0
      let obstacle_info := scan_obstacles bias entry tp0 obs_1h fvgs_1h current_price
      let tp := if obstacle_info.adjusted_tp ≠ tp0 then obstacle_info.adjusted_tp else tp0
      let risk := |entry - sl|
      let reward := |tp - entry|
      let rr := if 0 < risk then reward / risk else 0
      let distance_pct := if 0 < current_price then |current_price - entry| / current_price * 100 else 0
      ({ bias := bias
         entry := entry
         sl := sl
         tp := tp
         rr := pyRound rr 2
         zone_high := zone.high
         zone_low := zone.low
         confluence_count := confluence_count
         confluence_sources := confluence_sources
         in_correct_zone := in_correct_zone
         in_ote := pd_zone.in_ote
         distance_from_price_pct := pyRound distance_pct 2
         obstacles := obstacle_info.obstacles
         has_obstacle := obstacle_info.has_obstacle
         pd_zone := pd_zone } : POI))
    pois.mergeSort (poiLE p.min_rr_ratio)

/-- Trigger classification (`"SWEEP_REJECTION"` / `"MSS"` / `"DISPLACEMENT"`). -/
inductive TriggerType | SWEEP_REJECTION | MSS | DISPLACEMENT
deriving Repr, DecidableEq, Inhabited

/-- Quality tier strings of triggers and emissions. -/
inductive QualityTier | APlus | A | B | C | WATCH | SNIPER
deriving Repr, DecidableEq, Inhabited

/-- Trigger component tags. -/
inductive Component | HTF_BIAS | POI_ZONE | SWEEP | REJECTION | MSS | DISPLACEMENT
deriving Repr, DecidableEq, Inhabited

/-- A fired trigger from `check_trigger`. -/
structure Trigger where
  trigger_type : TriggerType
  direction : Bias
  entry : ℚ
  sl : ℚ
  tp : ℚ
  rr : ℚ
  quality : QualityTier
  components : List Component
  sweep_data : Option Sweep
  mss_data : Option MSSHit
  displacement_data : Option Displacement
  poi : POI
deriving Repr, DecidableEq, Inhabited

/-- The SL re-clamp shared by the three triggers: when the distance of
`sl` from `current` leaves `[min_sl_distance_pct, max_sl_distance_pct]`
the SL is re-derived from `current`. -/
def clampTriggerSl (p : Params) (bias : Bias) (current sl : ℚ) : ℚ :=
  let sl_dist := if 0 < current then |current - sl| / current else 0
  if sl_dist < p.min_sl_distance_pct then
    (if bias = .LONG then current * (1 - p.min_sl_distance_pct)
     else current * (1 + p.min_sl_distance_pct))
  else if p.max_sl_distance_pct < sl_dist then
    (if bias = .LONG then current * (1 - p.max_sl_distance_pct)
     else current * (1 + p.max_sl_distance_pct))
  else sl

/-- `ICTStrategy.check_trigger(df_15m, bias, poi, current_price, atr, proximity_pct)`
(src/ict_strategy.py:1277-1418).  With price in or near the POI zone,
tries SWEEP_REJECTION (sweep within 6 candles), then MSS (within 4),
then DISPLACEMENT (within 4); each candidate's SL is re-clamped and the
trigger is kept only when the risk/reward against the POI's TP reaches
`min_rr_ratio`. -/
def check_trigger (p : Params) (df_15m : List Candle) (bias : Bias) (poi : POI)
    (current_price atr : ℚ) (proximity_pct : ℚ) : Option Trigger :=
  if df_15m.length < 10 then none
  else
    let zone_high := poi.zone_high
    let zone_low := poi.zone_low
    let tp := poi.tp
    let near : Bool :=
      match bias with
      | .LONG => decide (current_price ≤ zone_high * (1 + proximity_pct))
      | .SHORT => decide (zone_low * (1 - proximity_pct) ≤ current_price)
      | .NEUTRAL => false
    if !near then none
    else
      let min_rr := p.min_rr_ratio
      let swings := find_swing_points df_15m 3
      let sweep := detect_sweep df_15m swings.1 swings.2 bias 10
      let trigA : Option Trigger :=
        match sweep with
        | some sw =>
          if sw.candles_ago ≤ 6 then
            let sweep_sl0 := if bias = .LONG then sw.sweep_price * (1 - 0.002)
                             else sw.sweep_price * (1 + 0.002)
            let sweep_sl := clampTriggerSl p bias current_price sweep_sl0
            let risk := |current_price - sweep_sl|
            let reward := |tp - current_price|
            let actual_rr := if 0 < risk then reward / risk else 0
            if min_rr ≤ actual_rr then
              some ⟨.SWEEP_REJECTION, bias, current_price, sweep_sl, tp, pyRound actual_rr 2,
                    (if 3 ≤ poi.confluence_count then .APlus
                     else if 2 ≤ poi.confluence_count then .A else .B),
                    [.HTF_BIAS, .POI_ZONE, .SWEEP, .REJECTION], some sw, none, none, poi⟩
            else none
          else none
        | none => none
      match trigA with
      | some t => some t
      | none =>
        let mss := detect_mss df_15m bias (df_15m.length - 10)
        let trigB : Option Trigger :=
          match mss with
          | some m =>
            if m.candles_ago ≤ 4 then
              let sl := clampTriggerSl p bias current_price poi.sl
              let risk := |current_price - sl|
              let reward := |tp - current_price|
              let actual_rr := if 0 < risk then reward / risk else 0
              if min_rr ≤ actual_rr then
                some ⟨.MSS, bias, current_price, sl, tp, pyRound actual_rr 2,
                      (if 2 ≤ poi.confluence_count then .A else .B),
                      [.HTF_BIAS, .POI_ZONE, .MSS], none, some m, none, poi⟩
              else none
            else none
          | none => none
        match trigB with
        | some t => some t
        | none =>
          let displacement := detect_displacement p df_15m bias atr (df_15m.length - 8)
          match displacement with
          | some d =>
            if d.candles_ago ≤ 4 then
              let disp_sl0 := if bias = .LONG then d.displacement_low * (1 - 0.002)
                              else d.displacement_high * (1 + 0.002)
              let disp_sl := clampTriggerSl p bias current_price disp_sl0
              let risk := |current_price - disp_sl|
              let reward := |tp - current_price|
              let actual_rr := if 0 < risk then reward / risk else 0
              if min_rr ≤ actual_rr then
                some ⟨.DISPLACEMENT, bias, current_price, disp_sl, tp, pyRound actual_rr 2,
                      (if 2 ≤ d.consecutive_candles then .B else .C),
                      [.HTF_BIAS, .POI_ZONE, .DISPLACEMENT], none, none, some d, poi⟩
              else none
            else none
          | none => none

/-- Multi-timeframe bundle handed to `generate_signal`
(`data_fetcher.get_multi_timeframe_data`). -/
structure Bundle where
  m5 : Option (List Candle)
  m15 : Option (List Candle)
  h1 : Option (List Candle)
  h4 : Option (List Candle)
deriving Repr, DecidableEq, Inhabited

/-- Emission discriminant (`result["action"]`). -/
inductive EmAction | SIGNAL | WATCH
deriving Repr, DecidableEq, Inhabited

/-- Watch reasons emitted by `generate_signal` (the formatted Turkish
log strings, with their numeric payloads kept exactly). -/
inductive GenWatchReason
  /-- `"1H overextended — geri çekilme bekleniyor"` -/
  | overextended1h
  /-- `"POI yakın (d%), trigger bekleniyor"` with the rounded distance. -/
  | poiNear (dist_pct : ℚ)
deriving Repr, DecidableEq, Inhabited

/-- An emission of the engine (`{"action": "SIGNAL"/"WATCH", ...}`). -/
structure Emission where
  action : EmAction
  symbol : String
  direction : Bias
  entry_price : ℚ
  current_price : ℚ
  stop_loss : ℚ
  take_profit : ℚ
  rr_ratio : ℚ
  entry_mode_market : Bool
  watch_reason : Option GenWatchReason
  trigger_type : Option TriggerType
  quality_tier : QualityTier
  components : List Component
  narrative : Narrative
  poi : POI
  trigger_data : Option Trigger
  atr : ℚ
  timeframe_15m : Bool
deriving Repr, DecidableEq, Inhabited

/-- The strategy object's mutable state: the loaded parameter snapshot
(`self.params`) and the per-symbol POI cache (`self._active_pois`, which
`generate_signal` never touches). -/
structure StrategyState where
  params : Params
  active_pois : List (String × List POI)
deriving Repr, DecidableEq, Inhabited

/-- `ICTStrategy.generate_signal(symbol, multi_tf, market_data)`
(src/ict_strategy.py:1424-1598), threaded through the object state.
Pipeline: 50-candle 15m guard, positive price, volatility gate on the
last 15m candle, 4h/1h narrative, 1h overextension check (downgrading a
later trigger to WATCH), POI discovery and RR filter, the 4h obstacle
guard on 1h-fallback narratives, then the trigger check — emitting
SIGNAL on a trigger, WATCH when overextended or when the best POI sits
within 1% of price, and `none` otherwise.  The returned state is the
input state: the method only reads `self.params`. -/
def generate_signal (st : StrategyState) (symbol : String) (multi_tf : Bundle) :
    StrategyState × Option Emission :=
  let p := st.params
  let out : Option Emission :=
    match multi_tf.m15 with
    | none => none
    | some df_15m =>
      if df_15m.length < 50 then none
      else
        let current_price := ((df_15m.getLast?).getD default).close
        if current_price ≤ 0 then none
        else
          let atr_15m := calc_atr df_15m 14
          let last_candle := (df_15m.getLast?).getD default
          let last_range := last_candle.high - last_candle.low
          if is_volatile_candle last_range atr_15m then none
          else
            let narrative := analyze_narrative p multi_tf.h4 multi_tf.h1
            let bias := narrative.bias
            if bias = .NEUTRAL then none
            else
              let force_watch_overextended : Bool :=
                match multi_tf.h1 with
                | some df_1h => decide (10 ≤ df_1h.length) && check_overextension df_1h bias
                | none => false
              let pois := find_poi_zones p df_15m multi_tf.h1 bias current_price
              if pois.isEmpty then none
              else
                let valid_pois := pois.filter (fun q => decide (p.min_rr_ratio ≤ q.rr))
                if valid_pois.isEmpty then none
                else
                  let best_poi := valid_pois.headD default
                  let blocked4h : Bool :=
                    match multi_tf.h4 with
                    | some df_4h =>
                      decide (narrative.quality = .WEAK) &&
                      (let entry_est := best_poi.entry
                       let tp_est := best_poi.tp
                       decide (0 < tp_est) &&
                       check_4h_obstacle_for_fallback p df_4h bias entry_est tp_est)
                    | none => false
                  if blocked4h then none
                  else
                    match check_trigger p df_15m bias best_poi current_price atr_15m 0.01 with
                    | some trigger =>
                      if force_watch_overextended then
                        some { action := .WATCH
                               symbol := symbol
                               direction := trigger.direction
                               entry_price := trigger.entry
                               current_price := current_price
                               stop_loss := trigger.sl
                               take_profit := trigger.tp
                               rr_ratio := trigger.rr
                               entry_mode_market := true
                               watch_reason := some .overextended1h
                               trigger_type := none
                               quality_tier := .WATCH
                               components := trigger.components
                               narrative := narrative
                               poi := best_poi
                               trigger_data := some trigger
                               atr := atr_15m
                               timeframe_15m := true }
                      else
                        some { action := .SIGNAL
                               symbol := symbol
                               direction := trigger.direction
                               entry_price := trigger.entry
                               current_price := current_price
                               stop_loss := trigger.sl
                               take_profit := trigger.tp
                               rr_ratio := trigger.rr
                               entry_mode_market := true
                               watch_reason := none
                               trigger_type := some trigger.trigger_type
                               quality_tier := trigger.quality
                               components := trigger.components
                               narrative := narrative
                               poi := best_poi
                               trigger_data := some trigger
                               atr := atr_15m
                               timeframe_15m := true }
                    | none =>
                      if best_poi.distance_from_price_pct ≤ 1 then
                        some { action := .WATCH
                               symbol := symbol
                               direction := bias
                               entry_price := best_poi.entry
                               current_price := current_price
                               stop_loss := best_poi.sl
                               take_profit := best_poi.tp
                               rr_ratio := best_poi.rr
                               entry_mode_market := true
                               watch_reason := some (.poiNear best_poi.distance_from_price_pct)
                               trigger_type := none
                               quality_tier := .WATCH
                               components := [.HTF_BIAS, .POI_ZONE]
                               narrative := narrative
                               poi := best_poi
                               trigger_data := none
                               atr := atr_15m
                               timeframe_15m := true }
                      else none
  (st, out)

/-! ## Trade lifecycle manager (src/trade_manager.py) -/

/-- Persisted signal status. -/
inductive SigStatus | ACTIVE | WAITING | WON | LOST | CANCELLED
deriving Repr, DecidableEq, Inhabited

/-- Entry mode of a signal (`"MARKET"` / `"LIMIT"` / `"PENDING"`). -/
inductive EntryMode | MARKET | LIMIT | PENDING
deriving Repr, DecidableEq, Inhabited

/-- A persisted signal row.  Times are rationals (seconds since epoch);
level fields are optional because the watchlist promotion path can hand
`None` levels to `add_signal`. -/
structure SignalRow where
  id : ℕ
  symbol : String
  direction : Bias
  entry_price : Option ℚ
  stop_loss : Option ℚ
  take_profit : Option ℚ
  status : SigStatus
  entry_mode : EntryMode
  created_at : Option ℚ
  close_time : Option ℚ
deriving Repr, DecidableEq, Inhabited

/-- The stored `watch_reason` text, abstracted to the distinctions the
code tests: `check_watchlist` only asks whether the string contains
`"Tüm gate'ler geçti"`. -/
inductive StoredWatchReason
  /-- `"Tüm gate'ler geçti, 15dk izleme başladı"` (completed setup). -/
  | allGatesPassed
  /-- default `"Gate teyit bekleniyor"` (incomplete setup). -/
  | gatePending
  /-- an engine watch reason forwarded by `process_signal`. -/
  | fromEngine (r : GenWatchReason)
deriving Repr, DecidableEq, Inhabited

/-- Whether the stored reason contains `"Tüm gate'ler geçti"`. -/
def StoredWatchReason.allGates : StoredWatchReason → Bool
  | .allGatesPassed => true
  | _ => false

/-- Watchlist entry status. -/
inductive WatchStatus | WATCHING | PROMOTED | EXPIRED
deriving Repr, DecidableEq, Inhabited

/-- Expiry reason recorded by `expire_watchlist_item` (the formatted
Turkish strings, keyed by their discriminating prefix and the candle
count they embed). -/
inductive ExpireReason
  /-- `"Setup invalidated (SL/HTF) - n. 5m mum"` -/
  | setupInvalidated (n : ℕ)
  /-- `"SL kırıldı - n. 5m mum"` -/
  | slBroken (n : ℕ)
  /-- `"Timeout - n mum beklendi, gate tamamlanmadı"` -/
  | timeout (n : ℕ)
deriving Repr, DecidableEq, Inhabited

/-- A persisted watchlist row. -/
structure WatchRow where
  id : ℕ
  symbol : String
  direction : Bias
  potential_entry : Option ℚ
  potential_sl : Option ℚ
  potential_tp : Option ℚ
  watch_reason : StoredWatchReason
  initial_score : ℕ
  candles_watched : ℕ
  max_watch_candles : ℕ
  last_5m_candle_ts : Option ℕ
  status : WatchStatus
  expire_reason : Option ExpireReason
  components : List Component
deriving Repr, DecidableEq, Inhabited

/-- The persistence stores the trade manager touches: the signals table
and the watchlist table with their id counters.

Modelled from the spec: `database.py` is not among the sources; its
signal/watchlist operations are modelled per the persistence contract
(§6 of the specification) as plain appends and per-id updates on these
two independent stores. -/
structure TMDB where
  signals : List SignalRow
  nextSigId : ℕ
  watchlist : List WatchRow
  nextWlId : ℕ
deriving Repr, DecidableEq, Inhabited

/-- Modelled from the spec: `get_active_signals()` returns the
non-terminal (ACTIVE or WAITING) signal rows. -/
def get_active_signals (db : TMDB) : List SignalRow :=
  db.signals.filter (fun s => decide (s.status = .ACTIVE ∨ s.status = .WAITING))

/-- Modelled from the spec: `get_active_trade_count()` counts the
non-terminal signal rows. -/
def get_active_trade_count (db : TMDB) : ℕ := (get_active_signals db).length

/-- Modelled from the spec: `get_signal_history(n)` returns the `n` most
recent signal rows, newest first. -/
def get_signal_history (db : TMDB) (n : ℕ) : List SignalRow :=
  db.signals.reverse.take n

/-- Modelled from the spec: `add_to_watchlist(...)` appends a WATCHING
row and returns its id. -/
def add_to_watchlist (db : TMDB) (row : WatchRow) : TMDB × ℕ :=
  ({ db with watchlist := db.watchlist ++ [{ row with id := db.nextWlId, status := .WATCHING }]
             nextWlId := db.nextWlId + 1 }, db.nextWlId)

/-- Modelled from the spec: `add_signal(...)` appends a signal row with
the given payload and returns its id. -/
def add_signal (db : TMDB) (row : SignalRow) : TMDB × ℕ :=
  ({ db with signals := db.signals ++ [{ row with id := db.nextSigId }]
             nextSigId := db.nextSigId + 1 }, db.nextSigId)

/-- Modelled from the spec: `activate_signal(id)` marks the row ACTIVE. -/
def activate_signal (db : TMDB) (sid : ℕ) : TMDB :=
  { db with signals := db.signals.map (fun s =>
      if s.id = sid then { s with status := SigStatus.ACTIVE } else s) }

/-- Modelled from the spec: `update_watchlist_item(id, candles, score, ts)`. -/
def update_watchlist_item (db : TMDB) (wid candles : ℕ) (ts : Option ℕ) : TMDB :=
  { db with watchlist := db.watchlist.map (fun w =>
      if w.id = wid then { w with candles_watched := candles, last_5m_candle_ts := ts } else w) }

/-- Modelled from the spec: `expire_watchlist_item(id, reason)`. -/
def expire_watchlist_item (db : TMDB) (wid : ℕ) (reason : ExpireReason) : TMDB :=
  { db with watchlist := db.watchlist.map (fun w =>
      if w.id = wid then { w with status := WatchStatus.EXPIRED, expire_reason := some reason }
      else w) }

/-- Modelled from the spec: `promote_watchlist_item(id)`. -/
def promote_watchlist_item (db : TMDB) (wid : ℕ) : TMDB :=
  { db with watchlist := db.watchlist.map (fun w =>
      if w.id = wid then { w with status := WatchStatus.PROMOTED } else w) }

/-- The raw `UPDATE watchlist SET watch_reason=?, potential_entry=?, ...`
issued by `check_watchlist` when a pending setup completes its gates. -/
def update_watchlist_levels (db : TMDB) (wid : ℕ) (reason : StoredWatchReason)
    (e sl tp : Option ℚ) : TMDB :=
  { db with watchlist := db.watchlist.map (fun w =>
      if w.id = wid then
        { w with watch_reason := reason, potential_entry := e, potential_sl := sl,
                 potential_tp := tp }
      else w) }

/-- `process_signal`'s reply record. -/
inductive ProcResult
  | rejectedDuplicate
  | watching (symbol : String) (direction : Bias) (reason : StoredWatchReason)
deriving Repr, DecidableEq, Inhabited

/-- `config.py` `WATCH_CONFIRM_CANDLES` (v4.1: 12 five-minute candles). -/
def WATCH_CONFIRM_CANDLES : ℕ := 12

/-- `TradeManager.process_signal(signal_result)`
(src/trade_manager.py:123-170).  SIGNAL and WATCH emissions are both
routed to the watchlist: after rejecting symbols that already carry an
ACTIVE/WAITING signal, a WATCHING row is appended (max watch 12 candles
for SIGNAL, 36 for WATCH).  The v4 emission carries its levels under
`entry_price`/`stop_loss`/`take_profit`, while this v3 manager looks up
`entry`/`sl`/`tp` (falling back to `potential_*`), so the stored
potential levels are `None`.  The signals store is never written. -/
def process_signal (db : TMDB) (signal_result : Option Emission) :
    TMDB × Option ProcResult :=
  match signal_result with
  | none => (db, none)
  | some sig =>
    let symbol := sig.symbol
    let direction := sig.direction
    if (get_active_signals db).any (fun s =>
        decide (s.symbol = symbol) && decide (s.status = .ACTIVE ∨ s.status = .WAITING)) then
      (db, some .rejectedDuplicate)
    else
      let reason : StoredWatchReason :=
        if sig.action = .SIGNAL then .allGatesPassed
        else match sig.watch_reason with
          | some r => .fromEngine r
          | none => .gatePending
      let max_watch := if sig.action = .SIGNAL then WATCH_CONFIRM_CANDLES
                       else WATCH_CONFIRM_CANDLES * 3
      let r := add_to_watchlist db
        { id := 0
          symbol := symbol
          direction := direction
          potential_entry := none
          potential_sl := none
          potential_tp := none
          watch_reason := reason
          initial_score := if sig.action = .SIGNAL then 100 else 60
          candles_watched := 0
          max_watch_candles := max_watch
          last_5m_candle_ts := none
          status := .WATCHING
          expire_reason := none
          components := sig.components }
      (r.1, some (.watching symbol direction reason))

/-- The incoming dict of `_open_trade` (either a promoted watchlist
payload or — on the unreachable SIGNAL-promotion branch — an engine
emission). -/
structure TradeSignal where
  symbol : String
  direction : Bias
  entry : Option ℚ
  sl : Option ℚ
  tp : Option ℚ
  entry_mode : EntryMode
  components : List Component
deriving Repr, DecidableEq, Inhabited

/-- The trade-manager policy parameters (`self._param(...)` reads from
the parameter store with the `ICT_PARAMS` defaults:
`max_concurrent_trades` 3, `max_same_direction_trades` 2,
`signal_cooldown_minutes` 20). -/
structure TMConfig where
  max_concurrent_trades : ℕ
  max_same_direction_trades : ℕ
  signal_cooldown_minutes : ℕ
deriving Repr, DecidableEq, Inhabited

/-- The `config.py` defaults for the trade-manager policy parameters. -/
def defaultTMConfig : TMConfig := ⟨3, 2, 20⟩

/-- Reply of `_open_trade`. -/
inductive OpenResult
  | rejectedMaxLimit
  | rejectedDuplicate
  | rejectedMaxDirection
  | rejectedCooldown
  | opened (sid : ℕ)
  | limitPlaced (sid : ℕ)
deriving Repr, DecidableEq, Inhabited

/-- `TradeManager._open_trade(signal)` (src/trade_manager.py:176-293).
Gates, in order: concurrent open count below `max_concurrent_trades`;
no ACTIVE/WAITING signal on the same symbol; same-direction open count
below `max_same_direction_trades`; no terminal signal for the symbol
closed within `signal_cooldown_minutes`.  On pass the signal is
persisted as WAITING for LIMIT entry mode and ACTIVE otherwise
(PENDING is coerced to MARKET); the level fields are stored as given,
without any validation.  `open_trade_gates` is the gate prefix (lines
191-231), returning the rejection when one fires. -/
def open_trade_gates (cfg : TMConfig) (db : TMDB) (now : ℚ) (symbol : String)
    (direction : Bias) : Option OpenResult :=
  if cfg.max_concurrent_trades ≤ get_active_trade_count db then
    some .rejectedMaxLimit
  else
    let active_signals := get_active_signals db
    if active_signals.any (fun s =>
        decide (s.symbol = symbol) && decide (s.status = .ACTIVE ∨ s.status = .WAITING)) then
      some .rejectedDuplicate
    else
      let same_dir_count := (active_signals.filter (fun s =>
        decide (s.direction = direction) &&
        decide (s.status = .ACTIVE ∨ s.status = .WAITING))).length
      if cfg.max_same_direction_trades ≤ same_dir_count then
        some .rejectedMaxDirection
      else
        let recent_history := get_signal_history db 30
        let cooldown_hit := recent_history.any (fun s =>
          decide (s.symbol = symbol) &&
          decide (s.status = .WON ∨ s.status = .LOST ∨ s.status = .CANCELLED) &&
          (match s.close_time.orElse (fun _ => s.created_at) with
           | some t => decide (now - t < (cfg.signal_cooldown_minutes : ℚ) * 60)
           | none => false))
        if cooldown_hit then some .rejectedCooldown
        else none

/-- `TradeManager._open_trade(signal)` (src/trade_manager.py:176-293):
the gates of `open_trade_gates` followed by persistence — WAITING for
LIMIT entry mode, ACTIVE otherwise, with `activate_signal` on ACTIVE. -/
def open_trade (cfg : TMConfig) (db : TMDB) (now : ℚ) (sig : TradeSignal) :
    TMDB × OpenResult :=
  match open_trade_gates cfg db now sig.symbol sig.direction with
  | some r => (db, r)
  | none =>
    let entry_mode := if sig.entry_mode = .PENDING then EntryMode.MARKET else sig.entry_mode
    let initial_status := if entry_mode = .LIMIT then SigStatus.WAITING else SigStatus.ACTIVE
    let (db1, sid) := add_signal db
      { id := 0
        symbol := sig.symbol
        direction := sig.direction
        entry_price := sig.entry
        stop_loss := sig.sl
        take_profit := sig.tp
        status := initial_status
        entry_mode := entry_mode
        created_at := some now
        close_time := none }
    if initial_status = .ACTIVE then
      (activate_signal db1 sid, .opened sid)
    else
      (db1, .limitPlaced sid)

/-- The in-memory per-signal `_trade_state` entry of `TradeManager`
(breakeven / trailing bookkeeping). -/
structure TradeState where
  breakeven_moved : Bool
  trailing_sl : Option ℚ
  breakeven_sl : Option ℚ
  early_protect_sl : Option ℚ
  early_protect : Bool
  trailing_logged : Bool
deriving Repr, DecidableEq, Inhabited

/-- The default `_trade_state` entry for a signal seen for the first time. -/
def initTradeState : TradeState := ⟨false, none, none, none, false, false⟩

/-- The final effective-SL fold of `_manage_long_sl`
(src/trade_manager.py:622-628): the running value maxed with every
recorded protective level. -/
def foldLong (s : TradeState) (x : ℚ) : ℚ :=
  let x := match s.trailing_sl with | some t => max x t | none => x
  let x := match s.breakeven_sl with | some b => max x b | none => x
  match s.early_protect_sl with | some e => max x e | none => x

/-- The staged branch of `_manage_long_sl` (src/trade_manager.py:592-620):
with positive progress toward TP, progress ≥ 0.60 ratchets `trailing_sl`
to `entry + 0.50×(current−entry)`; else progress ≥ 0.40 (breakeven not
yet moved) sets `breakeven_sl = entry × 1.001`; else progress ≥ 0.25
(once) arms an early protect SL of `entry × 0.998` when that improves on
the base SL. -/
def manage_long_branch (entry_price current_price stop_loss take_profit : ℚ)
    (state : TradeState) (effective_sl : ℚ) : TradeState × ℚ :=
  let total_distance := take_profit - entry_price
  let current_progress := current_price - entry_price
  if 0 < total_distance ∧ 0 < current_progress then
    let progress_pct := current_progress / total_distance
    if 0.60 ≤ progress_pct then
      let trailing := entry_price + current_progress * 0.50
      if state.trailing_sl.all (fun t => decide (t < trailing)) then
        ({ state with trailing_sl := some trailing
                      trailing_logged := true },
         max effective_sl trailing)
      else (state, effective_sl)
    else if 0.40 ≤ progress_pct ∧ state.breakeven_moved = false then
      let be_sl := entry_price * 1.001
      ({ state with breakeven_moved := true, breakeven_sl := some be_sl }, be_sl)
    else if 0.25 ≤ progress_pct ∧ state.early_protect = false then
      let early_sl := entry_price * 0.998
      if stop_loss < early_sl then
        ({ state with early_protect := true, early_protect_sl := some early_sl }, early_sl)
      else ({ state with early_protect := true }, effective_sl)
    else (state, effective_sl)
  else (state, effective_sl)

/-- `TradeManager._manage_long_sl(...)` (src/trade_manager.py:589-630):
the staged branch followed by the effective-SL fold. -/
def manage_long_sl (entry_price current_price stop_loss take_profit : ℚ)
    (state : TradeState) (effective_sl : ℚ) : TradeState × ℚ :=
  let r := manage_long_branch entry_price current_price stop_loss take_profit state effective_sl
  (r.1, foldLong r.1 r.2)

/-- The final effective-SL fold of `_manage_short_sl`
(src/trade_manager.py:665-671): min instead of max. -/
def foldShort (s : TradeState) (x : ℚ) : ℚ :=
  let x := match s.trailing_sl with | some t => min x t | none => x
  let x := match s.breakeven_sl with | some b => min x b | none => x
  match s.early_protect_sl with | some e => min x e | none => x

/-- The staged branch of `_manage_short_sl` (src/trade_manager.py:635-663):
mirror of `manage_long_branch` (breakeven `entry × 0.999`, early protect
`entry × 1.002`, trailing `entry − 0.50×(entry−current)`). -/
def manage_short_branch (entry_price current_price stop_loss take_profit : ℚ)
    (state : TradeState) (effective_sl : ℚ) : TradeState × ℚ :=
  let total_distance := entry_price - take_profit
  let current_progress := entry_price - current_price
  if 0 < total_distance ∧ 0 < current_progress then
    let progress_pct := current_progress / total_distance
    if 0.60 ≤ progress_pct then
      let trailing := entry_price - current_progress * 0.50
      if state.trailing_sl.all (fun t => decide (trailing < t)) then
        ({ state with trailing_sl := some trailing
                      trailing_logged := true },
         min effective_sl trailing)
      else (state, effective_sl)
    else if 0.40 ≤ progress_pct ∧ state.breakeven_moved = false then
      let be_sl := entry_price * 0.999
      ({ state with breakeven_moved := true, breakeven_sl := some be_sl }, be_sl)
    else if 0.25 ≤ progress_pct ∧ state.early_protect = false then
      let early_sl := entry_price * 1.002
      if early_sl < stop_loss then
        ({ state with early_protect := true, early_protect_sl := some early_sl }, early_sl)
      else ({ state with early_protect := true }, effective_sl)
    else (state, effective_sl)
  else (state, effective_sl)

/-- `TradeManager._manage_short_sl(...)` (src/trade_manager.py:632-672):
the staged branch followed by the min-fold. -/
def manage_short_sl (entry_price current_price stop_loss take_profit : ℚ)
    (state : TradeState) (effective_sl : ℚ) : TradeState × ℚ :=
  let r := manage_short_branch entry_price current_price stop_loss take_profit state effective_sl
  (r.1, foldShort r.1 r.2)

/-- `TradeManager._get_sl_close_type(state)` (src/trade_manager.py:674-680). -/
inductive SlCloseType | TRAILING_SL | BREAKEVEN | STRUCTURAL_SL
deriving Repr, DecidableEq, Inhabited

/-- SL close label from the in-memory state. -/
def get_sl_close_type (state : TradeState) : SlCloseType :=
  if state.trailing_sl.isSome then .TRAILING_SL
  else if state.breakeven_moved then .BREAKEVEN
  else .STRUCTURAL_SL

/-- Outcome of one `_check_active_signal` tick. -/
inductive TickStatus
  | maxDurClosed (won : Bool) (pnl : ℚ)
  | cancelledStructural
  | cancelledLevels
  | closedWonAtTp (pnl : ℚ)
  | closedAtSl (won : Bool) (pnl : ℚ) (slType : SlCloseType)
  | stillActive (unrealized : ℚ)
deriving Repr, DecidableEq, Inhabited

/-- Result of one `_check_active_signal` tick: the outcome, the
`_trade_state` entry left in the map (`none` when the early-return paths
popped it; the closing paths re-store the managed state because the
final `self._trade_state[signal_id] = state` runs after the pop), the
effective SL computed by the SL-management stage (`none` when that stage
was not reached), and the `update_signal_sl` write when one occurred. -/
structure TickResult where
  status : TickStatus
  state : Option TradeState
  effective_sl : Option ℚ
  dbSl : Option ℚ
deriving Repr, DecidableEq, Inhabited

/-- `config.py` `MAX_TRADE_DURATION_HOURS` (v4.4: 6). -/
def MAX_TRADE_DURATION_HOURS : ℚ := 6

/-- The body of `TradeManager._check_active_signal(...)`
(src/trade_manager.py:432-583) after the age check, for one ACTIVE
signal.  Order: structural TP-vs-SL sanity; pre-breakeven level
orientation; SL management (`manage_long_sl`/`manage_short_sl`); TP/SL
terminal checks with the 0.5-point slippage clamp; persistence of the
effective SL whenever the state carries a breakeven or trailing level. -/
def check_active_body (state0 : TradeState) (direction : Bias)
    (entry_price stop_loss take_profit current_price : ℚ) : TickResult :=
    let is_be_trade := state0.breakeven_moved
    let structurally_valid : Bool :=
      match direction with
      | .LONG => decide (stop_loss < take_profit)
      | .SHORT => decide (take_profit < stop_loss)
      | .NEUTRAL => true
    if !structurally_valid then ⟨.cancelledStructural, none, none, none⟩
    else if direction = .LONG ∧ is_be_trade = false ∧
            (entry_price ≤ stop_loss ∨ take_profit ≤ entry_price) then
      ⟨.cancelledLevels, none, none, none⟩
    else if direction = .SHORT ∧ is_be_trade = false ∧
            (stop_loss ≤ entry_price ∨ entry_price ≤ take_profit) then
      ⟨.cancelledLevels, none, none, none⟩
    else
      match direction with
      | .LONG =>
        let r := manage_long_sl entry_price current_price stop_loss take_profit state0 stop_loss
        let state := r.1
        let effective_sl := r.2
        let dbSl := if state.breakeven_moved || state.trailing_sl.isSome
                    then some effective_sl else none
        if take_profit ≤ current_price then
          let pnl := (current_price - entry_price) / entry_price * 100
          ⟨.closedWonAtTp pnl, some state, some effective_sl, dbSl⟩
        else if current_price ≤ effective_sl then
          let raw_pnl := (current_price - entry_price) / entry_price * 100
          let max_sl_loss := (effective_sl - entry_price) / entry_price * 100
          let pnl := if raw_pnl < 0 ∧ raw_pnl < max_sl_loss - 0.5 then max_sl_loss - 0.5
                     else raw_pnl
          ⟨.closedAtSl (0 < pnl) pnl (get_sl_close_type state), some state, some effective_sl, dbSl⟩
        else
          ⟨.stillActive ((current_price - entry_price) / entry_price * 100),
           some state, some effective_sl, dbSl⟩
      | .SHORT =>
        let r := manage_short_sl entry_price current_price stop_loss take_profit state0 stop_loss
        let state := r.1
        let effective_sl := r.2
        let dbSl := if state.breakeven_moved || state.trailing_sl.isSome
                    then some effective_sl else none
        if current_price ≤ take_profit then
          let pnl := (entry_price - current_price) / entry_price * 100
          ⟨.closedWonAtTp pnl, some state, some effective_sl, dbSl⟩
        else if effective_sl ≤ current_price then
          let raw_pnl := (entry_price - current_price) / entry_price * 100
          let max_sl_loss := (entry_price - effective_sl) / entry_price * 100
          let pnl := if raw_pnl < 0 ∧ raw_pnl < max_sl_loss - 0.5 then max_sl_loss - 0.5
                     else raw_pnl
          ⟨.closedAtSl (0 < pnl) pnl (get_sl_close_type state), some state, some effective_sl, dbSl⟩
        else
          ⟨.stillActive ((entry_price - current_price) / entry_price * 100),
           some state, some effective_sl, dbSl⟩
      | .NEUTRAL =>
        ⟨.stillActive 0, some state0, none,
         if state0.breakeven_moved || state0.trailing_sl.isSome then some stop_loss else none⟩

/-- `TradeManager._check_active_signal(...)` wrapper: the age check of
lines 444-464 in front of `check_active_body`. -/
def check_active_signal (state0 : TradeState) (direction : Bias)
    (entry_price stop_loss take_profit current_price : ℚ)
    (trade_hours : Option ℚ) : TickResult :=
  match trade_hours with
  | some h =>
    if MAX_TRADE_DURATION_HOURS < h then
      let pnl := if direction = .LONG then (current_price - entry_price) / entry_price * 100
                 else (entry_price - current_price) / entry_price * 100
      ⟨.maxDurClosed (0 < pnl) pnl, none, none, none⟩
    else check_active_body state0 direction entry_price stop_loss take_profit current_price
  | none => check_active_body state0 direction entry_price stop_loss take_profit current_price

/-- `TradeManager._validate_completed_setup(symbol, item, ltf_df, multi_tf)`
(src/trade_manager.py:686-734).  Fails when the stored potential SL is
missing/zero or the 5m frame is empty; fails when the last 5m candle
touches the SL (low for LONG, high for SHORT); fails when the 4h close
has crossed the 20-candle close average against the direction.  True
means the setup is still valid. -/
def validate_completed_setup (direction : Bias) (potential_sl : Option ℚ)
    (ltf_df : List Candle) (multi_tf : Option Bundle) : Bool :=
  match potential_sl with
  | none => false
  | some psl =>
    if psl = 0 ∨ ltf_df.isEmpty then false
    else
      let last_candle := (ltf_df.getLast?).getD default
      let current_high := last_candle.high
      let current_low := last_candle.low
      let slHit : Bool :=
        if direction = .LONG then decide (current_low ≤ psl)
        else decide (psl ≤ current_high)
      if slHit then false
      else
        let bias_changed : Bool :=
          match multi_tf with
          | some b =>
            match b.h4 with
            | some df_4h =>
              if !df_4h.isEmpty && decide (20 ≤ df_4h.length) then
                let ema_20 := qmean ((df_4h.drop (df_4h.length - 20)).map (·.close))
                let current_price := ((df_4h.getLast?).getD default).close
                if direction = .LONG then decide (current_price < ema_20)
                else decide (ema_20 < current_price)
              else false
            | none => false
          | none => false
        !bias_changed

/-- Outcome of one `check_watchlist` iteration for a single WATCHING
item (which persistence calls ran and which branch was taken). -/
inductive WatchOutcome
  /-- 5m fetch failed or returned an empty frame: the item is skipped. -/
  | noData
  /-- the newest 5m candle equals `last_5m_candle_ts`: skipped. -/
  | sameCandle
  /-- multi-timeframe fetch failed: counter/ts persisted, item kept. -/
  | dataFail (candles : ℕ)
  /-- completed setup invalidated (SL touched or 4h bias flip): EXPIRED. -/
  | expiredInvalidated (candles : ℕ)
  /-- pending setup whose SL was touched: EXPIRED. -/
  | expiredSlBroken (candles : ℕ)
  /-- pending setup, gates still incomplete at `max_watch_candles`: EXPIRED. -/
  | expiredTimeout (candles : ℕ)
  /-- pending setup, gates still incomplete below the cap: counter persisted. -/
  | stillWaiting (candles : ℕ)
  /-- setup valid but the cap not reached yet: counter persisted. -/
  | continueWatching (candles : ℕ)
  /-- cap reached with a valid setup: PROMOTED and handed to `_open_trade`
  with the stored watchlist levels (LIMIT entry mode). -/
  | promoted (candles : ℕ) (res : OpenResult)
  /-- cap reached on the gates-completed branch with a SIGNAL emission:
  `_open_trade` receives the raw emission dict and one of its gates
  rejects it. -/
  | promotedRejected (candles : ℕ) (res : OpenResult)
  /-- cap reached on the gates-completed branch with a SIGNAL emission
  passing every gate: `_open_trade` evaluates `signal["entry"]` on a
  dict that only carries `entry_price`, raising `KeyError` (the tick
  aborts; nothing is persisted beyond the promotion). -/
  | promotedCrash (candles : ℕ) (em : Emission)
deriving Repr, DecidableEq, Inhabited

/-- One iteration of the `TradeManager.check_watchlist(strategy_engine)`
loop (src/trade_manager.py:736-901) for a single WATCHING `item`.
`df_ltf` is the fetched 15-candle 5m frame (`none` on fetch failure),
`multi` the multi-timeframe bundle (`none` on fetch failure), and
`engine` the `strategy_engine.generate_signal` callable (invoked as
`engine symbol df_ltf multi` — the 5m frame in the bundle position,
exactly as the source passes its arguments).  Completed setups
(`watch_reason` containing `"Tüm gate'ler geçti"`) are only checked for
SL/HTF invalidation; pending setups are expired on SL breaks, re-run
through the engine, expired on timeout when still incomplete, and
promoted to `_open_trade` (LIMIT mode) once `candles_watched` reaches
`max_watch_candles` with a valid setup. -/
def check_watchlist_item (cfg : TMConfig) (db : TMDB) (now : ℚ)
    (engine : String → List Candle → Bundle → Option Emission)
    (item : WatchRow) (df_ltf : Option (List Candle)) (multi : Option Bundle) :
    TMDB × WatchOutcome :=
  match df_ltf with
  | none => (db, .noData)
  | some ltf =>
    if ltf.isEmpty then (db, .noData)
    else
      let current_ts := ((ltf.getLast?).getD default).ts
      if item.last_5m_candle_ts = some current_ts then (db, .sameCandle)
      else
        let candles := item.candles_watched + 1
        match multi with
        | none => (update_watchlist_item db item.id candles (some current_ts), .dataFail candles)
        | some bundle =>
          let afterValidation : TMDB × Option Emission × Option WatchOutcome :=
            if item.watch_reason.allGates then
              if !validate_completed_setup item.direction item.potential_sl ltf (some bundle) then
                (expire_watchlist_item db item.id (.setupInvalidated candles), none,
                 some (.expiredInvalidated candles))
              else (db, none, none)
            else
              if !validate_completed_setup item.direction item.potential_sl ltf (some bundle) then
                (expire_watchlist_item db item.id (.slBroken candles), none,
                 some (.expiredSlBroken candles))
              else
                match engine item.symbol ltf bundle with
                | some em =>
                  (update_watchlist_levels db item.id .allGatesPassed
                     item.potential_entry item.potential_sl item.potential_tp,
                   some em, none)
                | none =>
                  if item.max_watch_candles ≤ candles then
                    (expire_watchlist_item db item.id (.timeout candles), none,
                     some (.expiredTimeout candles))
                  else
                    (update_watchlist_item db item.id candles (some current_ts), none,
                     some (.stillWaiting candles))
          match afterValidation with
          | (db1, _, some out) => (db1, out)
          | (db1, signal_result, none) =>
            if item.max_watch_candles ≤ candles then
              let db2 := promote_watchlist_item db1 item.id
              match signal_result with
              | some em =>
                if em.action = .SIGNAL then
                  match open_trade_gates cfg db2 now em.symbol em.direction with
                  | some r => (db2, .promotedRejected candles r)
                  | none => (db2, .promotedCrash candles em)
                else
                  let trade_signal : TradeSignal :=
                    { symbol := item.symbol
                      direction := item.direction
                      entry := item.potential_entry
                      sl := item.potential_sl
                      tp := item.potential_tp
                      entry_mode := .LIMIT
                      components := em.components }
                  let r3 := open_trade cfg db2 now trade_signal
                  (r3.1, .promoted candles r3.2)
              | none =>
                let trade_signal : TradeSignal :=
                  { symbol := item.symbol
                    direction := item.direction
                    entry := item.potential_entry
                    sl := item.potential_sl
                    tp := item.potential_tp
                    entry_mode := .LIMIT
                    components := [] }
                let r3 := open_trade cfg db2 now trade_signal
                (r3.1, .promoted candles r3.2)
            else
              (update_watchlist_item db1 item.id candles (some current_ts),
               .continueWatching candles)

/-! ## Self-optimizer (src/self_optimizer.py) -/

/-- Parameter groups of the optimizer's `PARAM_REGISTRY`. -/
inductive ParamGroup | trigger | narrative | poi | structural | risk
deriving Repr, DecidableEq, Inhabited

/-- One `PARAM_REGISTRY` entry: safe bounds and group. -/
structure ParamReg where
  min_b : ℚ
  max_b : ℚ
  group : ParamGroup
deriving Repr, DecidableEq, Inhabited

/-- `SelfOptimizer.PARAM_REGISTRY` (src/self_optimizer.py:116-195). -/
def PARAM_REGISTRY (name : String) : Option ParamReg :=
  if name = "displacement_min_body_ratio" then some ⟨0.40, 0.75, .trigger⟩
  else if name = "displacement_min_size_pct" then some ⟨0.002, 0.010, .trigger⟩
  else if name = "displacement_atr_multiplier" then some ⟨1.00, 2.50, .trigger⟩
  else if name = "bos_min_displacement" then some ⟨0.001, 0.006, .narrative⟩
  else if name = "fvg_min_size_pct" then some ⟨0.0003, 0.004, .poi⟩
  else if name = "fvg_max_age_candles" then some ⟨10, 40, .poi⟩
  else if name = "liquidity_equal_tolerance" then some ⟨0.0003, 0.003, .poi⟩
  else if name = "ob_body_ratio_min" then some ⟨0.25, 0.65, .poi⟩
  else if name = "ob_max_age_candles" then some ⟨15, 50, .poi⟩
  else if name = "swing_lookback" then some ⟨3, 8, .structural⟩
  else if name = "poi_max_distance_pct" then some ⟨0.005, 0.020, .poi⟩
  else if name = "default_sl_pct" then some ⟨0.008, 0.025, .risk⟩
  else if name = "min_rr_ratio" then some ⟨1.20, 3.00, .risk⟩
  else none

/-- The `config.py` `ICT_PARAMS` values for the optimizer-visible keys
(used as `get_bot_param` defaults and for the `isinstance(..., int)`
typing test). -/
def ICT_PARAMS_default (name : String) : Option ℚ :=
  if name = "swing_lookback" then some 5
  else if name = "bos_min_displacement" then some 0.003
  else if name = "ob_max_age_candles" then some 30
  else if name = "ob_body_ratio_min" then some 0.40
  else if name = "fvg_min_size_pct" then some 0.001
  else if name = "fvg_max_age_candles" then some 20
  else if name = "liquidity_equal_tolerance" then some 0.001
  else if name = "liquidity_min_touches" then some 2
  else if name = "default_sl_pct" then some 0.020
  else if name = "max_sl_distance_pct" then some 0.030
  else if name = "sl_buffer_pct" then some 0.01
  else if name = "max_concurrent_trades" then some 3
  else if name = "max_same_direction_trades" then some 2
  else if name = "min_sl_distance_pct" then some 0.012
  else if name = "signal_cooldown_minutes" then some 20
  else if name = "displacement_min_body_ratio" then some 0.55
  else if name = "displacement_min_size_pct" then some 0.006
  else if name = "displacement_atr_multiplier" then some 1.5
  else if name = "displacement_max_candles_after_sweep" then some 3
  else if name = "poi_max_distance_pct" then some 0.010
  else if name = "obstacle_proximity_pct" then some 0.003
  else if name = "min_rr_ratio" then some 2.0
  else none

/-- Which `ICT_PARAMS` values are Python `int`s (the
`isinstance(ICT_PARAMS.get(param_name), int)` test in `_prepare_change`). -/
def isIntParam (name : String) : Bool :=
  name = "swing_lookback" ∨ name = "ob_max_age_candles" ∨ name = "fvg_max_age_candles" ∨
  name = "liquidity_min_touches" ∨ name = "max_concurrent_trades" ∨
  name = "max_same_direction_trades" ∨ name = "signal_cooldown_minutes" ∨
  name = "displacement_max_candles_after_sweep"

/-- Reasons attached to optimizer changes, abstracted to the tags the
formatted Turkish strings discriminate on. -/
inductive OptReason
  /-- `"🔙 ROLLBACK: WR d puan düştü (a%→b%), ..."` — mentions ROLLBACK. -/
  | rollback (wr_drop last_wr current_wr : ℚ)
  /-- the `"🚨 ACİL: ..."` emergency reasons. -/
  | emergencyBody
  | emergencyFvg
  | emergencySl
  /-- any normal-optimization rationale. -/
  | normal
deriving Repr, DecidableEq, Inhabited

/-- Whether the formatted reason string contains `"ROLLBACK"`. -/
def OptReason.mentionsRollback : OptReason → Bool
  | .rollback _ _ _ => true
  | _ => false

/-- One appended optimization-log entry
(`add_optimization_log(param, old, new, reason, wr_before, wr_after, n)`). -/
structure OptLogEntry where
  param : String
  old_value : ℚ
  new_value : ℚ
  reason : OptReason
  wr_before : ℚ
  wr_after : ℚ
  trades_analyzed : ℕ
deriving Repr, DecidableEq, Inhabited

/-- The persistence state the optimizer touches: the bot-parameter store
and the optimization log.

Modelled from the spec: `database.py` is absent from the sources;
`get_bot_param`/`save_bot_param` are a keyed store with defaults and
`add_optimization_log` an append. -/
structure OptDB where
  params : List (String × ℚ)
  optLog : List OptLogEntry
deriving Repr, DecidableEq, Inhabited

/-- Modelled from the spec: `get_bot_param(name, default)`. -/
def get_bot_param (db : OptDB) (name : String) (default : Option ℚ) : ℚ :=
  match db.params.lookup name with
  | some v => v
  | none => default.getD 0

/-- Modelled from the spec: `save_bot_param(name, value, default)` upserts. -/
def save_bot_param (db : OptDB) (name : String) (value : ℚ) : OptDB :=
  if (db.params.lookup name).isSome then
    { db with params := db.params.map (fun kv => if kv.1 = name then (name, value) else kv) }
  else
    { db with params := db.params ++ [(name, value)] }

/-- Modelled from the spec: `add_optimization_log(...)` appends. -/
def add_optimization_log (db : OptDB) (e : OptLogEntry) : OptDB :=
  { db with optLog := db.optLog ++ [e] }

/-- A change record produced by `_prepare_change` / `_check_rollback`. -/
structure Change where
  param : String
  old : ℚ
  new : ℚ
  reason : OptReason
  bounds : ℚ × ℚ
  group : Option ParamGroup
  isRollbackPriority : Bool
deriving Repr, DecidableEq, Inhabited

/-- The optimizer's own mutable state (`self._last_*` fields used by the
rollback guard). -/
structure OptState where
  last_optimization_wr : Option ℚ
  last_optimization_changes : List Change
  last_trade_count : ℕ
deriving Repr, DecidableEq, Inhabited

/-- `OPTIMIZER_CONFIG` values consumed in `SelfOptimizer.__init__`. -/
structure OptConfig where
  learning_rate : ℚ
  max_change_pct : ℚ
  min_trades : ℕ
  target_win_rate : ℚ
deriving Repr, DecidableEq, Inhabited

/-- The `config.py` `OPTIMIZER_CONFIG` defaults. -/
def defaultOptConfig : OptConfig := ⟨0.03, 0.10, 20, 0.55⟩

/-- The slice of the optimizer's trade pool (`_build_trade_pool`) that
the rollback guard and emergency mode read: the completed-trade count
(`len(pool["completed"])`), the loser count (`len(pool["losers"])`) and
the win rate. -/
structure Pool where
  completedCount : ℕ
  losersCount : ℕ
  win_rate : ℚ
deriving Repr, DecidableEq, Inhabited

/-- `get_performance_summary()` fields read by `run_optimization`. -/
structure PerfStats where
  total_trades : ℕ
  win_rate : ℚ
deriving Repr, DecidableEq, Inhabited

/-- `SelfOptimizer._prepare_change(param_name, current_val, new_val, reason, stats)`
(src/self_optimizer.py:1499-1557).  In order: clamp the proposed change
magnitude to `max_param_change_pct × current`; clamp into the registry
bounds; coerce integer-typed parameters with banker's rounding (floats
are rounded to 4–6 decimals by magnitude); drop the proposal when the
relative change stays under 1%.  Unregistered parameters yield `none`. -/
def prep_stage1 (ocfg : OptConfig) (current_val new_val : ℚ) : ℚ :=
  -- `_prepare_change` step 1 (src/self_optimizer.py:1520-1524)
  let max_change := |current_val * ocfg.max_change_pct|
  if 0 < max_change ∧ max_change < |new_val - current_val| then
    current_val + (if current_val < new_val then max_change else -max_change)
  else new_val

/-- Bounds clamp: `new_val = max(min_b, min(max_b, new_val))`
(src/self_optimizer.py:1527). -/
def prep_stage2 (reg : ParamReg) (x : ℚ) : ℚ := max reg.min_b (min reg.max_b x)

/-- Typing step: `int(round(...))` for integer parameters, else rounding
to 4–6 decimals by magnitude (src/self_optimizer.py:1530-1539). -/
def prep_stage3 (param_name : String) (x : ℚ) : ℚ :=
  if isIntParam param_name then (roundHalfEven x : ℚ)
  else if |x| < 0.01 then pyRound x 6
  else if |x| < 1 then pyRound x 5
  else pyRound x 4

/-- See the module doc above `prep_stage1`: the assembled
`_prepare_change` with the final minimum-meaningful-change filter
(src/self_optimizer.py:1542-1557). -/
def prepare_change (ocfg : OptConfig) (param_name : String) (current_val new_val : ℚ)
    (reason : OptReason) : Option Change :=
  match PARAM_REGISTRY param_name with
  | none => none
  | some reg =>
    let new3 := prep_stage3 param_name (prep_stage2 reg (prep_stage1 ocfg current_val new_val))
    if current_val ≠ 0 then
      if |new3 - current_val| / |current_val| < 0.01 then none
      else some ⟨param_name, current_val, new3, reason, (reg.min_b, reg.max_b),
                 some reg.group, false⟩
    else if new3 = current_val then none
    else some ⟨param_name, current_val, new3, reason, (reg.min_b, reg.max_b),
               some reg.group, false⟩

/-- `SelfOptimizer._commit_changes(candidates, stats)`
(src/self_optimizer.py:1559-1578): persist each change and append a log
entry. -/
def commit_changes (db : OptDB) (candidates : List Change) (stats : PerfStats) : OptDB :=
  candidates.foldl (fun db c =>
    add_optimization_log (save_bot_param db c.param c.new)
      ⟨c.param, c.old, c.new, c.reason, stats.win_rate, stats.win_rate, stats.total_trades⟩) db

/-- `SelfOptimizer._apply_change(...)` (src/self_optimizer.py:1580-1591):
prepare, and commit immediately when the candidate survives. -/
def apply_change (ocfg : OptConfig) (db : OptDB) (param_name : String)
    (current_val new_val : ℚ) (reason : OptReason) (stats : PerfStats) :
    OptDB × Option Change :=
  match prepare_change ocfg param_name current_val new_val reason with
  | some c => (commit_changes db [c] stats, some c)
  | none => (db, none)

/-- `SelfOptimizer._check_rollback(pool, stats)`
(src/self_optimizer.py:390-449).  When a previous run recorded a win
rate and changes, the win rate has dropped by at least 3 points, and the
completed-trade pool holds at least `min_trades + 2` trades, every
parameter changed by that previous run is reverted to its recorded old
value, a log entry whose reason mentions ROLLBACK is appended per
reversion, and the guard's own state is cleared.  Otherwise nothing
happens. -/
def rollback_step (stats : PerfStats) (wr_drop last_wr current_wr : ℚ)
    (acc : OptDB × List Change) (prev_change : Change) : OptDB × List Change :=
  -- loop body of the reversion loop in `_check_rollback`
  -- (src/self_optimizer.py:418-444)
  let param := prev_change.param
  let old_val := prev_change.old
  let current_val := get_bot_param acc.1 param (ICT_PARAMS_default param)
  let reason := OptReason.rollback wr_drop last_wr current_wr
  let db := save_bot_param acc.1 param old_val
  let db := add_optimization_log db
    ⟨param, current_val, old_val, reason, current_wr, current_wr, stats.total_trades⟩
  let registry := PARAM_REGISTRY param
  (db, acc.2 ++ [⟨param, current_val, old_val, reason,
     (match registry with | some r => (r.min_b, r.max_b) | none => (0, 0)),
     registry.map (·.group), true⟩])

/-- The guard of `_check_rollback` around the reversion loop: fires when
a previous run recorded a win rate and changes, the win rate dropped by
3+ points, and the completed pool holds `min_trades + 2` trades; on
fire it folds `rollback_step` over the recorded changes and clears its
own state. -/
def check_rollback (ocfg : OptConfig) (st : OptState) (db : OptDB)
    (pool : Pool) (stats : PerfStats) : OptState × OptDB × List Change :=
  match st.last_optimization_wr with
  | none => (st, db, [])
  | some last_wr =>
    if st.last_optimization_changes.isEmpty then (st, db, [])
    else
      let current_wr := pool.win_rate
      let wr_drop := last_wr - current_wr
      if 3 ≤ wr_drop ∧ ocfg.min_trades + 2 ≤ pool.completedCount then
        let r := st.last_optimization_changes.foldl
          (rollback_step stats wr_drop last_wr current_wr) (db, [])
        ({ st with last_optimization_wr := none, last_optimization_changes := [] },
         r.1, r.2)
      else (st, db, [])

/-- `SelfOptimizer._emergency_mode(pool, stats)`
(src/self_optimizer.py:1377-1435): with at most 10 losses, tighten
`displacement_min_body_ratio` by +8% and `fvg_min_size_pct` by +10%, and
widen `default_sl_pct` by +6% when it is still under 0.020 — each via
`_apply_change`. -/
def emergency_mode (ocfg : OptConfig) (db : OptDB) (pool : Pool) (stats : PerfStats) :
    OptDB × List Change :=
  if 10 < pool.losersCount then (db, [])
  else
    let cur1 := get_bot_param db "displacement_min_body_ratio"
      (ICT_PARAMS_default "displacement_min_body_ratio")
    let (db, c1) := apply_change ocfg db "displacement_min_body_ratio" cur1 (cur1 * 1.08)
      .emergencyBody stats
    let cur2 := get_bot_param db "fvg_min_size_pct" (ICT_PARAMS_default "fvg_min_size_pct")
    let (db, c2) := apply_change ocfg db "fvg_min_size_pct" cur2 (cur2 * 1.10)
      .emergencyFvg stats
    let cur3 := get_bot_param db "default_sl_pct" (ICT_PARAMS_default "default_sl_pct")
    let (db, c3) :=
      if cur3 < 0.020 then
        apply_change ocfg db "default_sl_pct" cur3 (cur3 * 1.06) .emergencySl stats
      else (db, none)
    (db, (c1.toList ++ c2.toList ++ c3.toList))

/-- `SelfOptimizer._post_optimization(changes, pool, stats, total_trades)`
(src/self_optimizer.py:363-384): stash the pool's win rate, this run's
changes and the trade count as the next run's rollback target. -/
def post_optimization (st : OptState) (changes : List Change) (pool : Pool)
    (total_trades : ℕ) : OptState :=
  { st with
    last_optimization_wr := some pool.win_rate
    last_optimization_changes := changes
    last_trade_count := total_trades }

/-- Result of the early phase of `run_optimization`. -/
inductive OptRunResult
  /-- fewer than `min_trades_for_optimization` terminal trades. -/
  | skipped (total_trades : ℕ)
  /-- rollback and/or emergency changes committed; the run returned at
  src/self_optimizer.py:319-324 without evaluating the normal proposals. -/
  | completedEarly (changes : List Change)
  /-- no rollback/emergency change: the source continues into the
  component-analysis and candidate-generation steps (not embedded). -/
  | continueNormal
deriving Repr, DecidableEq, Inhabited

/-- The data-dependent prefix of `SelfOptimizer.run_optimization()`
(src/self_optimizer.py:261-324 with `_post_optimization`): the
minimum-trade skip, the rollback guard, emergency mode on a 0% win rate
with 3+ losses, and the early `COMPLETED` return that skips the normal
optimization whenever those produced changes (re-stashing those very
changes as the next rollback target).  The continuation into the normal
candidate-generation steps is represented by `continueNormal`. -/
def run_optimization_early (ocfg : OptConfig) (st : OptState) (db : OptDB)
    (stats : PerfStats) (pool : Pool) : OptState × OptDB × OptRunResult :=
  if stats.total_trades < ocfg.min_trades then (st, db, .skipped stats.total_trades)
  else
    let r := check_rollback ocfg st db pool stats
    let e :=
      if pool.win_rate = 0 ∧ 3 ≤ pool.losersCount then
        emergency_mode ocfg r.2.1 pool stats
      else (r.2.1, [])
    let changes := r.2.2 ++ e.2
    if !changes.isEmpty then
      (post_optimization r.1 changes pool stats.total_trades, e.1, .completedEarly changes)
    else (r.1, e.1, .continueNormal)

/-! ## Concrete fixtures -/

/-- A completed watchlist setup (gates passed) one 5m candle short of
the 12-candle cap, with stored LONG levels 100/99/104. -/
def itemC2completed : WatchRow :=
  ⟨0, "BTC-USDT", .LONG, some 100, some 99, some 104, .allGatesPassed, 100, 11, 12,
   none, .WATCHING, none, []⟩

/-- The same row still waiting for its gates. -/
def itemC2pending : WatchRow :=
  { itemC2completed with watch_reason := .gatePending }

/-- A store holding just the watched row. -/
def dbC2 : TMDB := ⟨[], 0, [itemC2completed], 1⟩

/-- A fresh 5m candle whose low stays above the stored SL 99. -/
def candC2 : Candle := ⟨1000, 102, 103, 101, 102, 0⟩

/-- A bundle without a 4h frame (no HTF bias flip possible). -/
def bundleC2 : Bundle := ⟨none, none, none, none⟩

/-- A previous optimizer run's stash: one change (`min_rr_ratio`
2.0 → 2.2) recorded at 40 trades with a pre-run win rate of 50. -/
def stC7 : OptState :=
  ⟨some 50, [⟨"min_rr_ratio", 2.0, 2.2, .normal, (1.20, 3.00), some .risk, false⟩], 40⟩

/-- The parameter store after that run. -/
def dbC7 : OptDB := ⟨[("min_rr_ratio", 2.2)], []⟩

/-- Pool with 41 completed trades — a single new terminal trade since
the stash — at win rate 46.5. -/
def poolC7 : Pool := ⟨41, 5, 46.5⟩

/-- The matching performance summary. -/
def statsC7 : PerfStats := ⟨41, 46.5⟩

/-! ## Theorems -/

/-- Indices produced by a `filterMap` that tags each range index are
strictly increasing. -/
theorem pairwise_index_filterMap_range' {f : ℕ → Option SwingPoint}
    (hf : ∀ i sp, f i = some sp → sp.index = i) (a n : ℕ) :
    ((List.range' a n).filterMap f).Pairwise (fun s t => s.index < t.index) := by
  refine List.Pairwise.filterMap f ?_ (List.pairwise_lt_range' a n)
  intro i j hij b hb b' hb'
  rw [hf i b hb, hf j b' hb']
  exact hij

/-- Membership in a guarded singleton `filterMap` branch. -/
theorem swing_filterMap_some {p : Prop} [Decidable p] {x sp : SwingPoint} :
    (if p then some x else none) = some sp ↔ p ∧ x = sp := by
  split <;> simp_all

/-- `j ∈ range' 1 L ↔ 1 ≤ j ∧ j ≤ L`. -/
theorem mem_range'_one {j L : ℕ} : j ∈ List.range' 1 L ↔ 1 ≤ j ∧ j ≤ L := by
  rw [List.mem_range']
  constructor
  · rintro ⟨i, hi, rfl⟩; omega
  · intro h; exact ⟨j - 1, by omega, by omega⟩

/-- Membership in `pyRange a b`. -/
theorem mem_pyRange {i a b : ℕ} : i ∈ pyRange a b ↔ a ≤ i ∧ i < b := by
  rw [pyRange, List.mem_range']
  constructor
  · rintro ⟨k, hk, rfl⟩; omega
  · intro h; exact ⟨i - a, by omega, by omega⟩

/-- The swing-high membership condition of `find_swing_points`,
unfolded. -/
theorem find_swing_points_fst_mem (df : List Candle) (L : ℕ) (sp : SwingPoint) :
    sp ∈ (find_swing_points df L).1 ↔
      (L * 2 + 1 ≤ df.length ∧ L ≤ sp.index ∧ sp.index < df.length - L ∧
       sp.price = hiAt df sp.index ∧ sp.ts = (candAt df sp.index).ts ∧
       ∀ j, 1 ≤ j → j ≤ L →
         hiAt df (sp.index - j) < hiAt df sp.index ∧
         hiAt df (sp.index + j) < hiAt df sp.index) := by
  unfold find_swing_points
  by_cases hlen : df.length < L * 2 + 1
  · simp only [hlen, if_true]
    simp only [List.not_mem_nil, false_iff, not_and]
    intro h; omega
  · simp only [hlen, if_false]
    rw [List.mem_filterMap]
    constructor
    · rintro ⟨i, hi, hsome⟩
      rw [swing_filterMap_some] at hsome
      obtain ⟨hcond, rfl⟩ := hsome
      rw [mem_pyRange] at hi
      rw [List.all_eq_true] at hcond
      refine ⟨by omega, hi.1, hi.2, rfl, rfl, ?_⟩
      intro j hj1 hjL
      have := hcond j (mem_range'_one.mpr ⟨hj1, hjL⟩)
      rw [Bool.and_eq_true, decide_eq_true_eq, decide_eq_true_eq] at this
      exact this
    · rintro ⟨hlen2, hL, hub, hprice, hts, hdom⟩
      refine ⟨sp.index, mem_pyRange.mpr ⟨hL, hub⟩, ?_⟩
      rw [swing_filterMap_some]
      constructor
      · rw [List.all_eq_true]
        intro j hj
        rw [mem_range'_one] at hj
        rw [Bool.and_eq_true, decide_eq_true_eq, decide_eq_true_eq]
        exact hdom j hj.1 hj.2
      · cases sp with
        | mk i pr t => simp only at hprice hts ⊢; rw [hprice, hts]

/-- The swing-low membership condition of `find_swing_points`,
unfolded. -/
theorem find_swing_points_snd_mem (df : List Candle) (L : ℕ) (sp : SwingPoint) :
    sp ∈ (find_swing_points df L).2 ↔
      (L * 2 + 1 ≤ df.length ∧ L ≤ sp.index ∧ sp.index < df.length - L ∧
       sp.price = loAt df sp.index ∧ sp.ts = (candAt df sp.index).ts ∧
       ∀ j, 1 ≤ j → j ≤ L →
         loAt df sp.index < loAt df (sp.index - j) ∧
         loAt df sp.index < loAt df (sp.index + j)) := by
  unfold find_swing_points
  by_cases hlen : df.length < L * 2 + 1
  · simp only [hlen, if_true]
    simp only [List.not_mem_nil, false_iff, not_and]
    intro h; omega
  · simp only [hlen, if_false]
    rw [List.mem_filterMap]
    constructor
    · rintro ⟨i, hi, hsome⟩
      rw [swing_filterMap_some] at hsome
      obtain ⟨hcond, rfl⟩ := hsome
      rw [mem_pyRange] at hi
      rw [List.all_eq_true] at hcond
      refine ⟨by omega, hi.1, hi.2, rfl, rfl, ?_⟩
      intro j hj1 hjL
      have := hcond j (mem_range'_one.mpr ⟨hj1, hjL⟩)
      rw [Bool.and_eq_true, decide_eq_true_eq, decide_eq_true_eq] at this
      exact this
    · rintro ⟨hlen2, hL, hub, hprice, hts, hdom⟩
      refine ⟨sp.index, mem_pyRange.mpr ⟨hL, hub⟩, ?_⟩
      rw [swing_filterMap_some]
      constructor
      · rw [List.all_eq_true]
        intro j hj
        rw [mem_range'_one] at hj
        rw [Bool.and_eq_true, decide_eq_true_eq, decide_eq_true_eq]
        exact hdom j hj.1 hj.2
      · cases sp with
        | mk i pr t => simp only at hprice hts ⊢; rw [hprice, hts]

/-- Both swing lists come out in chronological (strictly increasing
index) order. -/
theorem find_swing_points_chronological (df : List Candle) (L : ℕ) :
    (find_swing_points df L).1.Pairwise (fun s t => s.index < t.index) ∧
    (find_swing_points df L).2.Pairwise (fun s t => s.index < t.index) := by
  unfold find_swing_points
  by_cases hlen : df.length < L * 2 + 1
  · simp [hlen]
  · simp only [hlen, if_false]
    constructor <;>
      exact pairwise_index_filterMap_range'
        (by intro i sp h; rw [swing_filterMap_some] at h; rw [← h.2]) _ _

/-- A candle whose only significant coordinate is its high (all other
fields 0), for concrete frames. -/
def highCandle (h : ℚ) : Candle := ⟨0, 0, h, 0, 0, 0⟩

/-- An 11-candle frame whose lookback-5 major swing set is empty while
3-bar fractal highs exist (indices 1 and 8). -/
def dfC6 : List Candle :=
  [highCandle 10, highCandle 12, highCandle 10, highCandle 9, highCandle 9, highCandle 9,
   highCandle 9, highCandle 9, highCandle 11, highCandle 9, highCandle 9]

/-- C6 counterexample: on `dfC6` with the default lookback 5 the major
swing set has no highs (fewer than 2), yet `_find_swing_points` returns
that empty set unchanged — the 3-bar fractal candidates (which the very
same function produces under lookback 1) are not added by any fallback. -/
theorem C6_counterexample :
    (find_swing_points dfC6 5).1 = [] ∧ (find_swing_points dfC6 1).1 ≠ [] := by
  refine ⟨?_, ?_⟩
  · norm_num [find_swing_points, dfC6, highCandle, pyRange, hiAt, loAt, candAt, List.range']
  · norm_num [find_swing_points, dfC6, highCandle, pyRange, hiAt, loAt, candAt, List.range']
    simp

/-- C6 (amended): `_find_swing_points` applies no 3-bar-fractal fallback
at all.  For every frame and lookback `L`, the returned swing highs are
exactly the indices whose high strictly dominates the `L` neighbours on
each side (and dually for lows) — in particular the result can hold
fewer than 2 highs or lows — and both lists are returned in
chronological order. -/
theorem C6_swing_detection_no_fallback (df : List Candle) (L : ℕ) :
    ((find_swing_points df L).1.Pairwise (fun s t => s.index < t.index) ∧
     (find_swing_points df L).2.Pairwise (fun s t => s.index < t.index)) ∧
    (∀ sp, sp ∈ (find_swing_points df L).1 ↔
      (L * 2 + 1 ≤ df.length ∧ L ≤ sp.index ∧ sp.index < df.length - L ∧
       sp.price = hiAt df sp.index ∧ sp.ts = (candAt df sp.index).ts ∧
       ∀ j, 1 ≤ j → j ≤ L →
         hiAt df (sp.index - j) < hiAt df sp.index ∧
         hiAt df (sp.index + j) < hiAt df sp.index)) ∧
    (∀ sp, sp ∈ (find_swing_points df L).2 ↔
      (L * 2 + 1 ≤ df.length ∧ L ≤ sp.index ∧ sp.index < df.length - L ∧
       sp.price = loAt df sp.index ∧ sp.ts = (candAt df sp.index).ts ∧
       ∀ j, 1 ≤ j → j ≤ L →
         loAt df sp.index < loAt df (sp.index - j) ∧
         loAt df sp.index < loAt df (sp.index + j))) :=
  ⟨find_swing_points_chronological df L,
   fun sp => find_swing_points_fst_mem df L sp,
   fun sp => find_swing_points_snd_mem df L sp⟩

/-- The head of the price-ascending merge sort is a member attaining the
minimum price. -/
theorem liq_sorted_head_min (l : List LiqLevel) (hne : l ≠ []) :
    ((l.mergeSort (fun a b => decide (a.price ≤ b.price))).headD default) ∈ l ∧
    ∀ x ∈ l, ((l.mergeSort (fun a b => decide (a.price ≤ b.price))).headD default).price ≤ x.price := by
  have hperm := List.mergeSort_perm l (fun a b => decide (a.price ≤ b.price))
  have hsort := @List.sorted_mergeSort LiqLevel
    (fun a b : LiqLevel => decide (a.price ≤ b.price))
    (by intro a b c hab hbc
        rw [decide_eq_true_eq] at *; exact le_trans hab hbc)
    (by intro a b
        rcases le_total a.price b.price with h | h <;> simp [h]) l
  rcases hs : l.mergeSort (fun a b => decide (a.price ≤ b.price)) with _ | ⟨h, t⟩
  · rw [hs] at hperm
    exact absurd (hperm.nil_eq.symm) hne
  · rw [hs] at hperm hsort
    constructor
    · exact hperm.mem_iff.mp (List.mem_cons_self h t)
    · intro x hx
      have hx' : x ∈ h :: t := hperm.mem_iff.mpr hx
      rcases List.mem_cons.mp hx' with rfl | hmem
      · simp
      · have := List.rel_of_pairwise_cons hsort hmem
        rw [decide_eq_true_eq] at this
        simpa using this

/-- The head of the price-descending merge sort is a member attaining
the maximum price. -/
theorem liq_sorted_head_max (l : List LiqLevel) (hne : l ≠ []) :
    ((l.mergeSort (fun a b => decide (b.price ≤ a.price))).headD default) ∈ l ∧
    ∀ x ∈ l, x.price ≤ ((l.mergeSort (fun a b => decide (b.price ≤ a.price))).headD default).price := by
  have hperm := List.mergeSort_perm l (fun a b => decide (b.price ≤ a.price))
  have hsort := @List.sorted_mergeSort LiqLevel
    (fun a b : LiqLevel => decide (b.price ≤ a.price))
    (by intro a b c hab hbc
        rw [decide_eq_true_eq] at *; exact le_trans hbc hab)
    (by intro a b
        rcases le_total a.price b.price with h | h <;> simp [h]) l
  rcases hs : l.mergeSort (fun a b => decide (b.price ≤ a.price)) with _ | ⟨h, t⟩
  · rw [hs] at hperm
    exact absurd (hperm.nil_eq.symm) hne
  · rw [hs] at hperm hsort
    constructor
    · exact hperm.mem_iff.mp (List.mem_cons_self h t)
    · intro x hx
      have hx' : x ∈ h :: t := hperm.mem_iff.mpr hx
      rcases List.mem_cons.mp hx' with rfl | hmem
      · simp
      · have := List.rel_of_pairwise_cons hsort hmem
        rw [decide_eq_true_eq] at this
        simpa using this

/-- Specification-side value for claim C5, following the spec's words:
"For each level, mark `swept` if any subsequent candle exceeds it by
tolerance.  Return the nearest unswept BSL above ... current price" —
the least swing-high level above `current` that no later candle of the
frame exceeds by the fractional tolerance (`none` when no unswept level
remains). -/
def spec_nearest_unswept_bsl (df : List Candle) (tol : ℚ)
    (swing_highs : List SwingPoint) (current : ℚ) : Option ℚ :=
  ((swing_highs.filter (fun sp =>
      decide (current < sp.price) &&
      !((pyRange (sp.index + 1) df.length).any
          (fun j => decide (sp.price * (1 + tol) < hiAt df j))))).map (·.price)).min?

/-- Frame for the C5 counterexample: the candle at index 8 (high 103)
sweeps the level 101 (exceeds `101 × 1.001`), while 105 stays unswept. -/
def dfC5 : List Candle :=
  [highCandle 100, highCandle 100, highCandle 101, highCandle 96, highCandle 95,
   highCandle 97, highCandle 105, highCandle 96, highCandle 103, highCandle 99]

/-- Swing highs for the C5 counterexample (levels 101 and 105 above the
price 100). -/
def shsC5 : List SwingPoint := [⟨2, 101, 0⟩, ⟨6, 105, 0⟩]

/-- Swing lows for the C5 counterexample. -/
def slsC5 : List SwingPoint := [⟨4, 95, 0⟩]

/-- C5 counterexample: `_find_liquidity_pools` records no `swept` state;
`nearest_bsl` is 101, the nearest BSL above price 100 — even though a
subsequent candle of the frame exceeded 101 by more than the tolerance,
so the nearest **unswept** BSL demanded by the claim is 105. -/
theorem C5_counterexample :
    (find_liquidity_pools 0.001 shsC5 slsC5 100).nearest_bsl = 101 ∧
    spec_nearest_unswept_bsl dfC5 0.001 shsC5 100 = some 105 ∧
    (101 : ℚ) ≠ 105 := by
  refine ⟨?_, ?_, by norm_num⟩
  · norm_num [find_liquidity_pools, shsC5, slsC5, List.mergeSort, List.filterMap_cons]
  · norm_num [spec_nearest_unswept_bsl, dfC5, shsC5, highCandle, pyRange, hiAt, candAt,
      List.range', List.min?, List.filterMap_cons]

/-- C5 (amended): liquidity levels carry no swept flag; whenever both
swing lists are nonempty and the price is nonzero, every returned BSL
(resp. SSL) level is a swing-high (resp. swing-low) price above (resp.
below) the current price, and `nearest_bsl` / `nearest_ssl` are simply
the nearest such levels — the minimum swing-high price above price and
the maximum swing-low price below price — regardless of any subsequent
sweep. -/
theorem C5_liquidity_nearest (tol : ℚ) (shs sls : List SwingPoint) (cur : ℚ)
    (hsh : shs ≠ []) (hsl : sls ≠ []) (hcur : cur ≠ 0) :
    (∀ lvl ∈ (find_liquidity_pools tol shs sls cur).bsl,
       cur < lvl.price ∧ ∃ sp ∈ shs, sp.price = lvl.price) ∧
    (∀ lvl ∈ (find_liquidity_pools tol shs sls cur).ssl,
       lvl.price < cur ∧ ∃ sp ∈ sls, sp.price = lvl.price) ∧
    ((∃ sp ∈ shs, cur < sp.price) →
       (∃ sp ∈ shs, sp.price = (find_liquidity_pools tol shs sls cur).nearest_bsl) ∧
       cur < (find_liquidity_pools tol shs sls cur).nearest_bsl ∧
       ∀ sp ∈ shs, cur < sp.price →
         (find_liquidity_pools tol shs sls cur).nearest_bsl ≤ sp.price) ∧
    ((∃ sp ∈ sls, sp.price < cur) →
       (∃ sp ∈ sls, sp.price = (find_liquidity_pools tol shs sls cur).nearest_ssl) ∧
       (find_liquidity_pools tol shs sls cur).nearest_ssl < cur ∧
       ∀ sp ∈ sls, sp.price < cur →
         sp.price ≤ (find_liquidity_pools tol shs sls cur).nearest_ssl) := by
  have hguard : (shs.isEmpty || sls.isEmpty || cur == 0) = false := by
    simp [List.isEmpty_iff, hsh, hsl, hcur]
  unfold find_liquidity_pools
  rw [hguard]
  simp only [Bool.false_eq_true, if_false]
  set fb : SwingPoint → Option LiqLevel := fun sh =>
    if cur < sh.price then
      some (⟨sh.price, if 1 ≤ ((shs.filter (fun s =>
        decide (|s.price - sh.price| / sh.price ≤ tol) && decide (s.index ≠ sh.index))).length)
        then .EQH else .SWING_HIGH,
        min (((shs.filter (fun s =>
          decide (|s.price - sh.price| / sh.price ≤ tol) && decide (s.index ≠ sh.index))).length) + 1) 5⟩ : LiqLevel)
    else none with hfb
  set fs : SwingPoint → Option LiqLevel := fun sl =>
    if sl.price < cur then
      some (⟨sl.price, if 1 ≤ ((sls.filter (fun s =>
        decide (|s.price - sl.price| / sl.price ≤ tol) && decide (s.index ≠ sl.index))).length)
        then .EQL else .SWING_LOW,
        min (((sls.filter (fun s =>
          decide (|s.price - sl.price| / sl.price ≤ tol) && decide (s.index ≠ sl.index))).length) + 1) 5⟩ : LiqLevel)
    else none with hfs
  have hmem_b : ∀ lvl ∈ shs.filterMap fb, cur < lvl.price ∧ ∃ sp ∈ shs, sp.price = lvl.price := by
    intro lvl hlvl
    rw [List.mem_filterMap] at hlvl
    obtain ⟨sp, hsp, hspsome⟩ := hlvl
    rw [hfb] at hspsome
    simp only at hspsome
    split at hspsome
    · cases hspsome
      exact ⟨by assumption, sp, hsp, rfl⟩
    · cases hspsome
  have hmem_s : ∀ lvl ∈ sls.filterMap fs, lvl.price < cur ∧ ∃ sp ∈ sls, sp.price = lvl.price := by
    intro lvl hlvl
    rw [List.mem_filterMap] at hlvl
    obtain ⟨sp, hsp, hspsome⟩ := hlvl
    rw [hfs] at hspsome
    simp only at hspsome
    split at hspsome
    · cases hspsome
      exact ⟨by assumption, sp, hsp, rfl⟩
    · cases hspsome
  have hperm_b := List.mergeSort_perm (shs.filterMap fb) (fun a b => decide (a.price ≤ b.price))
  have hperm_s := List.mergeSort_perm (sls.filterMap fs) (fun a b => decide (b.price ≤ a.price))
  refine ⟨?_, ?_, ?_, ?_⟩
  · intro lvl hlvl
    exact hmem_b lvl (hperm_b.mem_iff.mp hlvl)
  · intro lvl hlvl
    exact hmem_s lvl (hperm_s.mem_iff.mp hlvl)
  · rintro ⟨sp, hsp, hcursp⟩
    have hfb_some : ∀ q : SwingPoint, cur < q.price →
        ∃ lvl, fb q = some lvl ∧ lvl.price = q.price := by
      intro q hq
      rw [hfb]
      simp only
      rw [if_pos hq]
      exact ⟨_, rfl, rfl⟩
    have hne : shs.filterMap fb ≠ [] := by
      obtain ⟨lvl, hlvl, _⟩ := hfb_some sp hcursp
      intro hnil
      have hmem : lvl ∈ shs.filterMap fb := List.mem_filterMap.mpr ⟨sp, hsp, hlvl⟩
      rw [hnil] at hmem
      exact absurd hmem (List.not_mem_nil _)
    have hsorted_ne : (shs.filterMap fb).mergeSort (fun a b => decide (a.price ≤ b.price)) ≠ [] := by
      intro hnil
      rw [hnil] at hperm_b
      exact absurd hperm_b.nil_eq.symm hne
    have hhead := liq_sorted_head_min (shs.filterMap fb) hne
    have hempty : ((shs.filterMap fb).mergeSort
        (fun a b => decide (a.price ≤ b.price))).isEmpty = false := by
      rw [List.isEmpty_eq_false_iff_exists_mem]
      rcases hs : (shs.filterMap fb).mergeSort (fun a b => decide (a.price ≤ b.price)) with _ | ⟨h, t⟩
      · exact absurd hs hsorted_ne
      · exact ⟨h, by simp⟩
    simp only [hempty, if_false]
    obtain ⟨hhm, hhmin⟩ := hhead
    obtain ⟨hcur', sp', hsp', hprice'⟩ := hmem_b _ hhm
    refine ⟨⟨sp', hsp', hprice'⟩, hcur', ?_⟩
    intro q hq hcq
    obtain ⟨lvlq, hlvlq, hpq⟩ := hfb_some q hcq
    have := hhmin _ (List.mem_filterMap.mpr ⟨q, hq, hlvlq⟩)
    rw [hpq] at this
    exact this
  · rintro ⟨sp, hsp, hcursp⟩
    have hfs_some : ∀ q : SwingPoint, q.price < cur →
        ∃ lvl, fs q = some lvl ∧ lvl.price = q.price := by
      intro q hq
      rw [hfs]
      simp only
      rw [if_pos hq]
      exact ⟨_, rfl, rfl⟩
    have hne : sls.filterMap fs ≠ [] := by
      obtain ⟨lvl, hlvl, _⟩ := hfs_some sp hcursp
      intro hnil
      have hmem : lvl ∈ sls.filterMap fs := List.mem_filterMap.mpr ⟨sp, hsp, hlvl⟩
      rw [hnil] at hmem
      exact absurd hmem (List.not_mem_nil _)
    have hsorted_ne : (sls.filterMap fs).mergeSort (fun a b => decide (b.price ≤ a.price)) ≠ [] := by
      intro hnil
      rw [hnil] at hperm_s
      exact absurd hperm_s.nil_eq.symm hne
    have hhead := liq_sorted_head_max (sls.filterMap fs) hne
    have hempty : ((sls.filterMap fs).mergeSort
        (fun a b => decide (b.price ≤ a.price))).isEmpty = false := by
      rw [List.isEmpty_eq_false_iff_exists_mem]
      rcases hs : (sls.filterMap fs).mergeSort (fun a b => decide (b.price ≤ a.price)) with _ | ⟨h, t⟩
      · exact absurd hs hsorted_ne
      · exact ⟨h, by simp⟩
    simp only [hempty, if_false]
    obtain ⟨hhm, hhmax⟩ := hhead
    obtain ⟨hcur', sp', hsp', hprice'⟩ := hmem_s _ hhm
    refine ⟨⟨sp', hsp', hprice'⟩, hcur', ?_⟩
    intro q hq hcq
    obtain ⟨lvlq, hlvlq, hpq⟩ := hfs_some q hcq
    have := hhmax _ (List.mem_filterMap.mpr ⟨q, hq, hlvlq⟩)
    rw [hpq] at this
    exact this

/-- C5 witness: on concrete swings {101, 105} above price 100 with one
low below, the amended theorem applies and `nearest_bsl` is a swing
price above 100. -/
theorem C5_witness :
    (∃ sp ∈ ([⟨2, 101, 0⟩, ⟨6, 105, 0⟩] : List SwingPoint),
       sp.price = (find_liquidity_pools 0.001 [⟨2, 101, 0⟩, ⟨6, 105, 0⟩] [⟨4, 95, 0⟩] 100).nearest_bsl) ∧
    (100 : ℚ) < (find_liquidity_pools 0.001 [⟨2, 101, 0⟩, ⟨6, 105, 0⟩] [⟨4, 95, 0⟩] 100).nearest_bsl ∧
    ∀ sp ∈ ([⟨2, 101, 0⟩, ⟨6, 105, 0⟩] : List SwingPoint), (100:ℚ) < sp.price →
      (find_liquidity_pools 0.001 [⟨2, 101, 0⟩, ⟨6, 105, 0⟩] [⟨4, 95, 0⟩] 100).nearest_bsl ≤ sp.price :=
  (C5_liquidity_nearest 0.001 [⟨2, 101, 0⟩, ⟨6, 105, 0⟩] [⟨4, 95, 0⟩] 100
    (by simp) (by simp) (by norm_num)).2.2.1
    ⟨⟨2, 101, 0⟩, by simp, by norm_num⟩

/-- C1 counterexample: a LONG trade with entry 100, SL 99, TP 104 at
price 102.4 has progress exactly 0.60 with breakeven not yet set, yet
`_manage_long_sl` does not set any breakeven (the ≥ 0.60 branch is the
trailing stage): `breakeven_moved` stays false, `breakeven_sl` stays
`none`, and the effective SL becomes the trailing level 101.2 — not the
`entry × 1.002 = 100.2` the claim demands. -/
theorem C1_counterexample :
    (manage_long_sl 100 102.4 99 104 initTradeState 99).1.breakeven_moved = false ∧
    (manage_long_sl 100 102.4 99 104 initTradeState 99).1.breakeven_sl = none ∧
    (manage_long_sl 100 102.4 99 104 initTradeState 99).2 = 101.2 ∧
    (101.2 : ℚ) ≠ 100 * 1.002 := by
  refine ⟨?_, ?_, ?_, by norm_num⟩ <;>
    norm_num [manage_long_sl, manage_long_branch, foldLong, initTradeState]

/-- C1 (amended): the SL stages of `_manage_long_sl` /
`_manage_short_sl` for a trade with positive progress and no protective
level recorded yet.  LONG: progress ≥ 0.60 sets the trailing stop
`entry + 0.50 × (current − entry)` (no breakeven flag is ever set
there); 0.40 ≤ progress < 0.60 sets `breakeven_sl = entry × 1.001` and
marks `breakeven_moved`; 0.25 ≤ progress < 0.40 arms the early protect
stop `entry × 0.998` when it improves on the base SL.  SHORT mirrors
with `entry × 0.999` breakeven, `entry × 1.002` early protect, and the
trailing stop `entry − 0.50 × (entry − current)`. -/
theorem C1_sl_stage_thresholds (entry cur sl tp : ℚ) :
    (0 < tp - entry → 0 < cur - entry →
      ((0.60 ≤ (cur - entry) / (tp - entry) →
         manage_long_sl entry cur sl tp initTradeState sl =
           ({ initTradeState with
                trailing_sl := some (entry + (cur - entry) * 0.50),
                trailing_logged := true },
            max sl (entry + (cur - entry) * 0.50))) ∧
       (0.40 ≤ (cur - entry) / (tp - entry) → (cur - entry) / (tp - entry) < 0.60 →
         manage_long_sl entry cur sl tp initTradeState sl =
           ({ initTradeState with
                breakeven_moved := true,
                breakeven_sl := some (entry * 1.001) },
            entry * 1.001)) ∧
       (0.25 ≤ (cur - entry) / (tp - entry) → (cur - entry) / (tp - entry) < 0.40 →
         manage_long_sl entry cur sl tp initTradeState sl =
           (if sl < entry * 0.998 then
              ({ initTradeState with
                   early_protect := true,
                   early_protect_sl := some (entry * 0.998) }, entry * 0.998)
            else ({ initTradeState with early_protect := true }, sl))))) ∧
    (0 < entry - tp → 0 < entry - cur →
      ((0.60 ≤ (entry - cur) / (entry - tp) →
         manage_short_sl entry cur sl tp initTradeState sl =
           ({ initTradeState with
                trailing_sl := some (entry - (entry - cur) * 0.50),
                trailing_logged := true },
            min sl (entry - (entry - cur) * 0.50))) ∧
       (0.40 ≤ (entry - cur) / (entry - tp) → (entry - cur) / (entry - tp) < 0.60 →
         manage_short_sl entry cur sl tp initTradeState sl =
           ({ initTradeState with
                breakeven_moved := true,
                breakeven_sl := some (entry * 0.999) },
            entry * 0.999)) ∧
       (0.25 ≤ (entry - cur) / (entry - tp) → (entry - cur) / (entry - tp) < 0.40 →
         manage_short_sl entry cur sl tp initTradeState sl =
           (if entry * 1.002 < sl then
              ({ initTradeState with
                   early_protect := true,
                   early_protect_sl := some (entry * 1.002) }, entry * 1.002)
            else ({ initTradeState with early_protect := true }, sl))))) := by
  constructor
  · intro htd hcp
    refine ⟨?_, ?_, ?_⟩
    · intro h60
      simp only [manage_long_sl, manage_long_branch, initTradeState]
      rw [if_pos ⟨htd, hcp⟩, if_pos h60]
      simp [foldLong, max_assoc]
    · intro h40 h60
      simp only [manage_long_sl, manage_long_branch, initTradeState]
      rw [if_pos ⟨htd, hcp⟩, if_neg (not_le.mpr h60)]
      simp [foldLong, h40, not_le.mpr h60]
    · intro h25 h40
      simp only [manage_long_sl, manage_long_branch, initTradeState]
      rw [if_pos ⟨htd, hcp⟩, if_neg (not_le.mpr (lt_of_lt_of_le h40 (by norm_num)))]
      by_cases hsl : sl < entry * 0.998 <;>
        simp [foldLong, h25, hsl, not_le.mpr h40]
  · intro htd hcp
    refine ⟨?_, ?_, ?_⟩
    · intro h60
      simp only [manage_short_sl, manage_short_branch, initTradeState]
      rw [if_pos ⟨htd, hcp⟩, if_pos h60]
      simp [foldShort, min_assoc]
    · intro h40 h60
      simp only [manage_short_sl, manage_short_branch, initTradeState]
      rw [if_pos ⟨htd, hcp⟩, if_neg (not_le.mpr h60)]
      simp [foldShort, h40, not_le.mpr h60]
    · intro h25 h40
      simp only [manage_short_sl, manage_short_branch, initTradeState]
      rw [if_pos ⟨htd, hcp⟩, if_neg (not_le.mpr (lt_of_lt_of_le h40 (by norm_num)))]
      by_cases hsl : entry * 1.002 < sl <;>
        simp [foldShort, h25, hsl, not_le.mpr h40]

/-- C1 witness: the LONG trailing stage applied at entry 100, price
102.4 (progress 0.60), SL 99, TP 104. -/
theorem C1_witness :
    manage_long_sl 100 102.4 99 104 initTradeState 99 =
      ({ initTradeState with
           trailing_sl := some (100 + (102.4 - 100) * 0.50),
           trailing_logged := true },
       max 99 (100 + (102.4 - 100) * 0.50)) :=
  ((C1_sl_stage_thresholds 100 102.4 99 104).1 (by norm_num) (by norm_num)).1 (by norm_num)

/-- `foldLong s x ≤ z` iff the base and every recorded level are ≤ z. -/
theorem foldLong_le_iff (s : TradeState) (x z : ℚ) :
    foldLong s x ≤ z ↔
      (x ≤ z ∧ (∀ t, s.trailing_sl = some t → t ≤ z) ∧
       (∀ b, s.breakeven_sl = some b → b ≤ z) ∧
       (∀ p, s.early_protect_sl = some p → p ≤ z)) := by
  unfold foldLong
  cases htr : s.trailing_sl <;> cases hbe : s.breakeven_sl <;>
    cases hep : s.early_protect_sl <;>
    simp [max_le_iff] <;> tauto

/-- Base and recorded levels are below the fold. -/
theorem foldLong_bounds (s : TradeState) (x : ℚ) :
    x ≤ foldLong s x ∧ (∀ t, s.trailing_sl = some t → t ≤ foldLong s x) ∧
    (∀ b, s.breakeven_sl = some b → b ≤ foldLong s x) ∧
    (∀ p, s.early_protect_sl = some p → p ≤ foldLong s x) :=
  (foldLong_le_iff s x (foldLong s x)).mp le_rfl

/-- Reachability invariant of a LONG trade's `_trade_state` entry:
the optional levels are only set together with their flags, the trailing
stop never sits below entry, breakeven levels never below entry, and the
early-protect level never above `entry × 1.001`. -/
def WinvLong (entry : ℚ) (s : TradeState) : Prop :=
  (s.breakeven_moved = false → s.breakeven_sl = none) ∧
  (s.early_protect = false → s.early_protect_sl = none) ∧
  (∀ t, s.trailing_sl = some t → entry ≤ t) ∧
  (∀ b, s.breakeven_sl = some b → entry ≤ b) ∧
  (∀ p, s.early_protect_sl = some p → p ≤ entry * 1.001)

/-- Equal folds from mutually dominated bases. -/
theorem foldLong_base_eq (s : TradeState) {x y : ℚ}
    (hx : x ≤ foldLong s y) (hy : y ≤ foldLong s x) :
    foldLong s x = foldLong s y := by
  have hb1 := foldLong_bounds s x
  have hb2 := foldLong_bounds s y
  refine le_antisymm ((foldLong_le_iff s x _).mpr ⟨hx, ?_, ?_, ?_⟩)
    ((foldLong_le_iff s y _).mpr ⟨hy, ?_, ?_, ?_⟩)
  · exact hb2.2.1
  · exact hb2.2.2.1
  · exact hb2.2.2.2
  · exact hb1.2.1
  · exact hb1.2.2.1
  · exact hb1.2.2.2

/-- Exhaustive outcomes of the `_manage_long_sl` staged branch. -/
theorem manage_long_branch_cases (entry cur sl tp : ℚ) (s : TradeState) :
    (manage_long_branch entry cur sl tp s sl = (s, sl)) ∨
    (s.trailing_sl.all (fun t0 => decide (t0 < entry + (cur - entry) * 0.50)) = true ∧
     entry < entry + (cur - entry) * 0.50 ∧
     manage_long_branch entry cur sl tp s sl =
       ({ s with trailing_sl := some (entry + (cur - entry) * 0.50), trailing_logged := true },
        max sl (entry + (cur - entry) * 0.50))) ∨
    (s.breakeven_moved = false ∧
     manage_long_branch entry cur sl tp s sl =
       ({ s with breakeven_moved := true, breakeven_sl := some (entry * 1.001) },
        entry * 1.001)) ∨
    (s.early_protect = false ∧ sl < entry * 0.998 ∧
     manage_long_branch entry cur sl tp s sl =
       ({ s with early_protect := true, early_protect_sl := some (entry * 0.998) },
        entry * 0.998)) ∨
    (s.early_protect = false ∧
     manage_long_branch entry cur sl tp s sl = ({ s with early_protect := true }, sl)) := by
  simp only [manage_long_branch]
  by_cases hguard : 0 < tp - entry ∧ 0 < cur - entry
  · rw [if_pos hguard]
    by_cases h60 : (0.60 : ℚ) ≤ (cur - entry) / (tp - entry)
    · rw [if_pos h60]
      by_cases hrat : s.trailing_sl.all (fun t0 => decide (t0 < entry + (cur - entry) * 0.50)) = true
      · rw [if_pos hrat]
        exact Or.inr (Or.inl ⟨hrat, by linarith [hguard.2], rfl⟩)
      · rw [if_neg hrat]
        exact Or.inl rfl
    · rw [if_neg h60]
      by_cases h40 : (0.40 : ℚ) ≤ (cur - entry) / (tp - entry) ∧ s.breakeven_moved = false
      · rw [if_pos h40]
        exact Or.inr (Or.inr (Or.inl ⟨h40.2, rfl⟩))
      · rw [if_neg h40]
        by_cases h25 : (0.25 : ℚ) ≤ (cur - entry) / (tp - entry) ∧ s.early_protect = false
        · rw [if_pos h25]
          by_cases hsl : sl < entry * 0.998
          · rw [if_pos hsl]
            exact Or.inr (Or.inr (Or.inr (Or.inl ⟨h25.2, hsl, rfl⟩)))
          · rw [if_neg hsl]
            exact Or.inr (Or.inr (Or.inr (Or.inr ⟨h25.2, rfl⟩)))
        · rw [if_neg h25]
          exact Or.inl rfl
  · rw [if_neg hguard]
    exact Or.inl rfl

/-- One `_manage_long_sl` call returns either the fold over the base SL,
or — exactly when the breakeven stage fired — the fold over the fresh
breakeven level `entry × 1.001`. -/
theorem manage_long_char (entry cur sl tp : ℚ) (s : TradeState) :
    (manage_long_sl entry cur sl tp s sl).2 =
        foldLong (manage_long_sl entry cur sl tp s sl).1 sl ∨
    (s.breakeven_moved = false ∧
     (manage_long_sl entry cur sl tp s sl).1.breakeven_moved = true ∧
     (manage_long_sl entry cur sl tp s sl).1.breakeven_sl = some (entry * 1.001) ∧
     (manage_long_sl entry cur sl tp s sl).2 =
       foldLong (manage_long_sl entry cur sl tp s sl).1 (entry * 1.001)) := by
  have hm1 : (manage_long_sl entry cur sl tp s sl).1 =
      (manage_long_branch entry cur sl tp s sl).1 := rfl
  have hm2 : (manage_long_sl entry cur sl tp s sl).2 =
      foldLong (manage_long_branch entry cur sl tp s sl).1
        (manage_long_branch entry cur sl tp s sl).2 := rfl
  rcases manage_long_branch_cases entry cur sl tp s with
    hc | ⟨hrat, htgt, hc⟩ | ⟨hmv, hc⟩ | ⟨hep, hsl, hc⟩ | ⟨hep, hc⟩
  · left; rw [hm2, hm1, hc]
  · left
    rw [hm2, hm1, hc]
    simp only
    apply foldLong_base_eq
    · refine max_le (foldLong_bounds _ _).1 ?_
      exact (foldLong_bounds _ _).2.1 _ rfl
    · exact le_trans (le_max_left _ _) (foldLong_bounds _ _).1
  · right
    rw [hm2, hm1, hc]
    exact ⟨hmv, rfl, rfl, rfl⟩
  · left
    rw [hm2, hm1, hc]
    simp only
    apply foldLong_base_eq
    · exact (foldLong_bounds _ _).2.2.2 _ rfl
    · exact le_trans hsl.le (foldLong_bounds _ _).1
  · left; rw [hm2, hm1, hc]

/-- `_manage_long_sl` preserves the LONG state invariant. -/
theorem manage_long_winv (entry cur sl tp : ℚ) (s : TradeState)
    (h0 : 0 ≤ entry) (hW : WinvLong entry s) :
    WinvLong entry (manage_long_sl entry cur sl tp s sl).1 := by
  have hm1 : (manage_long_sl entry cur sl tp s sl).1 =
      (manage_long_branch entry cur sl tp s sl).1 := rfl
  rw [hm1]
  obtain ⟨w1, w2, w3, w4, w5⟩ := hW
  rcases manage_long_branch_cases entry cur sl tp s with
    hc | ⟨hrat, htgt, hc⟩ | ⟨hmv, hc⟩ | ⟨hep, hsl, hc⟩ | ⟨hep, hc⟩ <;> rw [hc]
  · exact ⟨w1, w2, w3, w4, w5⟩
  · refine ⟨w1, w2, ?_, w4, w5⟩
    intro t ht
    simp only at ht
    cases ht
    exact htgt.le
  · refine ⟨by simp, w2, w3, ?_, w5⟩
    intro b hb
    simp only at hb
    cases hb
    nlinarith
  · refine ⟨w1, by simp, w3, w4, ?_⟩
    intro p hp
    simp only at hp
    cases hp
    nlinarith
  · exact ⟨w1, by simp [w2], w3, w4, w5⟩

/-- Across one `_manage_long_sl` call the recorded levels persist (the
trailing stop only ratchets up) and the breakeven flag is sticky. -/
theorem manage_long_grow (entry cur sl tp : ℚ) (s : TradeState)
    (hbe : s.breakeven_moved = false → s.breakeven_sl = none)
    (hepinv : s.early_protect = false → s.early_protect_sl = none) :
    (∀ t, s.trailing_sl = some t →
       ∃ t', (manage_long_sl entry cur sl tp s sl).1.trailing_sl = some t' ∧ t ≤ t') ∧
    (∀ b, s.breakeven_sl = some b →
       (manage_long_sl entry cur sl tp s sl).1.breakeven_sl = some b) ∧
    (∀ p, s.early_protect_sl = some p →
       (manage_long_sl entry cur sl tp s sl).1.early_protect_sl = some p) ∧
    (s.breakeven_moved = true → (manage_long_sl entry cur sl tp s sl).1.breakeven_moved = true) := by
  have hm1 : (manage_long_sl entry cur sl tp s sl).1 =
      (manage_long_branch entry cur sl tp s sl).1 := rfl
  rw [hm1]
  rcases manage_long_branch_cases entry cur sl tp s with
    hc | ⟨hrat, htgt, hc⟩ | ⟨hmv, hc⟩ | ⟨hep, hsl, hc⟩ | ⟨hep, hc⟩ <;> rw [hc]
  · exact ⟨fun t ht => ⟨t, ht, le_rfl⟩, fun b hb => hb, fun p hp => hp, fun h => h⟩
  · refine ⟨?_, fun b hb => hb, fun p hp => hp, fun h => h⟩
    intro t ht
    refine ⟨entry + (cur - entry) * 0.50, rfl, ?_⟩
    rw [ht] at hrat
    have hlt : t < entry + (cur - entry) * 0.50 := by simpa using hrat
    exact hlt.le
  · refine ⟨fun t ht => ⟨t, ht, le_rfl⟩, ?_, fun p hp => hp, fun h => by simp⟩
    intro b hb
    rw [hbe hmv] at hb
    cases hb
  · refine ⟨fun t ht => ⟨t, ht, le_rfl⟩, fun b hb => hb, ?_, fun h => h⟩
    intro p hp
    rw [hepinv hep] at hp
    cases hp
  · exact ⟨fun t ht => ⟨t, ht, le_rfl⟩, fun b hb => hb, fun p hp => hp, fun h => h⟩

/-- `_manage_long_sl` preserves the flag/level coupling: a level is only
recorded together with its flag. -/
theorem manage_long_flags (entry cur sl tp : ℚ) (s : TradeState)
    (hbe : s.breakeven_moved = false → s.breakeven_sl = none)
    (hep : s.early_protect = false → s.early_protect_sl = none) :
    ((manage_long_sl entry cur sl tp s sl).1.breakeven_moved = false →
       (manage_long_sl entry cur sl tp s sl).1.breakeven_sl = none) ∧
    ((manage_long_sl entry cur sl tp s sl).1.early_protect = false →
       (manage_long_sl entry cur sl tp s sl).1.early_protect_sl = none) := by
  have hm1 : (manage_long_sl entry cur sl tp s sl).1 =
      (manage_long_branch entry cur sl tp s sl).1 := rfl
  rw [hm1]
  rcases manage_long_branch_cases entry cur sl tp s with
    hc | ⟨_, _, hc⟩ | ⟨hmv, hc⟩ | ⟨hepf, hsl', hc⟩ | ⟨hepf, hc⟩ <;> rw [hc]
  · exact ⟨hbe, hep⟩
  · exact ⟨hbe, hep⟩
  · refine ⟨?_, hep⟩
    intro h
    simp at h
  · refine ⟨hbe, ?_⟩
    intro h
    simp at h
  · refine ⟨hbe, ?_⟩
    intro h
    simp at h

/-- Effective-SL monotonicity of `_manage_long_sl` across two
consecutive ticks: the state is threaded, and the base stop loss of the
second tick is either unchanged or the first tick's effective SL (the
value `_update_signal_sl` writes back). -/
theorem manage_long_mono (entry cur1 cur2 sl sl2 tp : ℚ) (s : TradeState)
    (hbe : s.breakeven_moved = false → s.breakeven_sl = none)
    (hep : s.early_protect = false → s.early_protect_sl = none)
    (hsl : s.breakeven_moved = false → sl ≤ entry * 1.001)
    (hsl2 : sl2 = sl ∨ sl2 = (manage_long_sl entry cur1 sl tp s sl).2) :
    (manage_long_sl entry cur1 sl tp s sl).2 ≤
      (manage_long_sl entry cur2 sl2 tp (manage_long_sl entry cur1 sl tp s sl).1 sl2).2 := by
  have hflags := manage_long_flags entry cur1 sl tp s hbe hep
  have hgrow1 := manage_long_grow entry cur1 sl tp s hbe hep
  have hgrow2 := manage_long_grow entry cur2 sl2 tp
    (manage_long_sl entry cur1 sl tp s sl).1 hflags.1 hflags.2
  rcases manage_long_char entry cur2 sl2 tp (manage_long_sl entry cur1 sl tp s sl).1 with
    h2 | ⟨hbm1, _, _, h2⟩
  · rcases hsl2 with heq | hsl2r
    · rw [heq] at h2 hgrow2 ⊢
      rcases manage_long_char entry cur1 sl tp s with h1 | ⟨_, _, hbsl1, h1⟩
      · rw [h1, h2]
        refine (foldLong_le_iff _ _ _).mpr ⟨(foldLong_bounds _ _).1, ?_, ?_, ?_⟩
        · intro t ht
          obtain ⟨t', ht', htt'⟩ := hgrow2.1 t ht
          exact le_trans htt' ((foldLong_bounds _ _).2.1 t' ht')
        · intro b hb
          exact (foldLong_bounds _ _).2.2.1 b (hgrow2.2.1 b hb)
        · intro p hp
          exact (foldLong_bounds _ _).2.2.2 p (hgrow2.2.2.1 p hp)
      · rw [h1, h2]
        refine (foldLong_le_iff _ _ _).mpr ⟨?_, ?_, ?_, ?_⟩
        · exact (foldLong_bounds _ _).2.2.1 _ (hgrow2.2.1 _ hbsl1)
        · intro t ht
          obtain ⟨t', ht', htt'⟩ := hgrow2.1 t ht
          exact le_trans htt' ((foldLong_bounds _ _).2.1 t' ht')
        · intro b hb
          exact (foldLong_bounds _ _).2.2.1 b (hgrow2.2.1 b hb)
        · intro p hp
          exact (foldLong_bounds _ _).2.2.2 p (hgrow2.2.2.1 p hp)
    · rw [h2, ← hsl2r]
      exact (foldLong_bounds _ _).1
  · rcases manage_long_char entry cur1 sl tp s with h1 | ⟨_, hbm0', _, _⟩
    · have hbm0 : s.breakeven_moved = false := by
        cases hb : s.breakeven_moved
        · rfl
        · rw [hgrow1.2.2.2 hb] at hbm1
          exact absurd hbm1 (by simp)
      have hsl' : sl ≤ entry * 1.001 := hsl hbm0
      rw [h1, h2]
      refine (foldLong_le_iff _ _ _).mpr
        ⟨le_trans hsl' (foldLong_bounds _ _).1, ?_, ?_, ?_⟩
      · intro t ht
        obtain ⟨t', ht', htt'⟩ := hgrow2.1 t ht
        exact le_trans htt' ((foldLong_bounds _ _).2.1 t' ht')
      · intro b hb
        rw [hflags.1 hbm1] at hb
        cases hb
      · intro p hp
        exact (foldLong_bounds _ _).2.2.2 p (hgrow2.2.2.1 p hp)
    · rw [hbm0'] at hbm1
      exact absurd hbm1 (by simp)

/-- Whenever a LONG tick of `_check_active_signal` reaches the
SL-management stage (it reports an effective SL), that SL and the stored
state are exactly the `_manage_long_sl` results, the DB write (if any)
is that same effective SL, and the pre-breakeven validation gate
guarantees `stop_loss < entry`. -/
theorem check_active_long_extract (s : TradeState) (entry sl tp p e : ℚ)
    (h : (check_active_body s .LONG entry sl tp p).effective_sl = some e) :
    e = (manage_long_sl entry p sl tp s sl).2 ∧
    (check_active_body s .LONG entry sl tp p).state =
      some (manage_long_sl entry p sl tp s sl).1 ∧
    ((check_active_body s .LONG entry sl tp p).dbSl = some e ∨
     (check_active_body s .LONG entry sl tp p).dbSl = none) ∧
    (s.breakeven_moved = false → sl < entry) := by
  by_cases hsv : sl < tp
  · by_cases hg : s.breakeven_moved = false ∧ (entry ≤ sl ∨ tp ≤ entry)
    · rcases hg with ⟨hbm, hlev⟩
      rcases hlev with hlev | hlev <;>
        simp [check_active_body, hsv, hbm, hlev] at h
    · have hgate : s.breakeven_moved = false → sl < entry := by
        intro hbm
        rcases not_and_or.mp hg with h1 | h2
        · exact absurd hbm h1
        · push_neg at h2
          exact h2.1
      have hkey : (check_active_body s .LONG entry sl tp p).effective_sl =
            some (manage_long_sl entry p sl tp s sl).2 ∧
          (check_active_body s .LONG entry sl tp p).state =
            some (manage_long_sl entry p sl tp s sl).1 ∧
          ((check_active_body s .LONG entry sl tp p).dbSl =
            some (manage_long_sl entry p sl tp s sl).2 ∨
           (check_active_body s .LONG entry sl tp p).dbSl = none) := by
        refine ⟨?_, ?_, ?_⟩
        · simp [check_active_body, hsv, hg]
          split <;> (try split) <;> simp
        · simp [check_active_body, hsv, hg]
          split <;> (try split) <;> simp
        · by_cases hdb : (manage_long_sl entry p sl tp s sl).1.breakeven_moved = true ∨
              (manage_long_sl entry p sl tp s sl).1.trailing_sl.isSome = true
          · left
            simp [check_active_body, hsv, hg]
            split <;> (try split) <;> simp [hdb]
          · right
            simp [check_active_body, hsv, hg]
            split <;> (try split) <;> simp [hdb]
      obtain ⟨hk1, hk2, hk3⟩ := hkey
      have he : e = (manage_long_sl entry p sl tp s sl).2 :=
        Option.some.inj (h.symm.trans hk1)
      subst he
      exact ⟨rfl, hk2, hk3, hgate⟩
  · simp [check_active_body, hsv] at h

/-- SHORT mirror of the extraction: the validation gate guarantees
`entry < stop_loss` for a pre-breakeven SHORT trade. -/
theorem check_active_short_extract (s : TradeState) (entry sl tp p e : ℚ)
    (h : (check_active_body s .SHORT entry sl tp p).effective_sl = some e) :
    e = (manage_short_sl entry p sl tp s sl).2 ∧
    (check_active_body s .SHORT entry sl tp p).state =
      some (manage_short_sl entry p sl tp s sl).1 ∧
    ((check_active_body s .SHORT entry sl tp p).dbSl = some e ∨
     (check_active_body s .SHORT entry sl tp p).dbSl = none) ∧
    (s.breakeven_moved = false → entry < sl) := by
  by_cases hsv : tp < sl
  · by_cases hg : s.breakeven_moved = false ∧ (sl ≤ entry ∨ entry ≤ tp)
    · rcases hg with ⟨hbm, hlev⟩
      rcases hlev with hlev | hlev <;>
        simp [check_active_body, hsv, hbm, hlev] at h
    · have hgate : s.breakeven_moved = false → entry < sl := by
        intro hbm
        rcases not_and_or.mp hg with h1 | h2
        · exact absurd hbm h1
        · push_neg at h2
          exact h2.1
      have hkey : (check_active_body s .SHORT entry sl tp p).effective_sl =
            some (manage_short_sl entry p sl tp s sl).2 ∧
          (check_active_body s .SHORT entry sl tp p).state =
            some (manage_short_sl entry p sl tp s sl).1 ∧
          ((check_active_body s .SHORT entry sl tp p).dbSl =
            some (manage_short_sl entry p sl tp s sl).2 ∨
           (check_active_body s .SHORT entry sl tp p).dbSl = none) := by
        refine ⟨?_, ?_, ?_⟩
        · simp [check_active_body, hsv, hg]
          split <;> (try split) <;> simp
        · simp [check_active_body, hsv, hg]
          split <;> (try split) <;> simp
        · by_cases hdb : (manage_short_sl entry p sl tp s sl).1.breakeven_moved = true ∨
              (manage_short_sl entry p sl tp s sl).1.trailing_sl.isSome = true
          · left
            simp [check_active_body, hsv, hg]
            split <;> (try split) <;> simp [hdb]
          · right
            simp [check_active_body, hsv, hg]
            split <;> (try split) <;> simp [hdb]
      obtain ⟨hk1, hk2, hk3⟩ := hkey
      have he : e = (manage_short_sl entry p sl tp s sl).2 :=
        Option.some.inj (h.symm.trans hk1)
      subst he
      exact ⟨rfl, hk2, hk3, hgate⟩
  · simp [check_active_body, hsv] at h

/-- `z ≤ foldShort s x` iff z is below the base and every recorded level. -/
theorem foldShort_le_iff (s : TradeState) (x z : ℚ) :
    z ≤ foldShort s x ↔
      (z ≤ x ∧ (∀ t, s.trailing_sl = some t → z ≤ t) ∧
       (∀ b, s.breakeven_sl = some b → z ≤ b) ∧
       (∀ p, s.early_protect_sl = some p → z ≤ p)) := by
  unfold foldShort
  cases htr : s.trailing_sl <;> cases hbe : s.breakeven_sl <;>
    cases hep : s.early_protect_sl <;>
    simp [le_min_iff] <;> tauto

/-- The min-fold sits below its base and every recorded level. -/
theorem foldShort_bounds (s : TradeState) (x : ℚ) :
    foldShort s x ≤ x ∧ (∀ t, s.trailing_sl = some t → foldShort s x ≤ t) ∧
    (∀ b, s.breakeven_sl = some b → foldShort s x ≤ b) ∧
    (∀ p, s.early_protect_sl = some p → foldShort s x ≤ p) :=
  (foldShort_le_iff s x (foldShort s x)).mp le_rfl

/-- Equal min-folds from mutually dominating bases. -/
theorem foldShort_base_eq (s : TradeState) {x y : ℚ}
    (hx : foldShort s y ≤ x) (hy : foldShort s x ≤ y) :
    foldShort s x = foldShort s y := by
  have hb1 := foldShort_bounds s x
  have hb2 := foldShort_bounds s y
  refine le_antisymm ((foldShort_le_iff s y _).mpr ⟨hy, ?_, ?_, ?_⟩)
    ((foldShort_le_iff s x _).mpr ⟨hx, ?_, ?_, ?_⟩)
  · exact hb1.2.1
  · exact hb1.2.2.1
  · exact hb1.2.2.2
  · exact hb2.2.1
  · exact hb2.2.2.1
  · exact hb2.2.2.2

/-- Exhaustive outcomes of the `_manage_short_sl` staged branch. -/
theorem manage_short_branch_cases (entry cur sl tp : ℚ) (s : TradeState) :
    (manage_short_branch entry cur sl tp s sl = (s, sl)) ∨
    (s.trailing_sl.all (fun t0 => decide (entry - (entry - cur) * 0.50 < t0)) = true ∧
     entry - (entry - cur) * 0.50 < entry ∧
     manage_short_branch entry cur sl tp s sl =
       ({ s with trailing_sl := some (entry - (entry - cur) * 0.50), trailing_logged := true },
        min sl (entry - (entry - cur) * 0.50))) ∨
    (s.breakeven_moved = false ∧
     manage_short_branch entry cur sl tp s sl =
       ({ s with breakeven_moved := true, breakeven_sl := some (entry * 0.999) },
        entry * 0.999)) ∨
    (s.early_protect = false ∧ entry * 1.002 < sl ∧
     manage_short_branch entry cur sl tp s sl =
       ({ s with early_protect := true, early_protect_sl := some (entry * 1.002) },
        entry * 1.002)) ∨
    (s.early_protect = false ∧
     manage_short_branch entry cur sl tp s sl = ({ s with early_protect := true }, sl)) := by
  simp only [manage_short_branch]
  by_cases hguard : 0 < entry - tp ∧ 0 < entry - cur
  · rw [if_pos hguard]
    by_cases h60 : (0.60 : ℚ) ≤ (entry - cur) / (entry - tp)
    · rw [if_pos h60]
      by_cases hrat : s.trailing_sl.all
          (fun t0 => decide (entry - (entry - cur) * 0.50 < t0)) = true
      · rw [if_pos hrat]
        exact Or.inr (Or.inl ⟨hrat, by linarith [hguard.2], rfl⟩)
      · rw [if_neg hrat]
        exact Or.inl rfl
    · rw [if_neg h60]
      by_cases h40 : (0.40 : ℚ) ≤ (entry - cur) / (entry - tp) ∧ s.breakeven_moved = false
      · rw [if_pos h40]
        exact Or.inr (Or.inr (Or.inl ⟨h40.2, rfl⟩))
      · rw [if_neg h40]
        by_cases h25 : (0.25 : ℚ) ≤ (entry - cur) / (entry - tp) ∧ s.early_protect = false
        · rw [if_pos h25]
          by_cases hsl : entry * 1.002 < sl
          · rw [if_pos hsl]
            exact Or.inr (Or.inr (Or.inr (Or.inl ⟨h25.2, hsl, rfl⟩)))
          · rw [if_neg hsl]
            exact Or.inr (Or.inr (Or.inr (Or.inr ⟨h25.2, rfl⟩)))
        · rw [if_neg h25]
          exact Or.inl rfl
  · rw [if_neg hguard]
    exact Or.inl rfl

/-- One `_manage_short_sl` call returns either the min-fold over the base
SL, or — exactly when the breakeven stage fired — the min-fold over the
fresh breakeven level `entry × 0.999`. -/
theorem manage_short_char (entry cur sl tp : ℚ) (s : TradeState) :
    (manage_short_sl entry cur sl tp s sl).2 =
        foldShort (manage_short_sl entry cur sl tp s sl).1 sl ∨
    (s.breakeven_moved = false ∧
     (manage_short_sl entry cur sl tp s sl).1.breakeven_moved = true ∧
     (manage_short_sl entry cur sl tp s sl).1.breakeven_sl = some (entry * 0.999) ∧
     (manage_short_sl entry cur sl tp s sl).2 =
       foldShort (manage_short_sl entry cur sl tp s sl).1 (entry * 0.999)) := by
  have hm1 : (manage_short_sl entry cur sl tp s sl).1 =
      (manage_short_branch entry cur sl tp s sl).1 := rfl
  have hm2 : (manage_short_sl entry cur sl tp s sl).2 =
      foldShort (manage_short_branch entry cur sl tp s sl).1
        (manage_short_branch entry cur sl tp s sl).2 := rfl
  rcases manage_short_branch_cases entry cur sl tp s with
    hc | ⟨hrat, htgt, hc⟩ | ⟨hmv, hc⟩ | ⟨hep, hsl, hc⟩ | ⟨hep, hc⟩
  · left; rw [hm2, hm1, hc]
  · left
    rw [hm2, hm1, hc]
    simp only
    apply foldShort_base_eq
    · refine le_min (foldShort_bounds _ _).1 ?_
      exact (foldShort_bounds _ _).2.1 _ rfl
    · exact le_trans (foldShort_bounds _ _).1 (min_le_left _ _)
  · right
    rw [hm2, hm1, hc]
    exact ⟨hmv, rfl, rfl, rfl⟩
  · left
    rw [hm2, hm1, hc]
    simp only
    apply foldShort_base_eq
    · exact (foldShort_bounds _ _).2.2.2 _ rfl
    · exact le_trans (foldShort_bounds _ _).1 hsl.le
  · left; rw [hm2, hm1, hc]

/-- Across one `_manage_short_sl` call the recorded levels persist (the
trailing stop only ratchets down) and the breakeven flag is sticky. -/
theorem manage_short_grow (entry cur sl tp : ℚ) (s : TradeState)
    (hbe : s.breakeven_moved = false → s.breakeven_sl = none)
    (hepinv : s.early_protect = false → s.early_protect_sl = none) :
    (∀ t, s.trailing_sl = some t →
       ∃ t', (manage_short_sl entry cur sl tp s sl).1.trailing_sl = some t' ∧ t' ≤ t) ∧
    (∀ b, s.breakeven_sl = some b →
       (manage_short_sl entry cur sl tp s sl).1.breakeven_sl = some b) ∧
    (∀ p, s.early_protect_sl = some p →
       (manage_short_sl entry cur sl tp s sl).1.early_protect_sl = some p) ∧
    (s.breakeven_moved = true →
       (manage_short_sl entry cur sl tp s sl).1.breakeven_moved = true) := by
  have hm1 : (manage_short_sl entry cur sl tp s sl).1 =
      (manage_short_branch entry cur sl tp s sl).1 := rfl
  rw [hm1]
  rcases manage_short_branch_cases entry cur sl tp s with
    hc | ⟨hrat, htgt, hc⟩ | ⟨hmv, hc⟩ | ⟨hep, hsl, hc⟩ | ⟨hep, hc⟩ <;> rw [hc]
  · exact ⟨fun t ht => ⟨t, ht, le_rfl⟩, fun b hb => hb, fun p hp => hp, fun h => h⟩
  · refine ⟨?_, fun b hb => hb, fun p hp => hp, fun h => h⟩
    intro t ht
    refine ⟨entry - (entry - cur) * 0.50, rfl, ?_⟩
    rw [ht] at hrat
    have hlt : entry - (entry - cur) * 0.50 < t := by simpa using hrat
    exact hlt.le
  · refine ⟨fun t ht => ⟨t, ht, le_rfl⟩, ?_, fun p hp => hp, fun h => by simp⟩
    intro b hb
    rw [hbe hmv] at hb
    cases hb
  · refine ⟨fun t ht => ⟨t, ht, le_rfl⟩, fun b hb => hb, ?_, fun h => h⟩
    intro p hp
    rw [hepinv hep] at hp
    cases hp
  · exact ⟨fun t ht => ⟨t, ht, le_rfl⟩, fun b hb => hb, fun p hp => hp, fun h => h⟩

/-- `_manage_short_sl` preserves the flag/level coupling. -/
theorem manage_short_flags (entry cur sl tp : ℚ) (s : TradeState)
    (hbe : s.breakeven_moved = false → s.breakeven_sl = none)
    (hep : s.early_protect = false → s.early_protect_sl = none) :
    ((manage_short_sl entry cur sl tp s sl).1.breakeven_moved = false →
       (manage_short_sl entry cur sl tp s sl).1.breakeven_sl = none) ∧
    ((manage_short_sl entry cur sl tp s sl).1.early_protect = false →
       (manage_short_sl entry cur sl tp s sl).1.early_protect_sl = none) := by
  have hm1 : (manage_short_sl entry cur sl tp s sl).1 =
      (manage_short_branch entry cur sl tp s sl).1 := rfl
  rw [hm1]
  rcases manage_short_branch_cases entry cur sl tp s with
    hc | ⟨_, _, hc⟩ | ⟨hmv, hc⟩ | ⟨hepf, hsl', hc⟩ | ⟨hepf, hc⟩ <;> rw [hc]
  · exact ⟨hbe, hep⟩
  · exact ⟨hbe, hep⟩
  · refine ⟨?_, hep⟩
    intro h
    simp at h
  · refine ⟨hbe, ?_⟩
    intro h
    simp at h
  · refine ⟨hbe, ?_⟩
    intro h
    simp at h

/-- Effective-SL monotonicity of `_manage_short_sl` across two
consecutive ticks (non-increasing). -/
theorem manage_short_mono (entry cur1 cur2 sl sl2 tp : ℚ) (s : TradeState)
    (hbe : s.breakeven_moved = false → s.breakeven_sl = none)
    (hep : s.early_protect = false → s.early_protect_sl = none)
    (hsl : s.breakeven_moved = false → entry * 0.999 ≤ sl)
    (hsl2 : sl2 = sl ∨ sl2 = (manage_short_sl entry cur1 sl tp s sl).2) :
    (manage_short_sl entry cur2 sl2 tp (manage_short_sl entry cur1 sl tp s sl).1 sl2).2 ≤
      (manage_short_sl entry cur1 sl tp s sl).2 := by
  have hflags := manage_short_flags entry cur1 sl tp s hbe hep
  have hgrow1 := manage_short_grow entry cur1 sl tp s hbe hep
  have hgrow2 := manage_short_grow entry cur2 sl2 tp
    (manage_short_sl entry cur1 sl tp s sl).1 hflags.1 hflags.2
  rcases manage_short_char entry cur2 sl2 tp (manage_short_sl entry cur1 sl tp s sl).1 with
    h2 | ⟨hbm1, _, _, h2⟩
  · rcases hsl2 with heq | hsl2r
    · rw [heq] at h2 hgrow2 ⊢
      rcases manage_short_char entry cur1 sl tp s with h1 | ⟨_, _, hbsl1, h1⟩
      · rw [h1, h2]
        refine (foldShort_le_iff _ _ _).mpr ⟨(foldShort_bounds _ _).1, ?_, ?_, ?_⟩
        · intro t ht
          obtain ⟨t', ht', htt'⟩ := hgrow2.1 t ht
          exact le_trans ((foldShort_bounds _ _).2.1 t' ht') htt'
        · intro b hb
          exact (foldShort_bounds _ _).2.2.1 b (hgrow2.2.1 b hb)
        · intro p hp
          exact (foldShort_bounds _ _).2.2.2 p (hgrow2.2.2.1 p hp)
      · rw [h1, h2]
        refine (foldShort_le_iff _ _ _).mpr ⟨?_, ?_, ?_, ?_⟩
        · exact (foldShort_bounds _ _).2.2.1 _ (hgrow2.2.1 _ hbsl1)
        · intro t ht
          obtain ⟨t', ht', htt'⟩ := hgrow2.1 t ht
          exact le_trans ((foldShort_bounds _ _).2.1 t' ht') htt'
        · intro b hb
          exact (foldShort_bounds _ _).2.2.1 b (hgrow2.2.1 b hb)
        · intro p hp
          exact (foldShort_bounds _ _).2.2.2 p (hgrow2.2.2.1 p hp)
    · rw [h2, ← hsl2r]
      exact (foldShort_bounds _ _).1
  · rcases manage_short_char entry cur1 sl tp s with h1 | ⟨_, hbm0', _, _⟩
    · have hbm0 : s.breakeven_moved = false := by
        cases hb : s.breakeven_moved
        · rfl
        · rw [hgrow1.2.2.2 hb] at hbm1
          exact absurd hbm1 (by simp)
      have hsl' : entry * 0.999 ≤ sl := hsl hbm0
      rw [h1, h2]
      refine (foldShort_le_iff _ _ _).mpr
        ⟨le_trans (foldShort_bounds _ _).1 hsl', ?_, ?_, ?_⟩
      · intro t ht
        obtain ⟨t', ht', htt'⟩ := hgrow2.1 t ht
        exact le_trans ((foldShort_bounds _ _).2.1 t' ht') htt'
      · intro b hb
        rw [hflags.1 hbm1] at hb
        cases hb
      · intro p hp
        exact (foldShort_bounds _ _).2.2.2 p (hgrow2.2.2.1 p hp)
    · rw [hbm0'] at hbm1
      exact absurd hbm1 (by simp)

/-- C9: for a LONG ACTIVE trade, the effective stop loss computed by
`_check_active_signal` is monotone non-decreasing across two successive
ticks — threading the stored `_trade_state` entry and the DB stop loss
(unchanged when no `update_signal_sl` write happened, otherwise the
written effective SL) — and mirrored (non-increasing) for SHORT.  The
flag/level hypotheses hold for every reachable `_trade_state` entry
(they hold for the fresh state and are preserved by the SL managers). -/
theorem C9_effective_sl_monotone (s s1 : TradeState)
    (entry sl tp p1 p2 sl2 e1 e2 : ℚ)
    (hbe : s.breakeven_moved = false → s.breakeven_sl = none)
    (hep : s.early_protect = false → s.early_protect_sl = none)
    (h0 : 0 ≤ entry) :
    ((check_active_body s .LONG entry sl tp p1).effective_sl = some e1 →
     (check_active_body s .LONG entry sl tp p1).state = some s1 →
     ((check_active_body s .LONG entry sl tp p1).dbSl = none ∧ sl2 = sl ∨
      (check_active_body s .LONG entry sl tp p1).dbSl = some sl2) →
     (check_active_body s1 .LONG entry sl2 tp p2).effective_sl = some e2 →
     e1 ≤ e2) ∧
    ((check_active_body s .SHORT entry sl tp p1).effective_sl = some e1 →
     (check_active_body s .SHORT entry sl tp p1).state = some s1 →
     ((check_active_body s .SHORT entry sl tp p1).dbSl = none ∧ sl2 = sl ∨
      (check_active_body s .SHORT entry sl tp p1).dbSl = some sl2) →
     (check_active_body s1 .SHORT entry sl2 tp p2).effective_sl = some e2 →
     e2 ≤ e1) := by
  constructor
  · intro h1eff h1st hdb h2eff
    obtain ⟨he1, hst, hdbor, hgate⟩ := check_active_long_extract s entry sl tp p1 e1 h1eff
    have hs1 : s1 = (manage_long_sl entry p1 sl tp s sl).1 := by
      rw [h1st] at hst
      exact Option.some.inj hst
    have hsl2' : sl2 = sl ∨ sl2 = (manage_long_sl entry p1 sl tp s sl).2 := by
      rcases hdb with ⟨_, hq⟩ | hupd
      · exact Or.inl hq
      · rcases hdbor with hd | hd
        · rw [hd] at hupd
          right
          have hq : e1 = sl2 := Option.some.inj hupd
          rw [← hq]
          exact he1
        · rw [hd] at hupd
          cases hupd
    obtain ⟨he2, _, _, _⟩ := check_active_long_extract s1 entry sl2 tp p2 e2 h2eff
    rw [he1, he2, hs1]
    refine manage_long_mono entry p1 p2 sl sl2 tp s hbe hep ?_ hsl2'
    intro hbm
    have := hgate hbm
    nlinarith
  · intro h1eff h1st hdb h2eff
    obtain ⟨he1, hst, hdbor, hgate⟩ := check_active_short_extract s entry sl tp p1 e1 h1eff
    have hs1 : s1 = (manage_short_sl entry p1 sl tp s sl).1 := by
      rw [h1st] at hst
      exact Option.some.inj hst
    have hsl2' : sl2 = sl ∨ sl2 = (manage_short_sl entry p1 sl tp s sl).2 := by
      rcases hdb with ⟨_, hq⟩ | hupd
      · exact Or.inl hq
      · rcases hdbor with hd | hd
        · rw [hd] at hupd
          right
          have hq : e1 = sl2 := Option.some.inj hupd
          rw [← hq]
          exact he1
        · rw [hd] at hupd
          cases hupd
    obtain ⟨he2, _, _, _⟩ := check_active_short_extract s1 entry sl2 tp p2 e2 h2eff
    rw [he1, he2, hs1]
    refine manage_short_mono entry p1 p2 sl sl2 tp s hbe hep ?_ hsl2'
    intro hbm
    have := hgate hbm
    nlinarith

/-- C9 witness: LONG trade at entry 100, SL 99, TP 104 — the first tick
at price 101 arms the early protect SL 99.8, the second at 102.6 sets
the trailing stop 101.3; SHORT mirror at entry 100, SL 101, TP 96 with
ticks 99 then 97.4 giving 100.2 then 98.7. -/
theorem C9_witness : (99.8 : ℚ) ≤ 101.3 ∧ (98.7 : ℚ) ≤ 100.2 := by
  constructor
  · exact (C9_effective_sl_monotone initTradeState
        { initTradeState with early_protect := true, early_protect_sl := some 99.8 }
        100 99 104 101 102.6 99 99.8 101.3
        (by simp [initTradeState]) (by simp [initTradeState]) (by norm_num)).1
      (by norm_num [check_active_body, manage_long_sl, manage_long_branch, foldLong,
        initTradeState]; simp)
      (by norm_num [check_active_body, manage_long_sl, manage_long_branch, foldLong,
        initTradeState]; simp)
      (Or.inl ⟨by norm_num [check_active_body, manage_long_sl, manage_long_branch, foldLong,
        initTradeState]; simp, rfl⟩)
      (by norm_num [check_active_body, manage_long_sl, manage_long_branch, foldLong,
        initTradeState]; simp)
  · exact (C9_effective_sl_monotone initTradeState
        { initTradeState with early_protect := true, early_protect_sl := some 100.2 }
        100 101 96 99 97.4 101 100.2 98.7
        (by simp [initTradeState]) (by simp [initTradeState]) (by norm_num)).2
      (by norm_num [check_active_body, manage_short_sl, manage_short_branch, foldShort,
        initTradeState]; simp)
      (by norm_num [check_active_body, manage_short_sl, manage_short_branch, foldShort,
        initTradeState]; simp)
      (Or.inl ⟨by norm_num [check_active_body, manage_short_sl, manage_short_branch, foldShort,
        initTradeState]; simp, rfl⟩)
      (by norm_num [check_active_body, manage_short_sl, manage_short_branch, foldShort,
        initTradeState]; simp)

/-- `activate_signal`'s row map is a no-op on rows with a different id. -/
theorem activate_map_noop {l : List SignalRow} {sid : ℕ} (h : ∀ s ∈ l, s.id ≠ sid) :
    l.map (fun s => if s.id = sid then { s with status := SigStatus.ACTIVE } else s) = l := by
  induction l with
  | nil => rfl
  | cons a t ih =>
    simp only [List.map_cons]
    rw [if_neg (h a (List.mem_cons_self a t)), ih (fun s hs => h s (List.mem_cons_of_mem a hs))]

/-- C3 counterexample: `_open_trade` performs no level validation and
LIMIT entries do produce a WAITING row.  (a) A MARKET signal with
entry = SL = TP = 0 passes and is persisted ACTIVE; (b) a MARKET signal
whose SL distance (0.01 %) is far below `min_sl_distance_pct` (1.2 %)
passes; (c) a LIMIT signal is persisted with status WAITING, not
ACTIVE. -/
theorem C3_counterexample :
    (open_trade defaultTMConfig ⟨[], 0, [], 0⟩ 0
        ⟨"BTC-USDT", .LONG, some 0, some 0, some 0, .MARKET, []⟩).2 = .opened 0 ∧
    ((open_trade defaultTMConfig ⟨[], 0, [], 0⟩ 0
        ⟨"BTC-USDT", .LONG, some 0, some 0, some 0, .MARKET, []⟩).1.signals.map
      (fun s => (s.status, s.entry_price, s.stop_loss, s.take_profit))) =
      [(SigStatus.ACTIVE, some 0, some 0, some 0)] ∧
    (open_trade defaultTMConfig ⟨[], 0, [], 0⟩ 0
        ⟨"SOL-USDT", .LONG, some 100, some 99.99, some 200, .MARKET, []⟩).2 = .opened 0 ∧
    (open_trade defaultTMConfig ⟨[], 0, [], 0⟩ 0
        ⟨"ETH-USDT", .SHORT, some 100, some 101, some 96, .LIMIT, []⟩).2 = .limitPlaced 0 ∧
    ((open_trade defaultTMConfig ⟨[], 0, [], 0⟩ 0
        ⟨"ETH-USDT", .SHORT, some 100, some 101, some 96, .LIMIT, []⟩).1.signals.map
      (fun s => (s.status, s.entry_mode))) = [(SigStatus.WAITING, EntryMode.LIMIT)] := by
  refine ⟨?_, ?_, ?_, ?_, ?_⟩ <;>
    norm_num [open_trade, open_trade_gates, get_active_signals, get_active_trade_count,
      get_signal_history, add_signal, activate_signal, defaultTMConfig] <;>
    simp

/-- C3 (amended): `_open_trade` applies only the four portfolio gates
(concurrency cap, same-symbol duplicate, same-direction cap, cooldown)
and never validates entry/SL/TP values; on pass it appends exactly one
signal row carrying the levels as given, with status WAITING when the
effective entry mode is LIMIT (reply LIMIT_PLACED) and ACTIVE otherwise
(reply OPENED), PENDING being coerced to MARKET. -/
theorem C3_open_trade_no_level_validation (cfg : TMConfig) (db : TMDB) (now : ℚ)
    (sig : TradeSignal) (hfresh : ∀ s ∈ db.signals, s.id ≠ db.nextSigId) :
    (∀ r, open_trade_gates cfg db now sig.symbol sig.direction = some r →
       open_trade cfg db now sig = (db, r)) ∧
    (open_trade_gates cfg db now sig.symbol sig.direction = none →
      (let em := if sig.entry_mode = .PENDING then EntryMode.MARKET else sig.entry_mode
       let st := if em = .LIMIT then SigStatus.WAITING else SigStatus.ACTIVE
       let row : SignalRow := ⟨db.nextSigId, sig.symbol, sig.direction, sig.entry, sig.sl,
         sig.tp, st, em, some now, none⟩
       (open_trade cfg db now sig).1.signals = db.signals ++ [row] ∧
       (open_trade cfg db now sig).2 =
         (if st = .ACTIVE then OpenResult.opened db.nextSigId
          else OpenResult.limitPlaced db.nextSigId))) := by
  constructor
  · intro r hr
    simp [open_trade, hr]
  · intro hr
    cases hem : sig.entry_mode <;>
      simp [open_trade, hr, add_signal, activate_signal, hem,
        activate_map_noop hfresh]

/-- C3 witness: a fresh DB, default policy config and a LIMIT signal —
the gates pass and the row is persisted WAITING with the given levels. -/
theorem C3_witness :
    (open_trade defaultTMConfig ⟨[], 0, [], 0⟩ 0
        ⟨"ETH-USDT", .LONG, some 100, some 99, some 104, .LIMIT, []⟩).1.signals =
      [⟨0, "ETH-USDT", .LONG, some 100, some 99, some 104, .WAITING, .LIMIT, some 0, none⟩] ∧
    (open_trade defaultTMConfig ⟨[], 0, [], 0⟩ 0
        ⟨"ETH-USDT", .LONG, some 100, some 99, some 104, .LIMIT, []⟩).2 = .limitPlaced 0 := by
  have h := (C3_open_trade_no_level_validation defaultTMConfig ⟨[], 0, [], 0⟩ 0
      ⟨"ETH-USDT", .LONG, some 100, some 99, some 104, .LIMIT, []⟩ (by simp)).2
    (by simp [open_trade_gates, get_active_signals, get_active_trade_count,
      get_signal_history, defaultTMConfig])
  simpa using h

/-- C4: `process_signal` never touches the signals store — for every
engine emission (SIGNAL or WATCH alike) the persisted signal rows and
the signal id counter are left unchanged, and the watchlist is either
unchanged (duplicate rejection) or extended by exactly one fresh
WATCHING row; a position row can only appear later through the
watchlist check's promotion path into `_open_trade`. -/
theorem C4_process_signal_frame (db : TMDB) (e : Option Emission) :
    (process_signal db e).1.signals = db.signals ∧
    (process_signal db e).1.nextSigId = db.nextSigId ∧
    ((process_signal db e).1.watchlist = db.watchlist ∨
     ∃ row : WatchRow,
       (process_signal db e).1.watchlist = db.watchlist ++ [row] ∧
       row.status = .WATCHING) := by
  cases e with
  | none => exact ⟨rfl, rfl, Or.inl rfl⟩
  | some sig =>
    by_cases hdup : ∃ x ∈ get_active_signals db,
        x.symbol = sig.symbol ∧ (x.status = SigStatus.ACTIVE ∨ x.status = SigStatus.WAITING)
    · simp [process_signal, hdup]
    · refine ⟨?_, ?_, Or.inr ?_⟩ <;>
        simp [process_signal, hdup, add_to_watchlist]

/-- C2 counterexample: a COMPLETED setup reaching `max_watch_candles`
(12) with its SL intact is not expired with a timeout — it is PROMOTED
and handed to `_open_trade`, which persists a WAITING LIMIT position
row. -/
theorem C2_counterexample :
    (check_watchlist_item defaultTMConfig dbC2 0 (fun _ _ _ => none) itemC2completed
        (some [candC2]) (some bundleC2)).2 = .promoted 12 (.limitPlaced 0) ∧
    ((check_watchlist_item defaultTMConfig dbC2 0 (fun _ _ _ => none) itemC2completed
        (some [candC2]) (some bundleC2)).1.watchlist.map (fun w => w.status)) =
      [WatchStatus.PROMOTED] ∧
    ((check_watchlist_item defaultTMConfig dbC2 0 (fun _ _ _ => none) itemC2completed
        (some [candC2]) (some bundleC2)).1.signals.map
      (fun s => (s.status, s.entry_mode))) = [(SigStatus.WAITING, EntryMode.LIMIT)] := by
  refine ⟨?_, ?_, ?_⟩ <;>
    norm_num [check_watchlist_item, validate_completed_setup, itemC2completed, dbC2,
      candC2, bundleC2, promote_watchlist_item, open_trade, open_trade_gates,
      get_active_signals, get_active_trade_count, get_signal_history, add_signal,
      defaultTMConfig, StoredWatchReason.allGates] <;> simp

/-- C2 (amended): at the `max_watch_candles` cap (fresh 5m candle, data
present), a WATCHING item is expired with the timeout reason exactly on
the pending path — gates still incomplete (engine returns nothing) and
SL intact — leaving the signals store untouched; a COMPLETED setup
that is still valid at the cap is instead PROMOTED and handed to
`_open_trade` with the stored levels in LIMIT mode. -/
theorem C2_timeout_only_for_incomplete (cfg : TMConfig) (db : TMDB) (now : ℚ)
    (engine : String → List Candle → Bundle → Option Emission)
    (item : WatchRow) (ltf : List Candle) (bundle : Bundle)
    (hne : ltf.isEmpty = false)
    (hts : ¬ item.last_5m_candle_ts = some (((ltf.getLast?).getD default).ts))
    (hmax : item.max_watch_candles ≤ item.candles_watched + 1) :
    (item.watch_reason.allGates = false →
     validate_completed_setup item.direction item.potential_sl ltf (some bundle) = true →
     engine item.symbol ltf bundle = none →
     check_watchlist_item cfg db now engine item (some ltf) (some bundle) =
       (expire_watchlist_item db item.id (.timeout (item.candles_watched + 1)),
        .expiredTimeout (item.candles_watched + 1))) ∧
    (item.watch_reason.allGates = true →
     validate_completed_setup item.direction item.potential_sl ltf (some bundle) = true →
     check_watchlist_item cfg db now engine item (some ltf) (some bundle) =
       (let db2 := promote_watchlist_item db item.id
        let r := open_trade cfg db2 now
          ⟨item.symbol, item.direction, item.potential_entry, item.potential_sl,
           item.potential_tp, .LIMIT, []⟩
        (r.1, .promoted (item.candles_watched + 1) r.2))) ∧
    (expire_watchlist_item db item.id
      (.timeout (item.candles_watched + 1))).signals = db.signals := by
  refine ⟨?_, ?_, rfl⟩
  · intro hwr hval heng
    simp [check_watchlist_item, hne, hts, hwr, hval, heng, hmax]
  · intro hwr hval
    simp [check_watchlist_item, hne, hts, hwr, hval, hmax]

/-- C2 witness: the pending row times out at candle 12 and is expired,
while the completed row at candle 12 is promoted into `_open_trade`. -/
theorem C2_witness :
    check_watchlist_item defaultTMConfig dbC2 0 (fun _ _ _ => none) itemC2pending
        (some [candC2]) (some bundleC2) =
      (expire_watchlist_item dbC2 0 (.timeout 12), .expiredTimeout 12) ∧
    check_watchlist_item defaultTMConfig dbC2 0 (fun _ _ _ => none) itemC2completed
        (some [candC2]) (some bundleC2) =
      (let db2 := promote_watchlist_item dbC2 0
       let r := open_trade defaultTMConfig db2 0
         ⟨"BTC-USDT", .LONG, some 100, some 99, some 104, .LIMIT, []⟩
       (r.1, .promoted 12 r.2)) := by
  constructor
  · have h := (C2_timeout_only_for_incomplete defaultTMConfig dbC2 0 (fun _ _ _ => none)
        itemC2pending [candC2] bundleC2 (by simp)
        (by simp [itemC2pending, itemC2completed])
        (by norm_num [itemC2pending, itemC2completed])).1
      (by simp [itemC2pending, itemC2completed, StoredWatchReason.allGates])
      (by norm_num [validate_completed_setup, itemC2pending, itemC2completed, candC2,
        bundleC2])
      rfl
    simpa [itemC2pending, itemC2completed] using h
  · have h := (C2_timeout_only_for_incomplete defaultTMConfig dbC2 0 (fun _ _ _ => none)
        itemC2completed [candC2] bundleC2 (by simp)
        (by simp [itemC2completed])
        (by norm_num [itemC2completed])).2.1
      (by simp [itemC2completed, StoredWatchReason.allGates])
      (by norm_num [validate_completed_setup, itemC2completed, candC2, bundleC2])
    simpa [itemC2completed] using h

/-- `save_bot_param` never touches the optimization log. -/
theorem save_bot_param_optLog (db : OptDB) (n : String) (v : ℚ) :
    (save_bot_param db n v).optLog = db.optLog := by
  unfold save_bot_param
  split <;> rfl

/-- The reversion fold of `_check_rollback` writes back exactly the
recorded old values with ROLLBACK reasons and appends one log entry per
reversion. -/
theorem rollback_fold_spec (stats : PerfStats) (wrd lw cw : ℚ) (l : List Change)
    (db : OptDB) (cs : List Change) :
    ((l.foldl (rollback_step stats wrd lw cw) (db, cs)).2.map
        (fun c => (c.param, c.new, c.reason.mentionsRollback)) =
      cs.map (fun c => (c.param, c.new, c.reason.mentionsRollback)) ++
        l.map (fun p => (p.param, p.old, true))) ∧
    (l.foldl (rollback_step stats wrd lw cw) (db, cs)).1.optLog.length =
      db.optLog.length + l.length := by
  induction l generalizing db cs with
  | nil => simp
  | cons p t ih =>
    obtain ⟨ih1, ih2⟩ := ih (rollback_step stats wrd lw cw (db, cs) p).1
      (rollback_step stats wrd lw cw (db, cs) p).2
    simp only [Prod.mk.eta] at ih1 ih2
    constructor
    · rw [List.foldl_cons, ih1]
      simp [rollback_step, OptReason.mentionsRollback]
    · rw [List.foldl_cons, ih2]
      simp [rollback_step, add_optimization_log, save_bot_param_optLog]
      omega

/-- C7 (amended): when a previous run stashed a win rate and changes,
the win rate has dropped 3+ points and the completed pool holds
`min_trades + 2` trades in total (one single new terminal trade since
the stash suffices), the rollback guard reverts exactly the stashed
changes to their recorded old values, appends one ROLLBACK log entry
per reversion and clears its own stash — but `run_optimization` then
returns COMPLETED through `_post_optimization`, which re-stashes those
very rollback changes with the current win rate, so the run does not
end with a cleared rollback state. -/
theorem C7_rollback_restashes (ocfg : OptConfig) (st : OptState) (db : OptDB)
    (pool : Pool) (stats : PerfStats) (last_wr : ℚ)
    (hwr : st.last_optimization_wr = some last_wr)
    (hne : st.last_optimization_changes ≠ [])
    (hdrop : 3 ≤ last_wr - pool.win_rate)
    (hcnt : ocfg.min_trades + 2 ≤ pool.completedCount)
    (htot : ¬ stats.total_trades < ocfg.min_trades)
    (hnoemg : ¬ (pool.win_rate = 0 ∧ 3 ≤ pool.losersCount)) :
    ((check_rollback ocfg st db pool stats).2.2.map
        (fun c => (c.param, c.new, c.reason.mentionsRollback)) =
      st.last_optimization_changes.map (fun p => (p.param, p.old, true))) ∧
    ((check_rollback ocfg st db pool stats).2.1.optLog.length =
      db.optLog.length + st.last_optimization_changes.length) ∧
    ((check_rollback ocfg st db pool stats).1 =
      { st with last_optimization_wr := none, last_optimization_changes := [] }) ∧
    ((run_optimization_early ocfg st db stats pool).2.2 =
      .completedEarly (check_rollback ocfg st db pool stats).2.2) ∧
    ((run_optimization_early ocfg st db stats pool).1 =
      post_optimization (check_rollback ocfg st db pool stats).1
        (check_rollback ocfg st db pool stats).2.2 pool stats.total_trades) ∧
    ((run_optimization_early ocfg st db stats pool).1.last_optimization_wr =
      some pool.win_rate) ∧
    ((run_optimization_early ocfg st db stats pool).1.last_optimization_changes =
      (check_rollback ocfg st db pool stats).2.2) := by
  have hie : st.last_optimization_changes.isEmpty = false := by
    cases hl : st.last_optimization_changes
    · exact absurd hl hne
    · rfl
  have hcr : check_rollback ocfg st db pool stats =
      ({ st with last_optimization_wr := none, last_optimization_changes := [] },
       (st.last_optimization_changes.foldl
          (rollback_step stats (last_wr - pool.win_rate) last_wr pool.win_rate) (db, [])).1,
       (st.last_optimization_changes.foldl
          (rollback_step stats (last_wr - pool.win_rate) last_wr pool.win_rate) (db, [])).2) := by
    simp [check_rollback, hwr, hie, hdrop, hcnt]
  have hfold := rollback_fold_spec stats (last_wr - pool.win_rate) last_wr pool.win_rate
    st.last_optimization_changes db []
  have hmap : (check_rollback ocfg st db pool stats).2.2.map
      (fun c => (c.param, c.new, c.reason.mentionsRollback)) =
      st.last_optimization_changes.map (fun p => (p.param, p.old, true)) := by
    rw [hcr]
    simpa using hfold.1
  have hlen : (check_rollback ocfg st db pool stats).2.1.optLog.length =
      db.optLog.length + st.last_optimization_changes.length := by
    rw [hcr]
    simpa using hfold.2
  have hrbne : (check_rollback ocfg st db pool stats).2.2 ≠ [] := by
    intro h
    have hm := hmap
    rw [h] at hm
    have : st.last_optimization_changes.map (fun p => (p.param, p.old, true)) = [] := hm.symm
    rw [List.map_eq_nil_iff] at this
    exact hne this
  have hie2 : (check_rollback ocfg st db pool stats).2.2.isEmpty = false := by
    cases hl : (check_rollback ocfg st db pool stats).2.2
    · exact absurd hl hrbne
    · rfl
  have hrun : run_optimization_early ocfg st db stats pool =
      (post_optimization (check_rollback ocfg st db pool stats).1
         (check_rollback ocfg st db pool stats).2.2 pool stats.total_trades,
       (check_rollback ocfg st db pool stats).2.1,
       .completedEarly (check_rollback ocfg st db pool stats).2.2) := by
    simp [run_optimization_early, htot, hnoemg, hie2]
  refine ⟨hmap, hlen, by rw [hcr], ?_, ?_, ?_, ?_⟩
  · rw [hrun]
  · rw [hrun]
  · rw [hrun]
    simp [post_optimization]
  · rw [hrun]
    simp [post_optimization]

/-- C7 counterexample: with only one new terminal trade since the stash
(41 completed vs 40 recorded; the claim demands two) the rollback fires
anyway, and after the run the rollback state is not cleared — the
reverted change has been re-stashed with the current win rate. -/
theorem C7_counterexample :
    poolC7.completedCount = stC7.last_trade_count + 1 ∧
    (run_optimization_early defaultOptConfig stC7 dbC7 statsC7 poolC7).2.2 =
      .completedEarly [⟨"min_rr_ratio", 2.2, 2.0, .rollback 3.5 50 46.5, (1.20, 3.00),
        some .risk, true⟩] ∧
    (run_optimization_early defaultOptConfig stC7 dbC7 statsC7 poolC7).1.last_optimization_wr =
      some 46.5 ∧
    ¬ (run_optimization_early defaultOptConfig stC7 dbC7 statsC7 poolC7).1.last_optimization_changes
      = [] ∧
    (run_optimization_early defaultOptConfig stC7 dbC7 statsC7 poolC7).2.1.params =
      [("min_rr_ratio", 2.0)] := by
  refine ⟨?_, ?_, ?_, ?_, ?_⟩ <;>
    norm_num [run_optimization_early, check_rollback, rollback_step, get_bot_param,
      save_bot_param, add_optimization_log, ICT_PARAMS_default, PARAM_REGISTRY,
      post_optimization, stC7, dbC7, poolC7, statsC7, defaultOptConfig,
      OptReason.mentionsRollback]
  all_goals simp

/-- C7 witness: the amended rollback description applied at the concrete
single-new-trade scenario. -/
theorem C7_witness :
    (run_optimization_early defaultOptConfig stC7 dbC7 statsC7 poolC7).1.last_optimization_wr =
      some poolC7.win_rate ∧
    (check_rollback defaultOptConfig stC7 dbC7 poolC7 statsC7).2.2.map
      (fun c => (c.param, c.new, c.reason.mentionsRollback)) = [("min_rr_ratio", 2.0, true)] := by
  have h := C7_rollback_restashes defaultOptConfig stC7 dbC7 poolC7 statsC7 50
    (by norm_num [stC7]) (by simp [stC7]) (by norm_num [poolC7])
    (by norm_num [defaultOptConfig, poolC7]) (by norm_num [defaultOptConfig, statsC7])
    (by norm_num [poolC7])
  refine ⟨h.2.2.2.2.2.1, ?_⟩
  rw [h.1]
  norm_num [stC7]

/-- C8: the `_prepare_change` pipeline — with a positive cap the
proposed move is clamped to `max_param_change_pct × current`; the result
is clamped into the registry bounds; integer-typed parameters are
coerced to an integer; the assembled function is exactly these stages
followed by the `< 1 %` relative-change filter; and proposing the
in-bounds, already-rounded value the parameter currently has yields no
candidate. -/
theorem C8_prepare_change_pipeline (ocfg : OptConfig) (pn : String) (cur nv : ℚ)
    (reason : OptReason) (reg : ParamReg) (hreg : PARAM_REGISTRY pn = some reg) :
    (0 < |cur * ocfg.max_change_pct| →
       |prep_stage1 ocfg cur nv - cur| ≤ |cur * ocfg.max_change_pct|) ∧
    (∀ x, reg.min_b ≤ reg.max_b →
       reg.min_b ≤ prep_stage2 reg x ∧ prep_stage2 reg x ≤ reg.max_b) ∧
    (∀ x, isIntParam pn = true → ∃ z : ℤ, prep_stage3 pn x = (z : ℚ)) ∧
    (prepare_change ocfg pn cur nv reason =
      (let v := prep_stage3 pn (prep_stage2 reg (prep_stage1 ocfg cur nv))
       if cur ≠ 0 then
         if |v - cur| / |cur| < 0.01 then none
         else some ⟨pn, cur, v, reason, (reg.min_b, reg.max_b), some reg.group, false⟩
       else if v = cur then none
       else some ⟨pn, cur, v, reason, (reg.min_b, reg.max_b), some reg.group, false⟩)) ∧
    (prep_stage3 pn cur = cur → reg.min_b ≤ cur → cur ≤ reg.max_b →
       prepare_change ocfg pn cur cur reason = none) := by
  refine ⟨?_, ?_, ?_, ?_, ?_⟩
  · intro hcap
    unfold prep_stage1
    by_cases hcl : 0 < |cur * ocfg.max_change_pct| ∧
        |cur * ocfg.max_change_pct| < |nv - cur|
    · rw [if_pos hcl]
      by_cases hdir : cur < nv
      · rw [if_pos hdir]
        rw [show cur + |cur * ocfg.max_change_pct| - cur = |cur * ocfg.max_change_pct| by ring]
        rw [abs_abs]
      · rw [if_neg hdir]
        rw [show cur + -|cur * ocfg.max_change_pct| - cur = -|cur * ocfg.max_change_pct| by ring]
        rw [abs_neg, abs_abs]
    · rw [if_neg hcl]
      rcases not_and_or.mp hcl with h | h
      · exact absurd hcap h
      · exact le_of_not_lt h
  · intro x hbb
    unfold prep_stage2
    exact ⟨le_max_left _ _, max_le hbb (min_le_left _ _)⟩
  · intro x hint
    unfold prep_stage3
    rw [if_pos hint]
    exact ⟨roundHalfEven x, rfl⟩
  · simp [prepare_change, hreg]
  · intro h3 hlo hhi
    have h1 : prep_stage1 ocfg cur cur = cur := by
      unfold prep_stage1
      rw [if_neg]
      intro hc
      have := hc.2
      simp at this
      exact absurd this (not_lt.mpr (abs_nonneg _))
    have h2 : prep_stage2 reg cur = cur := by
      unfold prep_stage2
      rw [min_eq_right hhi, max_eq_right hlo]
    simp only [prepare_change, hreg, h1, h2, h3]
    by_cases hc : cur = 0
    · simp [hc]
    · simp [hc]
      norm_num

/-- C8 witness: the `min_rr_ratio` parameter (bounds 1.20–3.00) at
current value 2 — the stages behave as stated and re-proposing 2 is a
no-op. -/
theorem C8_witness :
    |prep_stage1 defaultOptConfig 2 3 - 2| ≤ |2 * defaultOptConfig.max_change_pct| ∧
    (1.20 : ℚ) ≤ prep_stage2 ⟨1.20, 3.00, .risk⟩ 5 ∧
    prep_stage2 ⟨1.20, 3.00, .risk⟩ 5 ≤ 3.00 ∧
    prepare_change defaultOptConfig "min_rr_ratio" 2 2 .normal = none := by
  have h := C8_prepare_change_pipeline defaultOptConfig "min_rr_ratio" 2 3 .normal
    ⟨1.20, 3.00, .risk⟩ (by simp [PARAM_REGISTRY])
  have h' := C8_prepare_change_pipeline defaultOptConfig "min_rr_ratio" 2 2 .normal
    ⟨1.20, 3.00, .risk⟩ (by simp [PARAM_REGISTRY])
  refine ⟨h.1 (by norm_num [defaultOptConfig]), (h.2.1 5 (by norm_num)).1,
    (h.2.1 5 (by norm_num)).2, ?_⟩
  refine h'.2.2.2.2 ?_ (by norm_num) (by norm_num)
  norm_num [prep_stage3, isIntParam, pyRound, roundHalfEven]

/-- C10: `generate_signal` is pure and deterministic in the parameter
snapshot — two invocations on the same symbol and frame bundle whose
states carry equal `self.params` produce the same emission, and neither
invocation changes the strategy state (the POI cache and everything
else are left exactly as they were). -/
theorem C10_generate_signal_pure (st1 st2 : StrategyState) (symbol : String)
    (b : Bundle) (hp : st1.params = st2.params) :
    ((generate_signal st1 symbol b).2 = (generate_signal st2 symbol b).2) ∧
    ((generate_signal st1 symbol b).1 = st1) ∧
    ((generate_signal st2 symbol b).1 = st2) := by
  refine ⟨?_, rfl, rfl⟩
  simp only [generate_signal]
  rw [hp]

/-- C10 witness: states differing only in the POI cache, on an empty
bundle — equal emissions, untouched state. -/
theorem C10_witness :
    (generate_signal ⟨defaultParams, []⟩ "BTC-USDT" ⟨none, none, none, none⟩).2 =
      (generate_signal ⟨defaultParams, [("BTC-USDT", [])]⟩ "BTC-USDT"
        ⟨none, none, none, none⟩).2 ∧
    (generate_signal ⟨defaultParams, []⟩ "BTC-USDT" ⟨none, none, none, none⟩).1 =
      ⟨defaultParams, []⟩ :=
  ⟨(C10_generate_signal_pure ⟨defaultParams, []⟩ ⟨defaultParams, [("BTC-USDT", [])]⟩
      "BTC-USDT" ⟨none, none, none, none⟩ rfl).1,
   (C10_generate_signal_pure ⟨defaultParams, []⟩ ⟨defaultParams, [("BTC-USDT", [])]⟩
      "BTC-USDT" ⟨none, none, none, none⟩ rfl).2.1⟩

end ICTBot
